import Mathlib

/-!
# Photography studio back office: partial-update builder and derived status rules

A shallow embedding of the Express handlers of `src/app.js` that build SQL
(`PUT /api/clients/:email`, `POST /api/clients`, `PUT /api/invoices/:id/payment`,
`GET /api/invoices`, `GET /api/products`, `POST /api/sessions`, `POST /api/invoices`,
`GET /api/invoices/:id/details`), of `executeQuery` in `src/backend/config/db.js`, and
of the status rules of the browser pages (`invoices.js`, `clients.js`, `sessions.js`,
`products.js`), with the database as an explicit collaborator that receives each
statement together with its bind list.
-/

namespace PhotographyStudio

/-! ## JavaScript values and objects -/

/-- Scalar JavaScript values as they occur in a parsed request body and in bind lists. -/
inductive JsVal
  | undefined
  | null
  | bool (b : Bool)
  | num (q : ℚ)
  | str (s : String)
  deriving DecidableEq

/-- A plain object: its own enumerable properties in creation order, which for a
parsed request body is the order in which the members were submitted. -/
abbrev JsObject := List (String × JsVal)

/-- Property read `o[key]`; a missing property reads as `undefined`. -/
def getProp (o : JsObject) (key : String) : JsVal :=
  match o.lookup key with
  | some v => v
  | none => JsVal.undefined

/-- Decimal value of a digit string, `none` when the string is empty or has a
character that is not a digit. -/
def parseNat? (s : String) : Option Nat :=
  match s.data with
  | [] => none
  | cs => if cs.all Char.isDigit then some (cs.foldl (fun a c => 10 * a + (c.toNat - 48)) 0) else none

/-- The array index a property key denotes, if any: the key is the canonical
decimal form of an integer below `2^32 - 1`. -/
def arrayIndex? (key : String) : Option Nat :=
  match parseNat? key with
  | some n => if n < 4294967295 ∧ toString n = key then some n else none
  | none => none

/-- Whether a property key is an array index. -/
def isArrayIndex (key : String) : Bool := (arrayIndex? key).isSome

/-- The result of `Object.keys(o)`: array-index keys first, in ascending numeric
order, then the remaining keys in creation order. -/
def objectKeys (o : JsObject) : List String :=
  let keys := o.map Prod.fst
  ((keys.filterMap arrayIndex?).insertionSort (· ≤ ·)).map toString
    ++ keys.filter (fun k => !isArrayIndex k)

/-- The method `String.prototype.toUpperCase` on strings of ASCII characters: the
letters `a`..`z` become `A`..`Z` and every other ASCII character is kept. On a
character outside ASCII the method applies the Unicode mapping (`é` gives `É`, `ß`
gives `SS`), which this function does not follow: there it keeps the character, so
it stands for the method on ASCII strings only (`isAsciiKey`, `jsToUpperCase`). -/
def toUpperCase (s : String) : String := String.mk (s.data.map Char.toUpper)

/-- Whether a key is made of ASCII characters only. -/
def isAsciiKey (k : String) : Bool := k.data.all (fun c => decide (c.toNat < 128))

/-- The method `String.prototype.toUpperCase` for any string, given the Unicode
upper-case mapping of the characters outside ASCII (`special`, a character to the
characters of its upper-case form): the string is mapped character by character, the
ASCII letters `a`..`z` to `A`..`Z`, every other ASCII character to itself. -/
def jsToUpperCase (special : Char → List Char) (s : String) : String :=
  String.mk (s.data.flatMap (fun c => if c.toNat < 128 then [c.toUpper] else special c))

/-! ## HTTP responses and the database collaborator -/

/-- What a handler sends: the status code and the JSON body. -/
structure Response where
  status : Nat
  body : JsObject
  deriving DecidableEq

/-- One entry `COLUMN = :n` of the SET list of the client update. -/
structure SetClause where
  column : String
  placeholder : Nat
  deriving DecidableEq

/-- The text the handler pushes onto `fields` for one clause. -/
def SetClause.text (c : SetClause) : String :=
  c.column ++ " = :" ++ toString c.placeholder

/-- The statements the handlers below hand to `db.executeQuery`. -/
inductive Stmt
  | updateClient (fields : List SetClause) (index : Nat)
  | insertClient
  | updateInvoicePayment
  | insertSession
  | updateClientLastSession
  | begin
  | commit
  | rollback
  | insertInvoice
  | insertLineItem
  | selectInvoice
  | selectLineItems
  | selectClient
  | selectSession
  | selectSessionStaff
  | insertAssignment
  | selectProduct
  deriving DecidableEq

/-- The SQL text of a statement, as the template literals of `app.js` spell it. -/
def Stmt.text : Stmt → String
  | .updateClient fields index =>
      "\n            UPDATE CLIENT \n            SET "
        ++ ", ".intercalate (fields.map SetClause.text)
        ++ "\n            WHERE CLIENTEMAIL = :" ++ toString index ++ "\n        "
  | .insertClient =>
      "\n            INSERT INTO CLIENT (\n"
        ++ "                CLIENTEMAIL, FIRSTNAME, LASTNAME, PHONE, \n"
        ++ "                STREET, CITY, STATE, ZIP, LEADSOURCE, \n"
        ++ "                MANAGEDBY_STAFFEMAIL, MARKETINGLEAD_EMAIL, LAST_SESSION_DATE\n"
        ++ "            ) VALUES (\n"
        ++ "                :1, :2, :3, :4, :5, :6, :7, :8, :9, :10, :11, NULL\n"
        ++ "            )\n        "
  | .updateInvoicePayment =>
      "\n            UPDATE INVOICE \n"
        ++ "            SET PAYMENTRECEIVED = PAYMENTRECEIVED + :payment,\n"
        ++ "                BALANCEDUE = TOTALDUE - (PAYMENTRECEIVED + :payment)\n"
        ++ "            WHERE INVOICENUMBER = :id\n        "
  | .insertSession =>
      "\n"
        ++ "            INSERT INTO PHOTO_SESSION (\n"
        ++ "                SESSIONID, SESSIONTYPE, SESSIONDATE, SESSIONSTARTTIME,\n"
        ++ "                SESSIONENDTIME, LOCATION, PACKAGENAME, SESSIONFEE,\n"
        ++ "                NOTES, CLIENTEMAIL, DEPOSITPAID\n"
        ++ "            ) VALUES (\n"
        ++ "                :1, :2, :3, :4, :5, :6, :7, :8, :9, :10, :11\n"
        ++ "            )\n"
        ++ "        "
  | .updateClientLastSession =>
      "\n"
        ++ "            UPDATE CLIENT \n"
        ++ "            SET LAST_SESSION_DATE = TO_DATE(:sessionDate, \x27YYYY-MM-DD\x27)\n"
        ++ "            WHERE CLIENTEMAIL = :clientEmail\n"
        ++ "        "
  | .begin => "BEGIN"
  | .commit => "COMMIT"
  | .rollback => "ROLLBACK"
  | .insertInvoice =>
      "\n"
        ++ "            INSERT INTO INVOICE (\n"
        ++ "                INVOICENUMBER, INVOICEDATE, DESCRIPTION, SUBTOTAL,\n"
        ++ "                TAX, TOTALDUE, BALANCEDUE, PAYMENTRECEIVED,\n"
        ++ "                BALANCEDUEDATE, CLIENTEMAIL\n"
        ++ "            ) VALUES (\n"
        ++ "                :1, TO_DATE(:2, \x27YYYY-MM-DD\x27), :3, :4, :5, :6, :7, :8, \n"
        ++ "                TO_DATE(:9, \x27YYYY-MM-DD\x27), :10\n"
        ++ "            )\n"
        ++ "        "
  | .insertLineItem =>
      "\n"
        ++ "                    INSERT INTO INVOICE_LINEITEM (INVOICENUMBER, PRODUCTID, QUANTITY)\n"
        ++ "                    VALUES (:1, :2, :3)\n"
        ++ "                "
  | .selectInvoice =>
      "\n"
        ++ "            SELECT i.*, \n"
        ++ "                   c.FIRSTNAME || \x27 \x27 || c.LASTNAME AS CLIENT_NAME,\n"
        ++ "                   c.STREET, c.CITY, c.STATE, c.ZIP,\n"
        ++ "                   c.PHONE AS CLIENT_PHONE,\n"
        ++ "                   c.EMAIL AS CLIENT_EMAIL\n"
        ++ "            FROM INVOICE i\n"
        ++ "            JOIN CLIENT c ON i.CLIENTEMAIL = c.CLIENTEMAIL\n"
        ++ "            WHERE i.INVOICENUMBER = :id\n"
        ++ "        "
  | .selectLineItems =>
      "\n"
        ++ "            SELECT il.*, \n"
        ++ "                   p.PRODUCTNAME, \n"
        ++ "                   p.SALEPRICE,\n"
        ++ "                   (il.QUANTITY * p.SALEPRICE) AS LINE_TOTAL\n"
        ++ "            FROM INVOICE_LINEITEM il\n"
        ++ "            JOIN PRODUCT p ON il.PRODUCTID = p.PRODUCTID\n"
        ++ "            WHERE il.INVOICENUMBER = :id\n"
        ++ "            ORDER BY p.PRODUCTNAME\n"
        ++ "        "
  | .selectClient =>
      "\n"
        ++ "            SELECT c.*, \n"
        ++ "                   s.FIRSTNAME || \x27 \x27 || s.LASTNAME AS MANAGER_NAME,\n"
        ++ "                   s.PHONE AS MANAGER_PHONE,\n"
        ++ "                   s.EMAIL AS MANAGER_EMAIL\n"
        ++ "            FROM CLIENT c\n"
        ++ "            LEFT JOIN STAFF s ON c.MANAGEDBY_STAFFEMAIL = s.STAFFEMAIL\n"
        ++ "            WHERE c.CLIENTEMAIL = :email\n"
        ++ "        "
  | .selectSession =>
      "\n"
        ++ "            SELECT ps.*, \n"
        ++ "                   c.FIRSTNAME || \x27 \x27 || c.LASTNAME AS CLIENT_NAME,\n"
        ++ "                   c.PHONE AS CLIENT_PHONE,\n"
        ++ "                   c.STREET, c.CITY, c.STATE, c.ZIP\n"
        ++ "            FROM PHOTO_SESSION ps\n"
        ++ "            JOIN CLIENT c ON ps.CLIENTEMAIL = c.CLIENTEMAIL\n"
        ++ "            WHERE ps.SESSIONID = :id\n"
        ++ "        "
  | .selectSessionStaff =>
      "\n"
        ++ "            SELECT psa.*, \n"
        ++ "                   s.FIRSTNAME || \x27 \x27 || s.LASTNAME AS STAFF_NAME,\n"
        ++ "                   s.ROLE AS STAFF_MAIN_ROLE\n"
        ++ "            FROM PHOTO_SESSION_ASSIGNMENT psa\n"
        ++ "            JOIN STAFF s ON psa.STAFFEMAIL = s.STAFFEMAIL\n"
        ++ "            WHERE psa.SESSIONID = :id\n"
        ++ "            ORDER BY psa.ROLE\n"
        ++ "        "
  | .insertAssignment =>
      "\n"
        ++ "            INSERT INTO PHOTO_SESSION_ASSIGNMENT (SESSIONID, STAFFEMAIL, ROLE)\n"
        ++ "            VALUES (:1, :2, :3)\n"
        ++ "        "
  | .selectProduct =>
      "\n"
        ++ "            SELECT p.*,\n"
        ++ "                   (SELECT COUNT(DISTINCT il.INVOICENUMBER) \n"
        ++ "                    FROM INVOICE_LINEITEM il \n"
        ++ "                    WHERE il.PRODUCTID = p.PRODUCTID) AS TIMES_SOLD\n"
        ++ "            FROM PRODUCT p\n"
        ++ "            WHERE p.PRODUCTID = :id\n"
        ++ "        "

/-- One call `db.executeQuery(sql, binds)`. -/
structure SqlCall where
  stmt : Stmt
  binds : List JsVal
  deriving DecidableEq

/-- The database behind `db.executeQuery`: a call either throws (with the driver's
message) or resolves to the rows of the result (none for an UPDATE or INSERT:
`result.rows || []`), and may change the stored state. -/
structure Db (σ : Type) where
  execute : SqlCall → σ → Except String (List JsObject) × σ

/-- What running a handler yields: the response, the database state afterwards
and the calls made to `db.executeQuery`, in order. -/
structure Handled (σ : Type) where
  response : Response
  state : σ
  calls : List SqlCall

/-! ## PUT /api/clients/:email -/

/-- The three accumulators of the dynamic update builder: `fields`, `values`, `index`. -/
structure Builder where
  fields : List SetClause
  values : List JsVal
  index : Nat
  deriving DecidableEq

/-- The body of the `forEach` callback for one key. -/
def Builder.step (updates : JsObject) (b : Builder) (key : String) : Builder :=
  if key ≠ "clientEmail" then
    { fields := b.fields ++ [{ column := toUpperCase key, placeholder := b.index }]
      values := b.values ++ [getProp updates key]
      index := b.index + 1 }
  else b

/-- The loop `Object.keys(updates).forEach(...)` started from empty lists and index 1. -/
def buildFields (updates : JsObject) : Builder :=
  (objectKeys updates).foldl (Builder.step updates) { fields := [], values := [], index := 1 }

/-- Response of the empty-field-set check. -/
def noFieldsResponse : Response :=
  { status := 400, body := [("error", JsVal.str "No fields to update")] }

/-- Response after the update statement ran. -/
def clientUpdatedResponse : Response :=
  { status := 200
    body := [("success", JsVal.bool true), ("message", JsVal.str "Client updated successfully")] }

/-- Response of a `catch` block: status 500 with the error message. -/
def errorResponse (message : String) : Response :=
  { status := 500, body := [("error", JsVal.str message)] }

/-- The handler of `PUT /api/clients/:email` for path parameter `email` and body `updates`. -/
def putClient {σ : Type} (db : Db σ) (email : String) (updates : JsObject) (s : σ) : Handled σ :=
  let b := buildFields updates
  if b.fields.length = 0 then
    { response := noFieldsResponse, state := s, calls := [] }
  else
    let values := b.values ++ [JsVal.str email]
    let call : SqlCall := { stmt := Stmt.updateClient b.fields b.index, binds := values }
    match db.execute call s with
    | (Except.ok _, s') => { response := clientUpdatedResponse, state := s', calls := [call] }
    | (Except.error e, s') => { response := errorResponse e, state := s', calls := [call] }

/-- The keys that reach the SET list: `Object.keys(updates)` without `clientEmail`. -/
def updateKeys (updates : JsObject) : List String :=
  (objectKeys updates).filter (fun k => k ≠ "clientEmail")

/-- The clauses for the keys `ks`, numbered upwards from placeholder `n`. -/
def numberedFrom (n : Nat) (ks : List String) : List SetClause :=
  (ks.enumFrom n).map (fun p => { column := toUpperCase p.2, placeholder := p.1 })

/-- The call the handler makes when some key reaches the SET list. -/
def clientUpdateCall (email : String) (updates : JsObject) : SqlCall :=
  { stmt := Stmt.updateClient (numberedFrom 1 (updateKeys updates)) ((updateKeys updates).length + 1)
    binds := (updateKeys updates).map (getProp updates) ++ [JsVal.str email] }

/-! ## POST /api/clients -/

/-- The `params` array of the create handler: the body fields in bind order. -/
def createClientParams : List String :=
  ["clientEmail", "firstName", "lastName", "phone", "street", "city", "state", "zip",
   "leadSource", "managedByStaffEmail", "marketingLeadEmail"]

/-- The column list of the INSERT, in order; the first eleven take `:1` .. `:11`,
the last takes the literal NULL. -/
def clientInsertColumns : List String :=
  ["CLIENTEMAIL", "FIRSTNAME", "LASTNAME", "PHONE", "STREET", "CITY", "STATE", "ZIP",
   "LEADSOURCE", "MANAGEDBY_STAFFEMAIL", "MARKETINGLEAD_EMAIL", "LAST_SESSION_DATE"]

/-- The columns of the CLIENT table other than its key. -/
def clientMutableColumns : List String := clientInsertColumns.tail

/-- The column in which the create operation stores a body field: the column at the
position of the field's bind. -/
def createColumnOf (field : String) : Option String :=
  (createClientParams.zip clientInsertColumns).lookup field

/-- Response of a successful create. -/
def clientCreatedResponse (clientEmail : JsVal) : Response :=
  { status := 201
    body := [("success", JsVal.bool true), ("message", JsVal.str "Client created successfully"),
             ("clientEmail", clientEmail)] }

/-- The handler of `POST /api/clients`. -/
def postClient {σ : Type} (db : Db σ) (body : JsObject) (s : σ) : Handled σ :=
  let params := createClientParams.map (getProp body)
  let call : SqlCall := { stmt := Stmt.insertClient, binds := params }
  match db.execute call s with
  | (Except.ok _, s') =>
      { response := clientCreatedResponse (getProp body "clientEmail"), state := s', calls := [call] }
  | (Except.error e, s') =>
      { response := { status := 500
                      body := [("success", JsVal.bool false),
                               ("error", JsVal.str "Failed to create client"),
                               ("details", JsVal.str e)] }
        state := s', calls := [call] }

/-- The columns a call assigns in its SET list (none for a statement that is not the
client update). -/
def setColumns (call : SqlCall) : List String :=
  match call.stmt with
  | Stmt.updateClient fields _ => fields.map SetClause.column
  | _ => []

/-! ## A model of the CLIENT table -/

/-- A stored client row: the value of each column, by column name. -/
abbrev Row := String → JsVal

/-- Whether a value is stored or bound as SQL NULL. -/
def isNull : JsVal → Bool
  | JsVal.undefined => true
  | JsVal.null => true
  | _ => false

/-- SQL equality as a WHERE condition: true only for two equal non-NULL values. -/
def sqlEqual (a b : JsVal) : Bool :=
  !isNull a && !isNull b && decide (a = b)

/-- Assignment of one column of a row. -/
def assign (r : Row) (column : String) (v : JsVal) : Row :=
  fun c => if c = column then v else r c

/-- The SET list applied to a row: each clause takes the bind at its position. -/
def assignAll (r : Row) (sets : List (SetClause × JsVal)) : Row :=
  sets.foldl (fun acc p => assign acc p.1.column p.2) r

/-- Model of the database running the client UPDATE: binds are taken by position, the
SET clauses first and the WHERE value after them; each row whose CLIENTEMAIL equals
the WHERE value gets every listed column assigned. -/
def applyClientUpdate (fields : List SetClause) (binds : List JsVal) (t : List Row) : List Row :=
  let key := binds.getD fields.length JsVal.null
  t.map (fun r => if sqlEqual (r "CLIENTEMAIL") key then assignAll r (fields.zip binds) else r)

/-- The CLIENT table as a database: it runs the client UPDATE and rejects anything else. -/
def clientDb : Db (List Row) where
  execute call t :=
    match call.stmt with
    | Stmt.updateClient fields _ => (Except.ok [], applyClientUpdate fields call.binds t)
    | _ => (Except.error "statement not supported by the CLIENT table model", t)

/-- A stored client used as example data: Jane Doe, `jane@x.com`. -/
def sampleClient : Row := fun c =>
  if c = "CLIENTEMAIL" then JsVal.str "jane@x.com"
  else if c = "FIRSTNAME" then JsVal.str "Jane"
  else if c = "LASTNAME" then JsVal.str "Doe"
  else JsVal.null

/-! ## Invoices -/

/-- A stored invoice row; numbers are exact decimals, dates are instants in seconds,
`none` is SQL NULL. -/
structure InvoiceRow where
  INVOICENUMBER : Int
  INVOICEDATE : Option Int
  DESCRIPTION : Option String
  SUBTOTAL : Option ℚ
  TAX : Option ℚ
  TOTALDUE : Option ℚ
  BALANCEDUE : Option ℚ
  PAYMENTRECEIVED : Option ℚ
  BALANCEDUEDATE : Option Int
  CLIENTEMAIL : String
  deriving DecidableEq

/-- An invoice used as example data: number 1001 for `jane@x.com`, total due 300.00,
nothing received, no due date. -/
def sampleInvoice : InvoiceRow :=
  { INVOICENUMBER := 1001, INVOICEDATE := none, DESCRIPTION := none, SUBTOTAL := some 300,
    TAX := some 0, TOTALDUE := some 300, BALANCEDUE := some 300, PAYMENTRECEIVED := some 0,
    BALANCEDUEDATE := none, CLIENTEMAIL := "jane@x.com" }

/-- SQL addition: NULL when an operand is NULL. -/
def sqlAdd (a b : Option ℚ) : Option ℚ :=
  match a, b with
  | some x, some y => some (x + y)
  | _, _ => none

/-- SQL subtraction: NULL when an operand is NULL. -/
def sqlSub (a b : Option ℚ) : Option ℚ :=
  match a, b with
  | some x, some y => some (x - y)
  | _, _ => none

/-- SQL comparison `a = b`: unknown (`none`) when an operand is NULL. -/
def sqlEq (a b : Option ℚ) : Option Bool :=
  match a, b with
  | some x, some y => some (decide (x = y))
  | _, _ => none

/-- SQL comparison `a < b` on dates: unknown (`none`) when an operand is NULL. -/
def sqlLt (a b : Option Int) : Option Bool :=
  match a, b with
  | some x, some y => some (decide (x < y))
  | _, _ => none

/-- A searched CASE expression: the value of the first branch whose condition is
true, the ELSE value when none is. -/
def caseWhen : List (Option Bool × String) → String → String
  | [], otherwise => otherwise
  | (cond, value) :: rest, otherwise =>
      if cond = some true then value else caseWhen rest otherwise

/-- The PAYMENT_STATUS column of `GET /api/invoices` for one row, with `sysdate` the
value of SYSDATE. -/
def PAYMENT_STATUS (i : InvoiceRow) (sysdate : Int) : String :=
  caseWhen
    [(sqlEq i.BALANCEDUE (some 0), "Paid"),
     (sqlLt i.BALANCEDUEDATE (some sysdate), "Overdue")]
    "Pending"

/-- The invoice status rule in the words of the specification: paid if the balance
is zero; else overdue if a due date is set and earlier than now; else pending. -/
def invoiceRule (balance : Option ℚ) (dueDate : Option Int) (now : Int) : String :=
  if balance = some 0 then "Paid"
  else
    match dueDate with
    | some d => if d < now then "Overdue" else "Pending"
    | none => "Pending"

/-- A bind used as a number: a JavaScript number is itself, null and undefined are
NULL, a string of digits converts to its value; anything else is rejected. -/
def sqlNumber : JsVal → Except String (Option ℚ)
  | JsVal.num q => Except.ok (some q)
  | JsVal.null => Except.ok none
  | JsVal.undefined => Except.ok none
  | JsVal.str s =>
      match parseNat? s with
      | some n => Except.ok (some (n : ℚ))
      | none => Except.error "ORA-01722: invalid number"
  | JsVal.bool _ => Except.error "NJS-011: encountered bind value and type mismatch"

/-- The SET list of the payment UPDATE on one row; both right-hand sides read the
row as it was before the statement. -/
def applyPayment (payment1 payment2 : Option ℚ) (r : InvoiceRow) : InvoiceRow :=
  { r with
    PAYMENTRECEIVED := sqlAdd r.PAYMENTRECEIVED payment1
    BALANCEDUE := sqlSub r.TOTALDUE (sqlAdd r.PAYMENTRECEIVED payment2) }

/-- Model of the database running the payment UPDATE: the three binds are taken by
position (`:payment`, `:payment`, `:id`). -/
def applyPaymentUpdate (binds : List JsVal) (t : List InvoiceRow) :
    Except String (List InvoiceRow) :=
  match binds with
  | [b1, b2, b3] =>
      match sqlNumber b1, sqlNumber b2, sqlNumber b3 with
      | Except.ok p1, Except.ok p2, Except.ok id =>
          Except.ok (t.map (fun r =>
            if some (r.INVOICENUMBER : ℚ) = id then applyPayment p1 p2 r else r))
      | Except.error e, _, _ => Except.error e
      | _, Except.error e, _ => Except.error e
      | _, _, Except.error e => Except.error e
  | _ => Except.error "ORA-01008: not all variables bound"

/-- The INVOICE table as a database: it runs the payment UPDATE and rejects
anything else; a statement that fails leaves the table as it was. -/
def invoiceDb : Db (List InvoiceRow) where
  execute call t :=
    match call.stmt with
    | Stmt.updateInvoicePayment =>
        match applyPaymentUpdate call.binds t with
        | Except.ok t' => (Except.ok [], t')
        | Except.error e => (Except.error e, t)
    | _ => (Except.error "statement not supported by the INVOICE table model", t)

/-- Response after the payment statement ran. -/
def paymentRecordedResponse : Response :=
  { status := 200
    body := [("success", JsVal.bool true), ("message", JsVal.str "Payment recorded successfully")] }

/-- The handler of `PUT /api/invoices/:id/payment` for path parameter `id`. -/
def putInvoicePayment {σ : Type} (db : Db σ) (id : String) (body : JsObject) (s : σ) :
    Handled σ :=
  let paymentReceived := getProp body "paymentReceived"
  let call : SqlCall :=
    { stmt := Stmt.updateInvoicePayment, binds := [paymentReceived, paymentReceived, JsVal.str id] }
  match db.execute call s with
  | (Except.ok _, s') => { response := paymentRecordedResponse, state := s', calls := [call] }
  | (Except.error e, s') => { response := errorResponse e, state := s', calls := [call] }

/-! ## Derived status in the browser: invoices -/

/-- The status text `renderInvoicesTable` shows for one invoice as served by
`GET /api/invoices` (a NUMBER arrives as a number or null, a DATE as null or a string
that `new Date` reads back as the same instant); `today` is the value of `new Date()`. -/
def invoiceTableStatus (invoice : InvoiceRow) (today : Int) : String :=
  if invoice.BALANCEDUE = some 0 then "Paid"
  else
    match invoice.BALANCEDUEDATE with
    | some dueDate => if dueDate < today then "Overdue" else "Pending"
    | none => "Draft"

/-- The comparison `x > 0` on a served number: false for null. -/
def jsPositive (x : Option ℚ) : Bool :=
  match x with
  | some q => decide (0 < q)
  | none => false

/-- Whether the reducer of `updateInvoiceStats` adds an invoice to the overdue amount:
a due date is set, it is before `today`, and the balance is positive. -/
def countsAsOverdue (inv : InvoiceRow) (today : Int) : Bool :=
  match inv.BALANCEDUEDATE with
  | some dueDate => decide (dueDate < today) && jsPositive inv.BALANCEDUE
  | none => false

/-- The reducer of `updateInvoiceStats` for the overdue amount. -/
def overdueStep (today : Int) (sum : ℚ) (inv : InvoiceRow) : ℚ :=
  if countsAsOverdue inv today then sum + inv.BALANCEDUE.getD 0 else sum

/-- The overdue amount statistic: `invoicesData.reduce(..., 0)`. -/
def overdueAmount (invoicesData : List InvoiceRow) (today : Int) : ℚ :=
  invoicesData.foldl (overdueStep today) 0

/-- An overpaid invoice used as example data: total due 300.00, 350.00 received,
balance -50.00, due at instant 1000. -/
def overpaidInvoice : InvoiceRow :=
  { INVOICENUMBER := 1002, INVOICEDATE := none, DESCRIPTION := none, SUBTOTAL := some 300,
    TAX := some 0, TOTALDUE := some 300, BALANCEDUE := some (-50), PAYMENTRECEIVED := some 350,
    BALANCEDUEDATE := some 1000, CLIENTEMAIL := "jane@x.com" }

/-! ## Derived status in the browser: clients -/

/-- Milliseconds in a day. -/
def msPerDay : Int := 86400000

/-- The day number of a time value: `floor(t / msPerDay)`, day 0 being 1 January 1970. -/
def Day (t : Int) : Int := t / msPerDay

/-- The time within the day of a time value: `t modulo msPerDay`. -/
def TimeWithinDay (t : Int) : Int := t % msPerDay

/-- The day number of the date `year`-`month`-`day` of the proleptic Gregorian
calendar, `month` counted from 1; a `day` past the end of the month counts on into
the following months. -/
def daysFromCivil (year month day : Int) : Int :=
  let y := if month ≤ 2 then year - 1 else year
  let era := y / 400
  let yoe := y - era * 400
  let mp := (month + 9) % 12
  let doy := (153 * mp + 2) / 5 + day - 1
  let doe := yoe * 365 + yoe / 4 - yoe / 100 + doy
  era * 146097 + doe - 719468

/-- The Gregorian date of a day number: year, month counted from 1, day of the
month. -/
def civilFromDays (day : Int) : Int × Int × Int :=
  let z := day + 719468
  let era := z / 146097
  let doe := z - era * 146097
  let yoe := (doe - doe / 1460 + doe / 36524 - doe / 146096) / 365
  let doy := doe - (365 * yoe + yoe / 4 - yoe / 100)
  let mp := (5 * doy + 2) / 153
  let d := doy - (153 * mp + 2) / 5 + 1
  let m := if mp < 10 then mp + 3 else mp - 9
  (if m ≤ 2 then yoe + era * 400 + 1 else yoe + era * 400, m, d)

/-- The year of a time value. -/
def YearFromTime (t : Int) : Int := (civilFromDays (Day t)).1

/-- The month of a time value, 0 for January to 11 for December. -/
def MonthFromTime (t : Int) : Int := (civilFromDays (Day t)).2.1 - 1

/-- The day of the month of a time value, from 1. -/
def DateFromTime (t : Int) : Int := (civilFromDays (Day t)).2.2

/-- The day number `MakeDay(year, month, date)`: `month` (counted from 0) may lie
outside 0..11 and then reaches into other years, and `date` may lie past the end of
the month and then reaches into the following months. -/
def MakeDay (year month date : Int) : Int :=
  daysFromCivil (year + month / 12) (month % 12 + 1) 1 + date - 1

/-- The time value `MakeDate(day, time)`. -/
def MakeDate (day time : Int) : Int := day * msPerDay + time

/-- The time zone of the browser: the offset of local time from UTC in milliseconds,
given a UTC time value (`offsetAtUtc`) or a local time value (`offsetAtLocal`). -/
structure TimeZone where
  offsetAtUtc : Int → Int
  offsetAtLocal : Int → Int

/-- The zone of a browser running in UTC. -/
def utcZone : TimeZone where
  offsetAtUtc _ := 0
  offsetAtLocal _ := 0

/-- The local time value of a UTC time value. -/
def LocalTime (tz : TimeZone) (t : Int) : Int := t + tz.offsetAtUtc t

/-- The UTC time value of a local time value. -/
def UTC (tz : TimeZone) (t : Int) : Int := t - tz.offsetAtLocal t

/-- The method `getMonth` of a `Date` holding the time value `t`. -/
def getMonth (tz : TimeZone) (t : Int) : Int := MonthFromTime (LocalTime tz t)

/-- The time value a `Date` holding `t` has after `setMonth(month)`: the local year,
day of the month and time of day are kept and the month is replaced; a day of the
month that the new month does not have reaches into the month after it. Time values
stay within the range of `Date`. -/
def setMonth (tz : TimeZone) (t month : Int) : Int :=
  UTC tz (MakeDate
    (MakeDay (YearFromTime (LocalTime tz t)) month (DateFromTime (LocalTime tz t)))
    (TimeWithinDay (LocalTime tz t)))

/-- The instant `sixMonthsAgo` of `renderClientsTable`: `new Date()` moved by
`setMonth(today.getMonth() - 6)`, `today` being `new Date()` as well. -/
def sixMonthsAgo (tz : TimeZone) (now : Int) : Int :=
  setMonth tz now (getMonth tz now - 6)

/-- The status text `renderClientsTable` shows for a client whose LAST_SESSION_DATE is
null (`none`) or a date string read back as an instant. -/
def clientStatusText (tz : TimeZone) (LAST_SESSION_DATE : Option Int) (now : Int) : String :=
  match LAST_SESSION_DATE with
  | none => "New"
  | some lastSessionDate =>
      if lastSessionDate < sixMonthsAgo tz now then "Inactive" else "Active"

/-- The number of days of the month `month` (counted from 0, possibly outside 0..11)
of `year`. -/
def daysInMonth (year month : Int) : Int := MakeDay year (month + 1) 1 - MakeDay year month 1

/-- Following the spec's words, the instant six months before now: the same local
time of day on the same day of the month six calendar months earlier, and on the last
day of that month when it has no such day (as `ADD_MONTHS(SYSDATE, -6)` of the
server's queries counts). -/
def sixMonthsBefore (tz : TimeZone) (now : Int) : Int :=
  let year := YearFromTime (LocalTime tz now)
  let month := MonthFromTime (LocalTime tz now) - 6
  UTC tz (MakeDate
    (MakeDay year month (min (DateFromTime (LocalTime tz now)) (daysInMonth year month)))
    (TimeWithinDay (LocalTime tz now)))

/-- Following the spec's words, the client status: new without a last session date,
inactive when it is strictly earlier than six months before now, active otherwise. -/
def clientStatusRule (tz : TimeZone) (LAST_SESSION_DATE : Option Int) (now : Int) : String :=
  match LAST_SESSION_DATE with
  | none => "New"
  | some lastSessionDate =>
      if lastSessionDate < sixMonthsBefore tz now then "Inactive" else "Active"

/-! ## Derived status in the browser: sessions -/

/-- A `Date` object: its time value, `none` for an invalid date. -/
abbrev JsDate := Option Int

/-- The comparison `a < b` of two dates or instants: false when one is invalid. -/
def dateLt (a b : JsDate) : Bool :=
  match a, b with
  | some x, some y => decide (x < y)
  | _, _ => false

/-- The comparison `a <= b` of two dates or instants: false when one is invalid. -/
def dateLe (a b : JsDate) : Bool :=
  match a, b with
  | some x, some y => decide (x ≤ y)
  | _, _ => false

/-- The function `getSessionStatus(sessionDate, sessionEndTime)`; `parse` is the
`Date` constructor on a string, `now` the value of `new Date()`, and an end time of
`none` or the empty string is falsy. -/
def getSessionStatus (parse : String → JsDate) (now : Int) (sessionDate : String)
    (sessionEndTime : Option String) : String :=
  let sessionStart : JsDate := parse sessionDate
  let sessionEnd : Option JsDate :=
    match sessionEndTime with
    | some t => if t ≠ "" then some (parse (sessionDate ++ "T" ++ t)) else none
    | none => none
  let pastEnd : Bool :=
    match sessionEnd with
    | some e => dateLt e (some now)
    | none => false
  let beforeEnd : Bool :=
    match sessionEnd with
    | some e => dateLe (some now) e
    | none => true
  if pastEnd then "completed"
  else if dateLe sessionStart (some now) && beforeEnd then "inprogress"
  else if dateLt (some now) sessionStart then "upcoming"
  else "unknown"

/-- A `Date` constructor used as example data, for a browser in UTC: the date
2024-06-01 and the instant 16:00 of that day, in milliseconds. -/
def sampleParse (s : String) : JsDate :=
  if s = "2024-06-01" then some 1717200000000
  else if s = "2024-06-01T16:00" then some 1717257600000
  else none

/-! ## Derived status: products -/

/-- The stock level a product view works with: `product.INITIALSTOCKLEVEL || 0`. -/
def stockLevelOf (INITIALSTOCKLEVEL : Option ℚ) : ℚ :=
  match INITIALSTOCKLEVEL with
  | some q => if q = 0 then 0 else q
  | none => 0

/-- The status text of a product in the grid card, the table row and the detail view
(the three views repeat the same test). -/
def productStatusText (INITIALSTOCKLEVEL : Option ℚ) : String :=
  let stockLevel := stockLevelOf INITIALSTOCKLEVEL
  if stockLevel = 0 then "Out of Stock"
  else if stockLevel ≤ 10 then "Low Stock"
  else "In Stock"

/-- The filter of `renderLowStockTable`: `stockLevel > 0 && stockLevel <= 10`. -/
def lowStockListed (INITIALSTOCKLEVEL : Option ℚ) : Bool :=
  let stockLevel := stockLevelOf INITIALSTOCKLEVEL
  decide (0 < stockLevel) && decide (stockLevel ≤ 10)

/-- The comparison `x <= 10` on a served number: null counts as 0. -/
def jsAtMostTen (x : Option ℚ) : Bool :=
  match x with
  | some q => decide (q ≤ 10)
  | none => true

/-- The filter of the low-stock statistic in `updateInventoryStats`:
`p.INITIALSTOCKLEVEL <= 10 && p.INITIALSTOCKLEVEL > 0`. -/
def lowStockCounted (INITIALSTOCKLEVEL : Option ℚ) : Bool :=
  jsAtMostTen INITIALSTOCKLEVEL && jsPositive INITIALSTOCKLEVEL

/-- SQL comparison `a <= b` on numbers: unknown (`none`) when an operand is NULL. -/
def sqlLe (a b : Option ℚ) : Option Bool :=
  match a, b with
  | some x, some y => some (decide (x ≤ y))
  | _, _ => none

/-- The STOCK_STATUS column of `GET /api/products` for a row with the given
INITIALSTOCKLEVEL. -/
def STOCK_STATUS (INITIALSTOCKLEVEL : Option ℚ) : String :=
  caseWhen
    [(sqlLe INITIALSTOCKLEVEL (some 5), "Low"),
     (sqlLe INITIALSTOCKLEVEL (some 20), "Medium")]
    "High"

/-- The session status rule in the words of the specification, for a session with
start instant `start` and end instant `finish`: completed if the end is before now;
in progress if now is between start and end; upcoming if the start is after now. -/
def sessionRule (start finish now : Int) : String :=
  if finish < now then "completed"
  else if start ≤ now then "inprogress"
  else "upcoming"

/-! ## db.executeQuery over the driver -/

/-- What a call of `executeQuery` does at the driver, in order. -/
inductive DriverEvent
  | getConnection
  | execute (connection : Nat) (sql : String) (binds : List JsVal) (autoCommit : Bool)
  | close (connection : Nat)
  deriving DecidableEq

/-- The oracledb pool and its connections: `getConnection` hands out a connection or
throws; `execute` throws or resolves to a result whose `rows` may be undefined
(`none`); `close` may throw. Each may change the state of the database. -/
structure Driver (σ : Type) where
  getConnection : σ → Except String Nat × σ
  execute : Nat → String → List JsVal → Bool → σ → Except String (Option (List JsObject)) × σ
  close : Nat → σ → Except String Unit × σ

/-- How a call of `executeQuery` settles: with the rows or the error thrown, the state
of the database afterwards, and what was done at the driver. -/
structure QueryRun (σ : Type) where
  outcome : Except String (List JsObject)
  state : σ
  events : List DriverEvent

/-- The function `executeQuery(sql, binds)` of `config/db.js`, called without options:
the statement runs with `autoCommit: true`; the `finally` block closes the connection
when one was obtained, and an error of `close` is logged and dropped. -/
def executeQuery {σ : Type} (drv : Driver σ) (sql : String) (binds : List JsVal) (s : σ) :
    QueryRun σ :=
  match drv.getConnection s with
  | (Except.error err, s1) =>
      { outcome := Except.error err, state := s1, events := [DriverEvent.getConnection] }
  | (Except.ok connection, s1) =>
      match drv.execute connection sql binds true s1 with
      | (Except.ok rows, s2) =>
          { outcome := Except.ok (rows.getD [])
            state := (drv.close connection s2).2
            events := [DriverEvent.getConnection,
                       DriverEvent.execute connection sql binds true,
                       DriverEvent.close connection] }
      | (Except.error err, s2) =>
          { outcome := Except.error err
            state := (drv.close connection s2).2
            events := [DriverEvent.getConnection,
                       DriverEvent.execute connection sql binds true,
                       DriverEvent.close connection] }

/-- The database as the handlers see it, when `db.executeQuery` runs over a driver. -/
def dbOfDriver {σ : Type} (drv : Driver σ) : Db σ where
  execute call s :=
    ((executeQuery drv call.stmt.text call.binds s).outcome,
     (executeQuery drv call.stmt.text call.binds s).state)

/-- A driver used as example data: the state counts the statements run; connection 7
is handed out, statements resolve without rows except `SELECT FAIL`, which throws, and
`close` always throws. -/
def sampleDriver : Driver Nat where
  getConnection s := (Except.ok 7, s)
  execute _ sql _ _ s :=
    if sql = "SELECT FAIL" then (Except.error "ORA-00942: table or view does not exist", s + 1)
    else (Except.ok none, s + 1)
  close _ s := (Except.error "NJS-003: invalid connection", s)

/-! ## A model of the studio database -/

/-- What the repository leaves to the database engine: whether the bare statement
`BEGIN` is accepted or rejected (Oracle, the engine `db.js` connects to through
`oracledb`, rejects it: `BEGIN` alone is an unfinished PL/SQL block), the instant
`TO_DATE(text, 'YYYY-MM-DD')` yields (`none` when the text does not match the
format), and the string a DATE is served as. -/
structure Engine where
  acceptsBegin : Bool
  toDate : String → Option Int
  isoString : Int → String

/-- A stored invoice line. -/
structure LineItemRow where
  INVOICENUMBER : Int
  PRODUCTID : JsVal
  QUANTITY : Option ℚ
  deriving DecidableEq

/-- A stored product, as far as the invoice queries read it. -/
structure ProductRow where
  PRODUCTID : JsVal
  PRODUCTNAME : Option String
  SALEPRICE : Option ℚ
  deriving DecidableEq

/-- The committed content of the database: the client rows, the photo sessions (each
the eleven values of its INSERT, in column order), the invoices, their lines and the
products. -/
structure Studio where
  clients : List Row
  sessions : List (List JsVal)
  invoices : List InvoiceRow
  lineItems : List LineItemRow
  products : List ProductRow

/-- A bind used in `TO_DATE(:x, 'YYYY-MM-DD')`: null, undefined and the empty string
give NULL, a string gives its date or is rejected; other values are not covered and
rejected. -/
def sqlDate (eng : Engine) : JsVal → Except String (Option Int)
  | JsVal.null => Except.ok none
  | JsVal.undefined => Except.ok none
  | JsVal.str s =>
      if s = "" then Except.ok none
      else
        match eng.toDate s with
        | some t => Except.ok (some t)
        | none => Except.error "ORA-01861: literal does not match format string"
  | _ => Except.error "ORA-01861: literal does not match format string"

/-- A bind stored in a text column: null, undefined and the empty string give NULL;
values that are not strings are not covered and rejected. -/
def sqlText : JsVal → Except String (Option String)
  | JsVal.null => Except.ok none
  | JsVal.undefined => Except.ok none
  | JsVal.str s => Except.ok (if s = "" then none else some s)
  | _ => Except.error "bind type not covered by the model"

/-- A bind stored in a whole-number key column: it must convert to an integer. -/
def sqlKey (v : JsVal) : Except String Int :=
  match sqlNumber v with
  | Except.ok (some q) =>
      if q.den = 1 then Except.ok q.num
      else Except.error "key value not covered by the model"
  | Except.ok none => Except.error "ORA-01400: cannot insert NULL"
  | Except.error e => Except.error e

/-- Whether a client row with this email is stored. -/
def hasClient (st : Studio) (email : JsVal) : Bool :=
  st.clients.any (fun r => sqlEqual (r "CLIENTEMAIL") email)

/-- Whether a product row with this id is stored. -/
def hasProduct (st : Studio) (productId : JsVal) : Bool :=
  st.products.any (fun p => sqlEqual p.PRODUCTID productId)

/-- The invoice row an INSERT with these ten binds stores. -/
def invoiceOfBinds (eng : Engine) (binds : List JsVal) : Except String InvoiceRow :=
  match binds with
  | [number, date, description, subtotal, tax, totalDue, balanceDue, paymentReceived,
      dueDate, clientEmail] =>
      match sqlKey number, sqlDate eng date, sqlText description, sqlNumber subtotal,
        sqlNumber tax, sqlNumber totalDue, sqlNumber balanceDue, sqlNumber paymentReceived,
        sqlDate eng dueDate, sqlText clientEmail with
      | Except.ok n, Except.ok d, Except.ok desc, Except.ok sub, Except.ok tx, Except.ok tot,
        Except.ok bal, Except.ok paid, Except.ok due, Except.ok (some email) =>
          Except.ok
            { INVOICENUMBER := n, INVOICEDATE := d, DESCRIPTION := desc, SUBTOTAL := sub,
              TAX := tx, TOTALDUE := tot, BALANCEDUE := bal, PAYMENTRECEIVED := paid,
              BALANCEDUEDATE := due, CLIENTEMAIL := email }
      | _, _, _, _, _, _, _, _, _, _ => Except.error "ORA-01722: invalid value in INSERT"
  | _ => Except.error "ORA-01008: not all variables bound"

/-- Modelled from the spec: the INVOICE table keeps the invoice number unique (it is
the identity of an invoice) and requires the referenced client to exist. The INSERT
appends the row when both hold. -/
def insertInvoiceRow (eng : Engine) (binds : List JsVal) (st : Studio) :
    Except String Studio :=
  match invoiceOfBinds eng binds with
  | Except.error e => Except.error e
  | Except.ok row =>
      if st.invoices.any (fun i => decide (i.INVOICENUMBER = row.INVOICENUMBER)) then
        Except.error "ORA-00001: unique constraint violated"
      else if hasClient st (JsVal.str row.CLIENTEMAIL) then
        Except.ok { st with invoices := st.invoices ++ [row] }
      else Except.error "ORA-02291: integrity constraint violated - parent key not found"

/-- The invoice line an INSERT with these three binds stores. -/
def lineItemOfBinds (binds : List JsVal) : Except String LineItemRow :=
  match binds with
  | [number, productId, quantity] =>
      match sqlKey number, sqlNumber quantity with
      | Except.ok n, Except.ok q =>
          Except.ok { INVOICENUMBER := n, PRODUCTID := productId, QUANTITY := q }
      | _, _ => Except.error "ORA-01722: invalid value in INSERT"
  | _ => Except.error "ORA-01008: not all variables bound"

/-- Modelled from the spec: an invoice line is identified by invoice number and
product id, and refers to a stored invoice and a stored product. The INSERT appends
the line when all three hold. -/
def insertLineItemRow (binds : List JsVal) (st : Studio) : Except String Studio :=
  match lineItemOfBinds binds with
  | Except.error e => Except.error e
  | Except.ok line =>
      if st.lineItems.any (fun l =>
          decide (l.INVOICENUMBER = line.INVOICENUMBER) && sqlEqual l.PRODUCTID line.PRODUCTID) then
        Except.error "ORA-00001: unique constraint violated"
      else if st.invoices.any (fun i => decide (i.INVOICENUMBER = line.INVOICENUMBER))
          && hasProduct st line.PRODUCTID then
        Except.ok { st with lineItems := st.lineItems ++ [line] }
      else Except.error "ORA-02291: integrity constraint violated - parent key not found"

/-- Modelled from the spec: a photo session is identified by its session id and its
client reference is required. The INSERT appends the eleven values when the id (the
first bind) is not NULL and not yet stored and the client (the tenth bind) exists. -/
def insertSessionRow (binds : List JsVal) (st : Studio) : Except String Studio :=
  if binds.length ≠ 11 then Except.error "ORA-01008: not all variables bound"
  else if isNull (binds.getD 0 JsVal.null) then Except.error "ORA-01400: cannot insert NULL"
  else if st.sessions.any (fun s => sqlEqual (s.getD 0 JsVal.null) (binds.getD 0 JsVal.null)) then
    Except.error "ORA-00001: unique constraint violated"
  else if hasClient st (binds.getD 9 JsVal.null) then
    Except.ok { st with sessions := st.sessions ++ [binds] }
  else Except.error "ORA-02291: integrity constraint violated - parent key not found"

/-- A DATE as a client row holds it: the number of its instant, or null. -/
def dateValue (d : Option Int) : JsVal :=
  match d with
  | some t => JsVal.num (t : ℚ)
  | none => JsVal.null

/-- Model of the database running the last-session UPDATE of `POST /api/sessions`: the
two binds are taken by position (`:sessionDate`, `:clientEmail`); every client row
whose CLIENTEMAIL equals the second gets LAST_SESSION_DATE set to the date of the
first. -/
def applyLastSessionUpdate (eng : Engine) (binds : List JsVal) (st : Studio) :
    Except String Studio :=
  match binds with
  | [sessionDate, clientEmail] =>
      match sqlDate eng sessionDate with
      | Except.ok d =>
          Except.ok { st with
            clients := st.clients.map (fun r =>
              if sqlEqual (r "CLIENTEMAIL") clientEmail then
                assign r "LAST_SESSION_DATE" (dateValue d)
              else r) }
      | Except.error e => Except.error e
  | _ => Except.error "ORA-01008: not all variables bound"

/-- A NUMBER as served in a JSON row. -/
def numJson (x : Option ℚ) : JsVal :=
  match x with
  | some q => JsVal.num q
  | none => JsVal.null

/-- A text column as served in a JSON row. -/
def textJson (x : Option String) : JsVal :=
  match x with
  | some s => JsVal.str s
  | none => JsVal.null

/-- A DATE as served in a JSON row. -/
def dateJson (eng : Engine) (x : Option Int) : JsVal :=
  match x with
  | some t => JsVal.str (eng.isoString t)
  | none => JsVal.null

/-- The text a stored value contributes to a concatenation: NULL contributes nothing;
values that are not strings are not covered and contribute nothing. -/
def textOf : JsVal → String
  | JsVal.str s => s
  | _ => ""

/-- SQL multiplication: NULL when an operand is NULL. -/
def sqlMul (a b : Option ℚ) : Option ℚ :=
  match a, b with
  | some x, some y => some (x * y)
  | _, _ => none

/-- One row of the invoice query of `GET /api/invoices/:id/details`: the invoice
columns and the columns taken from the joined client row. -/
def invoiceJson (eng : Engine) (i : InvoiceRow) (c : Row) : JsObject :=
  [("INVOICENUMBER", JsVal.num (i.INVOICENUMBER : ℚ)),
   ("INVOICEDATE", dateJson eng i.INVOICEDATE),
   ("DESCRIPTION", textJson i.DESCRIPTION),
   ("SUBTOTAL", numJson i.SUBTOTAL),
   ("TAX", numJson i.TAX),
   ("TOTALDUE", numJson i.TOTALDUE),
   ("BALANCEDUE", numJson i.BALANCEDUE),
   ("PAYMENTRECEIVED", numJson i.PAYMENTRECEIVED),
   ("BALANCEDUEDATE", dateJson eng i.BALANCEDUEDATE),
   ("CLIENTEMAIL", JsVal.str i.CLIENTEMAIL),
   ("CLIENT_NAME", JsVal.str (textOf (c "FIRSTNAME") ++ " " ++ textOf (c "LASTNAME"))),
   ("STREET", c "STREET"), ("CITY", c "CITY"), ("STATE", c "STATE"), ("ZIP", c "ZIP"),
   ("CLIENT_PHONE", c "PHONE"), ("CLIENT_EMAIL", c "EMAIL")]

/-- Model of the database running the invoice query: the invoices with the given
number, each joined with the client rows of its CLIENTEMAIL. -/
def selectInvoiceRows (eng : Engine) (id : Int) (st : Studio) : List JsObject :=
  (st.invoices.filter (fun i => decide (i.INVOICENUMBER = id))).flatMap (fun i =>
    (st.clients.filter (fun c => sqlEqual (c "CLIENTEMAIL") (JsVal.str i.CLIENTEMAIL))).map
      (invoiceJson eng i))

/-- The lines of an invoice, each joined with the product rows of its PRODUCTID. -/
def joinedLines (id : Int) (st : Studio) : List (LineItemRow × ProductRow) :=
  (st.lineItems.filter (fun l => decide (l.INVOICENUMBER = id))).flatMap (fun l =>
    (st.products.filter (fun p => sqlEqual p.PRODUCTID l.PRODUCTID)).map (fun p => (l, p)))

/-- The order of `ORDER BY p.PRODUCTNAME`: names ascending, NULL names last. -/
def nameLe (a b : Option String) : Bool :=
  match a, b with
  | some x, some y => !decide (y < x)
  | _, none => true
  | none, some _ => false

/-- One row of the line-item query: the line columns, the product's name and sale
price, and LINE_TOTAL = QUANTITY * SALEPRICE. -/
def lineItemJson (lp : LineItemRow × ProductRow) : JsObject :=
  [("INVOICENUMBER", JsVal.num (lp.1.INVOICENUMBER : ℚ)),
   ("PRODUCTID", lp.1.PRODUCTID),
   ("QUANTITY", numJson lp.1.QUANTITY),
   ("PRODUCTNAME", textJson lp.2.PRODUCTNAME),
   ("SALEPRICE", numJson lp.2.SALEPRICE),
   ("LINE_TOTAL", numJson (sqlMul lp.1.QUANTITY lp.2.SALEPRICE))]

/-- Model of the database running the line-item query. -/
def selectLineItemRows (id : Int) (st : Studio) : List JsObject :=
  ((joinedLines id st).insertionSort
    (fun a b => nameLe a.2.PRODUCTNAME b.2.PRODUCTNAME = true)).map lineItemJson

/-- The studio database behind `db.executeQuery`. Every call runs on a connection of
its own with `autoCommit: true`, so a statement that succeeds is committed when the
call returns, and COMMIT and ROLLBACK, run on a connection with nothing pending,
change nothing. A statement that fails leaves the content as it was. -/
def studioDb (eng : Engine) : Db Studio where
  execute call st :=
    match call.stmt with
    | Stmt.begin =>
        if eng.acceptsBegin then (Except.ok [], st)
        else (Except.error "ORA-06550: PLS-00103: Encountered the symbol end-of-file", st)
    | Stmt.commit => (Except.ok [], st)
    | Stmt.rollback => (Except.ok [], st)
    | Stmt.insertInvoice =>
        match insertInvoiceRow eng call.binds st with
        | Except.ok st' => (Except.ok [], st')
        | Except.error e => (Except.error e, st)
    | Stmt.insertLineItem =>
        match insertLineItemRow call.binds st with
        | Except.ok st' => (Except.ok [], st')
        | Except.error e => (Except.error e, st)
    | Stmt.insertSession =>
        match insertSessionRow call.binds st with
        | Except.ok st' => (Except.ok [], st')
        | Except.error e => (Except.error e, st)
    | Stmt.updateClientLastSession =>
        match applyLastSessionUpdate eng call.binds st with
        | Except.ok st' => (Except.ok [], st')
        | Except.error e => (Except.error e, st)
    | Stmt.selectInvoice =>
        match call.binds with
        | [id] =>
            match sqlKey id with
            | Except.ok n => (Except.ok (selectInvoiceRows eng n st), st)
            | Except.error e => (Except.error e, st)
        | _ => (Except.error "ORA-01008: not all variables bound", st)
    | Stmt.selectLineItems =>
        match call.binds with
        | [id] =>
            match sqlKey id with
            | Except.ok n => (Except.ok (selectLineItemRows n st), st)
            | Except.error e => (Except.error e, st)
        | _ => (Except.error "ORA-01008: not all variables bound", st)
    | Stmt.updateClient fields _ =>
        (Except.ok [], { st with clients := applyClientUpdate fields call.binds st.clients })
    | Stmt.updateInvoicePayment =>
        match applyPaymentUpdate call.binds st.invoices with
        | Except.ok invoices => (Except.ok [], { st with invoices := invoices })
        | Except.error e => (Except.error e, st)
    | _ => (Except.error "statement not supported by the studio model", st)

/-! ## POST /api/sessions -/

/-- The `params` array of the session INSERT: the body fields in bind order. -/
def createSessionParams : List String :=
  ["sessionId", "sessionType", "sessionDate", "sessionStartTime", "sessionEndTime",
   "location", "packageName", "sessionFee", "notes", "clientEmail", "depositPaid"]

/-- Response of a successful session create. -/
def sessionCreatedResponse (sessionId : JsVal) : Response :=
  { status := 201
    body := [("success", JsVal.bool true), ("message", JsVal.str "Session created successfully"),
             ("sessionId", sessionId)] }

/-- The handler of `POST /api/sessions`: the session INSERT, then the UPDATE of the
client's last session date. -/
def postSession {σ : Type} (db : Db σ) (body : JsObject) (s : σ) : Handled σ :=
  let insert : SqlCall :=
    { stmt := Stmt.insertSession, binds := createSessionParams.map (getProp body) }
  match db.execute insert s with
  | (Except.error e, s1) => { response := errorResponse e, state := s1, calls := [insert] }
  | (Except.ok _, s1) =>
      let update : SqlCall :=
        { stmt := Stmt.updateClientLastSession
          binds := [getProp body "sessionDate", getProp body "clientEmail"] }
      match db.execute update s1 with
      | (Except.error e, s2) =>
          { response := errorResponse e, state := s2, calls := [insert, update] }
      | (Except.ok _, s2) =>
          { response := sessionCreatedResponse (getProp body "sessionId")
            state := s2, calls := [insert, update] }

/-! ## POST /api/invoices and GET /api/invoices/:id/details -/

/-- A parsed body of `POST /api/invoices`: its scalar fields, and `lineItems` when
that field is an array (of objects). -/
structure InvoiceRequest where
  body : JsObject
  lineItems : Option (List JsObject)

/-- What running the invoice create handler yields; the response is `none` when the
handler rejects without answering (the ROLLBACK in the catch block threw). -/
structure HandledAsync (σ : Type) where
  response : Option Response
  state : σ
  calls : List SqlCall

/-- The expression `value || null`. -/
def orNull (v : JsVal) : JsVal :=
  match v with
  | JsVal.undefined => JsVal.null
  | JsVal.null => JsVal.null
  | JsVal.bool b => if b then v else JsVal.null
  | JsVal.num q => if q = 0 then JsVal.null else v
  | JsVal.str s => if s = "" then JsVal.null else v

/-- The loop over `lineItems`: one INSERT per item, stopping at the first that
throws; yields the error thrown, if any. -/
def insertLineItems {σ : Type} (db : Db σ) (invoiceNumber : JsVal) :
    List JsObject → σ → Option String × σ × List SqlCall
  | [], s => (none, s, [])
  | item :: rest, s =>
      let call : SqlCall :=
        { stmt := Stmt.insertLineItem
          binds := [invoiceNumber, getProp item "productId", getProp item "quantity"] }
      match db.execute call s with
      | (Except.ok _, s1) =>
          ((insertLineItems db invoiceNumber rest s1).1,
           (insertLineItems db invoiceNumber rest s1).2.1,
           call :: (insertLineItems db invoiceNumber rest s1).2.2)
      | (Except.error e, s1) => (some e, s1, [call])

/-- The catch block of the invoice create handler: ROLLBACK, then the 500 answer. -/
def rollbackAndFail {σ : Type} (db : Db σ) (message : String) (s : σ) (calls : List SqlCall) :
    HandledAsync σ :=
  match db.execute { stmt := Stmt.rollback, binds := [] } s with
  | (Except.ok _, s1) =>
      { response := some (errorResponse message), state := s1
        calls := calls ++ [{ stmt := Stmt.rollback, binds := [] }] }
  | (Except.error _, s1) =>
      { response := none, state := s1
        calls := calls ++ [{ stmt := Stmt.rollback, binds := [] }] }

/-- Response of a successful invoice create. -/
def invoiceCreatedResponse (invoiceNumber : JsVal) : Response :=
  { status := 201
    body := [("success", JsVal.bool true), ("message", JsVal.str "Invoice created successfully"),
             ("invoiceNumber", invoiceNumber)] }

/-- The binds of the invoice INSERT. -/
def invoiceParams (body : JsObject) : List JsVal :=
  [getProp body "invoiceNumber", getProp body "invoiceDate", getProp body "description",
   getProp body "subtotal", getProp body "tax", getProp body "totalDue",
   getProp body "balanceDue", getProp body "paymentReceived",
   orNull (getProp body "balanceDueDate"), getProp body "clientEmail"]

/-- The handler of `POST /api/invoices`: BEGIN, the invoice INSERT, one INSERT per
line item, COMMIT; any error leads to the catch block. -/
def postInvoice {σ : Type} (db : Db σ) (req : InvoiceRequest) (s : σ) : HandledAsync σ :=
  let begin : SqlCall := { stmt := Stmt.begin, binds := [] }
  match db.execute begin s with
  | (Except.error e, s1) => rollbackAndFail db e s1 [begin]
  | (Except.ok _, s1) =>
      let header : SqlCall := { stmt := Stmt.insertInvoice, binds := invoiceParams req.body }
      match db.execute header s1 with
      | (Except.error e, s2) => rollbackAndFail db e s2 [begin, header]
      | (Except.ok _, s2) =>
          let lines := insertLineItems db (getProp req.body "invoiceNumber")
            (req.lineItems.getD []) s2
          match lines.1 with
          | some e => rollbackAndFail db e lines.2.1 ([begin, header] ++ lines.2.2)
          | none =>
              let commit : SqlCall := { stmt := Stmt.commit, binds := [] }
              match db.execute commit lines.2.1 with
              | (Except.error e, s4) =>
                  rollbackAndFail db e s4 ([begin, header] ++ lines.2.2 ++ [commit])
              | (Except.ok _, s4) =>
                  { response := some (invoiceCreatedResponse (getProp req.body "invoiceNumber"))
                    state := s4
                    calls := [begin, header] ++ lines.2.2 ++ [commit] }

/-- What a row contributes to `sum + item.LINE_TOTAL`: a number itself, null 0, a
boolean 0 or 1; `none` for undefined (the sum becomes NaN) and for a string (the sum
becomes a string), which this model does not follow. -/
def toAddend : JsVal → Option ℚ
  | JsVal.num q => some q
  | JsVal.null => some 0
  | JsVal.bool b => some (if b then 1 else 0)
  | _ => none

/-- The reducer of `lineItemsTotal`; `none` is a sum this model does not follow. -/
def addLineTotal (sum : Option ℚ) (item : JsObject) : Option ℚ :=
  match sum, toAddend (getProp item "LINE_TOTAL") with
  | some a, some b => some (a + b)
  | _, _ => none

/-- What `GET /api/invoices/:id/details` answers: the invoice row spread out together
with `lineItems` and `lineItemsTotal`, or a plain response (404, 500). -/
inductive DetailsResponse
  | found (invoice : JsObject) (lineItems : List JsObject) (lineItemsTotal : Option ℚ)
  | plain (response : Response)

/-- What running the details handler yields. -/
structure HandledDetails (σ : Type) where
  response : DetailsResponse
  state : σ
  calls : List SqlCall

/-- The handler of `GET /api/invoices/:id/details` for path parameter `id`: both
queries run, then the first invoice row decides between 404 and the answer. -/
def getInvoiceDetails {σ : Type} (db : Db σ) (id : String) (s : σ) : HandledDetails σ :=
  let invoiceCall : SqlCall := { stmt := Stmt.selectInvoice, binds := [JsVal.str id] }
  let linesCall : SqlCall := { stmt := Stmt.selectLineItems, binds := [JsVal.str id] }
  match db.execute invoiceCall s with
  | (Except.error e, s1) =>
      { response := DetailsResponse.plain (errorResponse e), state := s1, calls := [invoiceCall] }
  | (Except.ok invoiceRows, s1) =>
      match db.execute linesCall s1 with
      | (Except.error e, s2) =>
          { response := DetailsResponse.plain (errorResponse e), state := s2
            calls := [invoiceCall, linesCall] }
      | (Except.ok lineItems, s2) =>
          match invoiceRows.head? with
          | none =>
              { response := DetailsResponse.plain
                  { status := 404, body := [("error", JsVal.str "Invoice not found")] }
                state := s2, calls := [invoiceCall, linesCall] }
          | some invoice =>
              { response := DetailsResponse.found invoice lineItems
                  (lineItems.foldl addLineTotal (some 0))
                state := s2, calls := [invoiceCall, linesCall] }

/-! ## Example data for the studio database -/

/-- An engine used as example data: unlike Oracle it accepts `BEGIN`, so that a run
of the invoice create handler on it reaches the inserts; it knows the date
2024-06-01. -/
def sampleEngine : Engine where
  acceptsBegin := true
  toDate s := if s = "2024-06-01" then some 1717200000 else none
  isoString _ := "2024-06-01T00:00:00.000Z"

/-- A studio used as example data: the client Jane, the products P1 (sale price 19.50)
and P2 (sale price 5), no sessions and no invoices. -/
def sampleStudio : Studio where
  clients := [sampleClient]
  sessions := []
  invoices := []
  lineItems := []
  products :=
    [{ PRODUCTID := JsVal.str "P1", PRODUCTNAME := some "Print 8x10", SALEPRICE := some (39 / 2) },
     { PRODUCTID := JsVal.str "P2", PRODUCTNAME := some "Album", SALEPRICE := some 5 }]

/-- The scalar fields of an invoice request used as example data: invoice 1001 for
`jane@x.com`, subtotal 44, tax 0, total due 44. -/
def sampleInvoiceBody : JsObject :=
  [("invoiceNumber", JsVal.num 1001), ("invoiceDate", JsVal.str "2024-06-01"),
   ("description", JsVal.str "Prints"), ("subtotal", JsVal.num 44), ("tax", JsVal.num 0),
   ("totalDue", JsVal.num 44), ("balanceDue", JsVal.num 44), ("paymentReceived", JsVal.num 0),
   ("balanceDueDate", JsVal.str ""), ("clientEmail", JsVal.str "jane@x.com")]

/-- An invoice request used as example data: invoice 1001 with a line for product P1
and a line for NOPE, a product that is not stored. -/
def failingInvoiceRequest : InvoiceRequest where
  body := sampleInvoiceBody
  lineItems := some [[("productId", JsVal.str "P1"), ("quantity", JsVal.num 2)],
                     [("productId", JsVal.str "NOPE"), ("quantity", JsVal.num 1)]]

/-- An invoice request used as example data: invoice 1001 with two P1 and one P2. -/
def sampleInvoiceRequest : InvoiceRequest where
  body := sampleInvoiceBody
  lineItems := some [[("productId", JsVal.str "P1"), ("quantity", JsVal.num 2)],
                     [("productId", JsVal.str "P2"), ("quantity", JsVal.num 1)]]

/-- A session request used as example data: session S1 on 2024-06-01 for `jane@x.com`. -/
def sampleSessionBody : JsObject :=
  [("sessionId", JsVal.str "S1"), ("sessionType", JsVal.str "Portrait"),
   ("sessionDate", JsVal.str "2024-06-01"), ("sessionStartTime", JsVal.str "14:00"),
   ("sessionEndTime", JsVal.str "16:00"), ("location", JsVal.str "Studio A"),
   ("packageName", JsVal.str "Basic"), ("sessionFee", JsVal.num 300),
   ("notes", JsVal.null), ("clientEmail", JsVal.str "jane@x.com"),
   ("depositPaid", JsVal.num 0)]

/-- The sale price of the stored product with the given id (NULL when no product has
the id or its price is NULL). -/
def salePriceOf (st : Studio) (productId : JsVal) : Option ℚ :=
  match st.products.find? (fun p => sqlEqual p.PRODUCTID productId) with
  | some p => p.SALEPRICE
  | none => none

/-- What a submitted line amounts to: its quantity times the sale price of its product
(0 when the quantity or the price is NULL). -/
def lineAmount (st : Studio) (item : JsObject) : ℚ :=
  match sqlNumber (getProp item "quantity") with
  | Except.ok quantity =>
      (sqlMul quantity (salePriceOf st (getProp item "productId"))).getD 0
  | Except.error _ => 0

/-- Modelled from the spec: the stored content respects the identities and references
of the data model: every stored invoice line belongs to a stored invoice, and no two
products share an id. -/
def Studio.WellFormed (st : Studio) : Prop :=
  (∀ l ∈ st.lineItems, ∃ i ∈ st.invoices, i.INVOICENUMBER = l.INVOICENUMBER) ∧
    st.products.Pairwise (fun p q => sqlEqual p.PRODUCTID q.PRODUCTID = false)

/-! ## Routing -/

/-- The pieces of a character list between occurrences of a separator, as
`String.prototype.split` yields them for a one-character separator. -/
def splitChars (sep : Char) : List Char → List (List Char)
  | [] => [[]]
  | c :: rest =>
      if c = sep then [] :: splitChars sep rest
      else
        match splitChars sep rest with
        | [] => [[c]]
        | piece :: pieces => (c :: piece) :: pieces

/-- The method `String.prototype.toLowerCase` on the ASCII letters, character by
character. -/
def toLowerCase (s : String) : String := String.mk (s.data.map Char.toLower)

/-- The segments of a request path or a route pattern: the pieces between slashes,
without the empty piece before the leading slash and without an empty last piece
(routing is not strict about a trailing slash). -/
def pathSegments (path : String) : List String :=
  let pieces := (splitChars '/' path.data).map String.mk
  let pieces := match pieces with
    | "" :: rest => rest
    | other => other
  match pieces.reverse with
  | "" :: rest => rest.reverse
  | _ => pieces

/-- The name of the parameter a pattern segment declares (`:id` declares `id`). -/
def paramName? (segment : String) : Option String :=
  match segment.data with
  | ':' :: name => some (String.mk name)
  | _ => none

/-- Matching of a path against a route pattern, segment by segment: a parameter
segment takes any non-empty path segment, any other segment must be the same text up
to letter case. Yields the parameters, `none` when the path does not match. -/
def matchSegments : List String → List String → Option (List (String × String))
  | [], [] => some []
  | pattern :: patterns, segment :: segments =>
      match paramName? pattern with
      | some name =>
          if segment = "" then none
          else (matchSegments patterns segments).map (fun ps => (name, segment) :: ps)
      | none =>
          if toLowerCase pattern = toLowerCase segment then matchSegments patterns segments
          else none
  | _, _ => none

/-- The HTTP methods the server registers routes for. -/
inductive Method
  | GET
  | POST
  | PUT
  deriving DecidableEq

/-- The handlers registered in `app.js`, and the 404 middleware after them. -/
inductive Handler
  | root
  | health
  | listClients
  | getClient
  | createClient
  | updateClient
  | clientSessions
  | listSessions
  | getSession
  | createSession
  | sessionsRange
  | assignStaff
  | listInvoices
  | invoiceDetails
  | createInvoice
  | invoicePayment
  | listStaff
  | staffAssignments
  | listProducts
  | getProduct
  | productStock
  | lowStock
  | marketingLeads
  | analyticsDashboard
  | revenueTrends
  | sessionTypes
  | marketingConversion
  | staffPerformance
  | search
  | routeNotFound
  deriving DecidableEq

/-- One registration `app.get(pattern, handler)` (or `post`, `put`). -/
structure Route where
  method : Method
  pattern : String
  handler : Handler
  deriving DecidableEq

/-- The routes of `app.js` in the order in which they are registered. -/
def routes : List Route :=
  [{ method := Method.GET, pattern := "/", handler := Handler.root },
   { method := Method.GET, pattern := "/api/health", handler := Handler.health },
   { method := Method.GET, pattern := "/api/clients", handler := Handler.listClients },
   { method := Method.GET, pattern := "/api/clients/:email", handler := Handler.getClient },
   { method := Method.POST, pattern := "/api/clients", handler := Handler.createClient },
   { method := Method.PUT, pattern := "/api/clients/:email", handler := Handler.updateClient },
   { method := Method.GET, pattern := "/api/clients/:email/sessions",
     handler := Handler.clientSessions },
   { method := Method.GET, pattern := "/api/sessions", handler := Handler.listSessions },
   { method := Method.GET, pattern := "/api/sessions/:id", handler := Handler.getSession },
   { method := Method.POST, pattern := "/api/sessions", handler := Handler.createSession },
   { method := Method.GET, pattern := "/api/sessions/range", handler := Handler.sessionsRange },
   { method := Method.POST, pattern := "/api/sessions/:id/assign-staff",
     handler := Handler.assignStaff },
   { method := Method.GET, pattern := "/api/invoices", handler := Handler.listInvoices },
   { method := Method.GET, pattern := "/api/invoices/:id/details",
     handler := Handler.invoiceDetails },
   { method := Method.POST, pattern := "/api/invoices", handler := Handler.createInvoice },
   { method := Method.PUT, pattern := "/api/invoices/:id/payment",
     handler := Handler.invoicePayment },
   { method := Method.GET, pattern := "/api/staff", handler := Handler.listStaff },
   { method := Method.GET, pattern := "/api/staff/:email/assignments",
     handler := Handler.staffAssignments },
   { method := Method.GET, pattern := "/api/products", handler := Handler.listProducts },
   { method := Method.GET, pattern := "/api/products/:id", handler := Handler.getProduct },
   { method := Method.PUT, pattern := "/api/products/:id/stock",
     handler := Handler.productStock },
   { method := Method.GET, pattern := "/api/products/low-stock", handler := Handler.lowStock },
   { method := Method.GET, pattern := "/api/marketing-leads",
     handler := Handler.marketingLeads },
   { method := Method.GET, pattern := "/api/analytics/dashboard",
     handler := Handler.analyticsDashboard },
   { method := Method.GET, pattern := "/api/analytics/revenue-trends",
     handler := Handler.revenueTrends },
   { method := Method.GET, pattern := "/api/analytics/session-types",
     handler := Handler.sessionTypes },
   { method := Method.GET, pattern := "/api/analytics/marketing-conversion",
     handler := Handler.marketingConversion },
   { method := Method.GET, pattern := "/api/analytics/staff-performance",
     handler := Handler.staffPerformance },
   { method := Method.GET, pattern := "/api/search", handler := Handler.search }]

/-- Dispatch over a list of routes: the first route of the request's method whose
pattern matches the path handles the request, with the parameters of the match as
`req.params`; when none matches, the 404 middleware answers. -/
def dispatchIn : List Route → Method → String → Handler × List (String × String)
  | [], _, _ => (Handler.routeNotFound, [])
  | route :: rest, method, path =>
      if route.method = method then
        match matchSegments (pathSegments route.pattern) (pathSegments path) with
        | some params => (route.handler, params)
        | none => dispatchIn rest method path
      else dispatchIn rest method path

/-- Dispatch of a request by the server. -/
def dispatch (method : Method) (path : String) : Handler × List (String × String) :=
  dispatchIn routes method path

/-- The endpoints the server prints at start-up, each with a sample path and the
handler the list describes. -/
def documentedEndpoints : List (Method × String × Handler) :=
  [(Method.GET, "/api/clients", Handler.listClients),
   (Method.GET, "/api/clients/jane@x.com", Handler.getClient),
   (Method.POST, "/api/clients", Handler.createClient),
   (Method.PUT, "/api/clients/jane@x.com", Handler.updateClient),
   (Method.GET, "/api/clients/jane@x.com/sessions", Handler.clientSessions),
   (Method.GET, "/api/sessions", Handler.listSessions),
   (Method.GET, "/api/sessions/S1", Handler.getSession),
   (Method.POST, "/api/sessions", Handler.createSession),
   (Method.GET, "/api/sessions/range", Handler.sessionsRange),
   (Method.POST, "/api/sessions/S1/assign-staff", Handler.assignStaff),
   (Method.GET, "/api/invoices", Handler.listInvoices),
   (Method.GET, "/api/invoices/1001/details", Handler.invoiceDetails),
   (Method.POST, "/api/invoices", Handler.createInvoice),
   (Method.PUT, "/api/invoices/1001/payment", Handler.invoicePayment),
   (Method.GET, "/api/staff", Handler.listStaff),
   (Method.GET, "/api/staff/bob@studio.com/assignments", Handler.staffAssignments),
   (Method.GET, "/api/products", Handler.listProducts),
   (Method.GET, "/api/products/P1", Handler.getProduct),
   (Method.PUT, "/api/products/P1/stock", Handler.productStock),
   (Method.GET, "/api/products/low-stock", Handler.lowStock),
   (Method.GET, "/api/analytics/dashboard", Handler.analyticsDashboard),
   (Method.GET, "/api/analytics/revenue-trends", Handler.revenueTrends),
   (Method.GET, "/api/analytics/session-types", Handler.sessionTypes),
   (Method.GET, "/api/analytics/marketing-conversion", Handler.marketingConversion),
   (Method.GET, "/api/analytics/staff-performance", Handler.staffPerformance),
   (Method.GET, "/api/health", Handler.health),
   (Method.GET, "/api/search", Handler.search),
   (Method.GET, "/api/marketing-leads", Handler.marketingLeads)]

/-- The request parameters as the object `req.params`. -/
def paramsObject (params : List (String × String)) : JsObject :=
  params.map (fun p => (p.1, JsVal.str p.2))

/-! ## POST /api/sessions/:id/assign-staff -/

/-- Response of a successful staff assignment. -/
def staffAssignedResponse : Response :=
  { status := 201
    body := [("success", JsVal.bool true), ("message", JsVal.str "Staff assigned successfully")] }

/-- The handler of `POST /api/sessions/:id/assign-staff`, given `req.params` and the
body: it reads `sessionId` from the parameters. -/
def assignStaff {σ : Type} (db : Db σ) (params body : JsObject) (s : σ) : Handled σ :=
  let sessionId := getProp params "sessionId"
  let staffEmail := getProp body "staffEmail"
  let role := getProp body "role"
  let call : SqlCall := { stmt := Stmt.insertAssignment, binds := [sessionId, staffEmail, role] }
  match db.execute call s with
  | (Except.ok _, s1) => { response := staffAssignedResponse, state := s1, calls := [call] }
  | (Except.error e, s1) => { response := errorResponse e, state := s1, calls := [call] }

/-! ## GET of a single record -/

/-- The 404 answer of a single-record handler. -/
def notFoundResponse (message : String) : Response :=
  { status := 404, body := [("error", JsVal.str message)] }

/-- The handler of `GET /api/clients/:email`. -/
def getClient {σ : Type} (db : Db σ) (email : String) (s : σ) : Handled σ :=
  let call : SqlCall := { stmt := Stmt.selectClient, binds := [JsVal.str email] }
  match db.execute call s with
  | (Except.error e, s1) => { response := errorResponse e, state := s1, calls := [call] }
  | (Except.ok clients, s1) =>
      match clients with
      | [] => { response := notFoundResponse "Client not found", state := s1, calls := [call] }
      | client :: _ => { response := { status := 200, body := client }, state := s1, calls := [call] }

/-- The handler of `GET /api/products/:id`. -/
def getProduct {σ : Type} (db : Db σ) (id : String) (s : σ) : Handled σ :=
  let call : SqlCall := { stmt := Stmt.selectProduct, binds := [JsVal.str id] }
  match db.execute call s with
  | (Except.error e, s1) => { response := errorResponse e, state := s1, calls := [call] }
  | (Except.ok rows, s1) =>
      match rows.head? with
      | none => { response := notFoundResponse "Product not found", state := s1, calls := [call] }
      | some product =>
          { response := { status := 200, body := product }, state := s1, calls := [call] }

/-- What `GET /api/sessions/:id` answers: the session row spread out together with
`assignedStaff`, or a plain response (404, 500). -/
inductive SessionResponse
  | found (session : JsObject) (assignedStaff : List JsObject)
  | plain (response : Response)
  deriving DecidableEq

/-- What running the session handler yields. -/
structure HandledSession (σ : Type) where
  response : SessionResponse
  state : σ
  calls : List SqlCall

/-- The handler of `GET /api/sessions/:id`: the session query and the staff query both
run, then the first session row decides between 404 and the answer. -/
def getSession {σ : Type} (db : Db σ) (id : String) (s : σ) : HandledSession σ :=
  let sessionCall : SqlCall := { stmt := Stmt.selectSession, binds := [JsVal.str id] }
  let staffCall : SqlCall := { stmt := Stmt.selectSessionStaff, binds := [JsVal.str id] }
  match db.execute sessionCall s with
  | (Except.error e, s1) =>
      { response := SessionResponse.plain (errorResponse e), state := s1, calls := [sessionCall] }
  | (Except.ok sessionRows, s1) =>
      match db.execute staffCall s1 with
      | (Except.error e, s2) =>
          { response := SessionResponse.plain (errorResponse e), state := s2
            calls := [sessionCall, staffCall] }
      | (Except.ok staff, s2) =>
          match sessionRows.head? with
          | none =>
              { response := SessionResponse.plain (notFoundResponse "Session not found")
                state := s2, calls := [sessionCall, staffCall] }
          | some session =>
              { response := SessionResponse.found session staff
                state := s2, calls := [sessionCall, staffCall] }

/-- A database used as example data: every query resolves without rows, except the
staff query of the session handler, which throws. -/
def staffQueryFailsDb : Db Unit where
  execute call s :=
    match call.stmt with
    | Stmt.selectSessionStaff =>
        (Except.error "ORA-03113: end-of-file on communication channel", s)
    | _ => (Except.ok [], s)

/-! ## The invoice form: number, balance, payload -/

/-- The call `s.padStart(n, '0')`. -/
def padStartZero (n : Nat) (s : String) : String :=
  String.mk (List.replicate (n - s.data.length) '0' ++ s.data)

/-- How many times `m` is halved before it is below 2^53; `fuel` bounds the number of
steps and `m` itself is always enough. -/
def excessBits : Nat → Nat → Nat
  | 0, _ => 0
  | fuel + 1, m => if m < 9007199254740992 then 0 else excessBits fuel (m / 2) + 1

/-- The value a JavaScript number (an IEEE 754 double) takes for the integer `n`: `n`
itself up to 2^53 = 9007199254740992 in absolute value; beyond that only the
multiples of a power of two (2, then 4, ...) are numbers, and `n` is rounded to the
nearest of them, on a tie to the one with the even significand. The range of doubles
(about 1.8e308) is not checked. -/
def toDouble (n : Int) : Int :=
  let m := n.natAbs
  if m ≤ 9007199254740992 then n
  else
    let e := excessBits m m
    let q := m / 2 ^ e
    let r := m % 2 ^ e
    let half := 2 ^ (e - 1)
    let q1 := if r < half then q else if half < r then q + 1 else if q % 2 = 0 then q else q + 1
    if n < 0 then -((q1 * 2 ^ e : Nat) : Int) else ((q1 * 2 ^ e : Nat) : Int)

/-- The number `generateInvoiceNumber` proposes: the largest loaded invoice number plus
one, the sum being a JavaScript number, or 1001 when no invoice is loaded. The loaded
invoice numbers are integers that are JavaScript numbers. -/
def nextInvoiceNumber (invoicesData : List InvoiceRow) : Int :=
  match invoicesData.map (fun inv => inv.INVOICENUMBER) with
  | [] => 1001
  | first :: rest => toDouble (rest.foldl max first + 1)

/-- The text `toString()` gives for an integer number below 10^21 in absolute value:
its decimal digits, with a minus sign when negative. From 10^21 on the text is in
exponent notation, which this model does not spell: `none`. -/
def numberText (n : Int) : Option String :=
  if n.natAbs < 1000000000000000000000 then some (toString n) else none

/-- The text `generateInvoiceNumber` displays for a number; `none` where `numberText`
is. -/
def invoiceNumberDisplay (nextNumber : Int) : Option String :=
  (numberText nextNumber).map (fun text => "INV-" ++ padStartZero 4 text)

/-- The function `parseInt` in radix 10: leading white space is skipped, a sign is
read, then the longest run of digits, whose value is returned as a JavaScript number;
`none` (NaN) when there is no digit. The hexadecimal prefix is not covered. -/
def parseInt (s : String) : Option Int :=
  let cs := s.data.dropWhile Char.isWhitespace
  let negative := match cs with
    | '-' :: _ => true
    | _ => false
  let cs := match cs with
    | '-' :: rest => rest
    | '+' :: rest => rest
    | other => other
  let digits := cs.takeWhile Char.isDigit
  if digits = [] then none
  else
    let value : Int := ((digits.foldl (fun a c => 10 * a + (c.toNat - 48)) 0 : Nat) : Int)
    some (toDouble (if negative then -value else value))

/-- The invoice number `saveInvoice` reads back from the displayed text:
`parseInt(text.split('-')[1])`. -/
def parsedInvoiceNumber (display : String) : Option Int :=
  match splitChars '-' display.data with
  | _ :: second :: _ => parseInt (String.mk second)
  | _ => none

/-- The expression `parseFloat(...) || 0` on a parsed input, `none` being NaN. -/
def orZero (x : Option ℚ) : ℚ :=
  match x with
  | some q => q
  | none => 0

/-- The value of `x.toFixed(2)` read back as a number, in exact arithmetic: the
multiple of 0.01 nearest to `x`, the larger one on a tie. -/
def toFixed2 (x : ℚ) : ℚ := ((Rat.floor (x * 100 + 1 / 2) : Int) : ℚ) / 100

/-- One row of the item table of the invoice form: the value and the text of the
selected option, the custom description, and the quantity and price inputs as
`parseFloat` reads them (`none` for NaN). -/
structure ItemRowForm where
  selectValue : String
  selectedText : String
  customDescription : String
  quantity : Option ℚ
  price : Option ℚ

/-- The state of the invoice form, numeric texts as `parseFloat` reads them. -/
structure InvoiceForm where
  valid : Bool
  rows : List ItemRowForm
  invoiceNumberDisplay : String
  invoiceDate : String
  subtotal : Option ℚ
  taxAmount : Option ℚ
  totalDue : Option ℚ
  balanceDue : Option ℚ
  amountPaid : Option ℚ
  dueDate : String
  invoiceClient : String
  paymentMethod : String
  notes : String

/-- The function `updateBalance`: the balance input becomes
`Math.max(0, totalDue - amountPaid).toFixed(2)`. -/
def updateBalance (form : InvoiceForm) : InvoiceForm :=
  { form with
    balanceDue := some (toFixed2 (max 0 (orZero form.totalDue - orZero form.amountPaid))) }

/-- The description `saveInvoice` gives an item row. -/
def itemDescription (row : ItemRowForm) : String :=
  if row.selectValue = "custom" ∧ row.customDescription ≠ "" then row.customDescription
  else if row.selectValue ≠ "" then row.selectedText
  else ""

/-- The item `saveInvoice` collects from a row, if the row has a description, a
quantity above 0 and a price above 0. -/
def itemOfRow (row : ItemRowForm) : Option JsObject :=
  let quantity := orZero row.quantity
  let price := orZero row.price
  if itemDescription row ≠ "" ∧ 0 < quantity ∧ 0 < price then
    some [("description", JsVal.str (itemDescription row)), ("quantity", JsVal.num quantity),
          ("price", JsVal.num price), ("total", JsVal.num (quantity * price))]
  else none

/-- A JSON payload: its scalar members and its members that are arrays of objects. -/
structure InvoicePayload where
  fields : JsObject
  arrays : List (String × List JsObject)

/-- The number read by `parseInt` as a JSON member (NaN is sent as null). -/
def intJson (x : Option Int) : JsVal :=
  match x with
  | some n => JsVal.num (n : ℚ)
  | none => JsVal.null

/-- The payload `saveInvoice` sends with `POST /api/invoices` when creating an invoice;
`none` when the form is invalid or no item was collected (nothing is sent). -/
def saveInvoicePayload (form : InvoiceForm) : Option InvoicePayload :=
  if form.valid then
    let items := form.rows.filterMap itemOfRow
    if items.length = 0 then none
    else
      some
        { fields :=
            [("invoiceNumber", intJson (parsedInvoiceNumber form.invoiceNumberDisplay)),
             ("invoiceDate", JsVal.str form.invoiceDate),
             ("description", JsVal.str (", ".intercalate (items.map (fun item =>
                textOf (getProp item "description"))))),
             ("subtotal", JsVal.num (orZero form.subtotal)),
             ("tax", JsVal.num (orZero form.taxAmount)),
             ("totalDue", JsVal.num (orZero form.totalDue)),
             ("balanceDue", JsVal.num (orZero form.balanceDue)),
             ("paymentReceived", JsVal.num (orZero form.amountPaid)),
             ("balanceDueDate", JsVal.str form.dueDate),
             ("clientEmail", JsVal.str form.invoiceClient),
             ("paymentMethod", JsVal.str form.paymentMethod),
             ("notes", JsVal.str form.notes)]
          arrays := [("items", items)] }
  else none

/-- The request the server parses from a payload: `lineItems` is the member of that
name when it is an array. -/
def requestOfPayload (payload : InvoicePayload) : InvoiceRequest where
  body := payload.fields
  lineItems := payload.arrays.lookup "lineItems"

/-- A form used as example data: invoice INV-1001 of 2024-06-01 for `jane@x.com` with
one row, two photo prints at 20.00. -/
def sampleForm : InvoiceForm where
  valid := true
  rows := [{ selectValue := "print", selectedText := "Photo Print", customDescription := "",
             quantity := some 2, price := some 20 }]
  invoiceNumberDisplay := "INV-1001"
  invoiceDate := "2024-06-01"
  subtotal := some 40
  taxAmount := some (16 / 5)
  totalDue := some (216 / 5)
  balanceDue := some (216 / 5)
  amountPaid := some 0
  dueDate := "2024-06-01"
  invoiceClient := "jane@x.com"
  paymentMethod := "card"
  notes := ""

/-! ## The revenue report -/

/-- An invoice of `reportsData` with what `new Date(invoice.INVOICEDATE)` gives: the
instant, `getFullYear()` and `getMonth()` (0 to 11). -/
structure ReportInvoice where
  time : Int
  fullYear : Nat
  month : Nat
  TOTALDUE : Option ℚ

/-- The grouping of the revenue report by time. -/
inductive GroupBy
  | month
  | quarter
  | year
  deriving DecidableEq

/-- The key `prepareRevenueData` files an invoice under. -/
def periodKey (groupBy : GroupBy) (invoice : ReportInvoice) : String :=
  match groupBy with
  | GroupBy.month =>
      toString invoice.fullYear ++ "-" ++ padStartZero 2 (toString (invoice.month + 1))
  | GroupBy.quarter =>
      "Q" ++ toString (invoice.month / 3 + 1) ++ " " ++ toString invoice.fullYear
  | GroupBy.year => toString invoice.fullYear

/-- Assignment `object[key] = value` on an object with numeric values. -/
def setRevenue (object : List (String × ℚ)) (key : String) (value : ℚ) : List (String × ℚ) :=
  if object.any (fun p => p.1 = key) then
    object.map (fun p => if p.1 = key then (key, value) else p)
  else object ++ [(key, value)]

/-- Read `object[key]`, with a missing member read as 0 (it is falsy like 0). -/
def getRevenue (object : List (String × ℚ)) (key : String) : ℚ :=
  match object.lookup key with
  | some v => v
  | none => 0

/-- The body of the `forEach` of `prepareRevenueData` for one invoice, with the start
and end instants of the report. -/
def revenueStep (groupBy : GroupBy) (startDate endDate : Int) (revenueByPeriod : List (String × ℚ))
    (invoice : ReportInvoice) : List (String × ℚ) :=
  if startDate ≤ invoice.time ∧ invoice.time ≤ endDate then
    let key := periodKey groupBy invoice
    let object :=
      if getRevenue revenueByPeriod key = 0 then setRevenue revenueByPeriod key 0
      else revenueByPeriod
    setRevenue object key (getRevenue object key + orZero invoice.TOTALDUE)
  else revenueByPeriod

/-- The object `revenueByPeriod` after the loop. -/
def revenueByPeriod (groupBy : GroupBy) (startDate endDate : Int)
    (invoices : List ReportInvoice) : List (String × ℚ) :=
  invoices.foldl (revenueStep groupBy startDate endDate) []

/-- The order `sort()` compares strings by: character code by character code, a
proper beginning of a string before the string (characters of the basic plane). -/
def codeUnitsLt : List Char → List Char → Bool
  | [], [] => false
  | [], _ :: _ => true
  | _ :: _, [] => false
  | a :: as, b :: bs =>
      if a.toNat < b.toNat then true
      else if b.toNat < a.toNat then false
      else codeUnitsLt as bs

/-- The array method `sort()` on strings: ascending by character codes. -/
def sortStrings (l : List String) : List String :=
  l.insertionSort (fun a b => codeUnitsLt b.data a.data = false)

/-- The labels `prepareRevenueData` returns: `Object.keys(revenueByPeriod).sort()`. -/
def revenueLabels (groupBy : GroupBy) (startDate endDate : Int)
    (invoices : List ReportInvoice) : List String :=
  sortStrings (objectKeys
    ((revenueByPeriod groupBy startDate endDate invoices).map (fun p => (p.1, JsVal.num p.2))))

/-- The data `prepareRevenueData` returns: the revenue of each label. -/
def revenueData (groupBy : GroupBy) (startDate endDate : Int)
    (invoices : List ReportInvoice) : List ℚ :=
  (revenueLabels groupBy startDate endDate invoices).map
    (getRevenue (revenueByPeriod groupBy startDate endDate invoices))

/-- Invoices used as example data: one of May 2023 (total due 100) and one of February
2024 (total due 250); instants in milliseconds. -/
def sampleReportInvoices : List ReportInvoice :=
  [{ time := 1683676800000, fullYear := 2023, month := 4, TOTALDUE := some 100 },
   { time := 1707523200000, fullYear := 2024, month := 1, TOTALDUE := some 250 }]

/-! ## Pagination in the browser -/

/-- The page size of the list pages (`itemsPerPage`, `listPageSize`). -/
def itemsPerPage : Nat := 10

/-- The array method `slice(start, end)`: a negative index counts from the end, and
both indices are clamped to the array. -/
def jsSlice {α : Type} (l : List α) (start finish : Int) : List α :=
  let len : Int := l.length
  let from_ : Int := if start < 0 then max (len + start) 0 else min start len
  let to_ : Int := if finish < 0 then max (len + finish) 0 else min finish len
  (l.drop from_.toNat).take (to_ - from_).toNat

/-- The rows a list page shows for the current page. -/
def pageSlice {α : Type} (filtered : List α) (currentPage : Int) : List α :=
  jsSlice filtered ((currentPage - 1) * itemsPerPage)
    ((currentPage - 1) * itemsPerPage + itemsPerPage)

/-- The number of pages: `Math.ceil(length / itemsPerPage)`. -/
def totalPages (length : Nat) : Nat := (length + (itemsPerPage - 1)) / itemsPerPage

/-- The function `changePage(direction)`: the current page afterwards. -/
def changePage (length : Nat) (currentPage direction : Int) : Int :=
  let newPage := currentPage + direction
  if 1 ≤ newPage ∧ newPage ≤ (totalPages length : Int) then newPage else currentPage

/-! ## Example data: a client with an earlier session on record -/

/-- An engine used as example data: it accepts `BEGIN` and knows the dates 2024-01-15
and 2024-06-01. -/
def twoDateEngine : Engine where
  acceptsBegin := true
  toDate s :=
    if s = "2024-06-01" then some 1717200000
    else if s = "2024-01-15" then some 1705276800
    else none
  isoString _ := "2024-06-01T00:00:00.000Z"

/-- A studio used as example data: Jane with last session date 2024-06-01. -/
def returningStudio : Studio where
  clients := [assign sampleClient "LAST_SESSION_DATE" (JsVal.num 1717200000)]
  sessions := []
  invoices := []
  lineItems := []
  products := []

/-- A session request used as example data: session S2 on 2024-01-15 for
`jane@x.com`. -/
def earlierSessionBody : JsObject :=
  [("sessionId", JsVal.str "S2"), ("sessionType", JsVal.str "Portrait"),
   ("sessionDate", JsVal.str "2024-01-15"), ("sessionStartTime", JsVal.str "10:00"),
   ("sessionEndTime", JsVal.str "11:00"), ("location", JsVal.str "Studio A"),
   ("packageName", JsVal.str "Basic"), ("sessionFee", JsVal.num 300),
   ("notes", JsVal.null), ("clientEmail", JsVal.str "jane@x.com"),
   ("depositPaid", JsVal.num 0)]

/-- An invoice used as example data: the sample invoice with the invoice number
2^53 = 9007199254740992. -/
def hugeInvoice : InvoiceRow := { sampleInvoice with INVOICENUMBER := 9007199254740992 }

/-- A form used as example data: the sample form with total due 100.00 and amount paid
150.00. -/
def overpaidForm : InvoiceForm :=
  { sampleForm with totalDue := some 100, amountPaid := some 150 }

/-- An engine used as example data that rejects the bare statement `BEGIN`, as Oracle
does; it knows the date 2024-06-01. -/
def oracleEngine : Engine where
  acceptsBegin := false
  toDate s := if s = "2024-06-01" then some 1717200000 else none
  isoString _ := "2024-06-01T00:00:00.000Z"

/-! ## Lemmas on the update builder -/

theorem foldl_step (updates : JsObject) (ks : List String) (b : Builder) :
    ks.foldl (Builder.step updates) b =
      { fields := b.fields ++ numberedFrom b.index (ks.filter (fun k => k ≠ "clientEmail"))
        values := b.values ++ (ks.filter (fun k => k ≠ "clientEmail")).map (getProp updates)
        index := b.index + (ks.filter (fun k => k ≠ "clientEmail")).length } := by
  induction ks generalizing b with
  | nil => cases b; simp [numberedFrom]
  | cons k ks ih =>
    rw [List.foldl_cons, ih]
    by_cases hk : k = "clientEmail"
    · simp [Builder.step, hk]
    · simp [Builder.step, hk, numberedFrom, List.enumFrom_cons, Nat.add_assoc, Nat.add_comm 1]

theorem buildFields_eq (updates : JsObject) :
    buildFields updates =
      { fields := numberedFrom 1 (updateKeys updates)
        values := (updateKeys updates).map (getProp updates)
        index := (updateKeys updates).length + 1 } := by
  unfold buildFields
  rw [foldl_step]
  simp [updateKeys, Nat.add_comm]

theorem numberedFrom_length (n : Nat) (ks : List String) :
    (numberedFrom n ks).length = ks.length := by
  simp [numberedFrom]

theorem numberedFrom_columns (n : Nat) (ks : List String) :
    (numberedFrom n ks).map SetClause.column = ks.map toUpperCase := by
  induction ks generalizing n with
  | nil => simp [numberedFrom]
  | cons k ks ih =>
    have := ih (n + 1)
    simp only [numberedFrom, List.enumFrom_cons, List.map_cons] at this ⊢
    rw [this]

theorem numberedFrom_get? (n i : Nat) (ks : List String) (k : String)
    (h : ks.get? i = some k) :
    (numberedFrom n ks).get? i = some { column := toUpperCase k, placeholder := n + i } := by
  induction ks generalizing n i with
  | nil => simp at h
  | cons a ks ih =>
    cases i with
    | zero =>
      simp only [List.get?_cons_zero, Option.some.injEq] at h
      simp [numberedFrom, List.enumFrom_cons, h]
    | succ i =>
      simp only [List.get?_cons_succ] at h
      have := ih (n + 1) i h
      simp only [numberedFrom, List.enumFrom_cons, List.map_cons, List.get?_cons_succ] at this ⊢
      rw [this]
      simp [Nat.add_assoc, Nat.add_comm 1]

theorem arrayIndex?_eq_some {key : String} {n : Nat} (h : arrayIndex? key = some n) :
    toString n = key := by
  unfold arrayIndex? at h
  split at h
  · split at h
    · rename_i h1
      cases h
      exact h1.2
    · cases h
  · cases h

theorem mem_objectKeys {o : JsObject} {k : String} :
    k ∈ objectKeys o ↔ k ∈ o.map Prod.fst := by
  unfold objectKeys
  simp only [List.mem_append, List.mem_map, List.mem_filter]
  constructor
  · rintro (⟨n, hn, rfl⟩ | ⟨h, _⟩)
    · rw [(List.perm_insertionSort _ _).mem_iff, List.mem_filterMap] at hn
      obtain ⟨key, hkey, hidx⟩ := hn
      rw [arrayIndex?_eq_some hidx]
      simpa using hkey
    · simpa using h
  · intro h
    cases hidx : arrayIndex? k with
    | none =>
      right
      refine ⟨by simpa using h, ?_⟩
      simp [isArrayIndex, hidx]
    | some n =>
      left
      refine ⟨n, ?_, arrayIndex?_eq_some hidx⟩
      rw [(List.perm_insertionSort _ _).mem_iff, List.mem_filterMap]
      exact ⟨k, by simpa using h, hidx⟩

theorem objectKeys_eq_of_no_index (o : JsObject)
    (h : ∀ k ∈ o.map Prod.fst, isArrayIndex k = false) :
    objectKeys o = o.map Prod.fst := by
  unfold objectKeys
  have h1 : (o.map Prod.fst).filterMap arrayIndex? = [] := by
    rw [List.filterMap_eq_nil_iff]
    intro k hk
    have := h k hk
    simpa [isArrayIndex] using this
  have h2 : (o.map Prod.fst).filter (fun k => !isArrayIndex k) = o.map Prod.fst := by
    rw [List.filter_eq_self]
    intro k hk
    simp [h k hk]
  simp only [h1, h2]
  simp

theorem updateKeys_eq_nil_of_only_identity (updates : JsObject)
    (h : ∀ k ∈ updates.map Prod.fst, k = "clientEmail") : updateKeys updates = [] := by
  unfold updateKeys
  rw [List.filter_eq_nil_iff]
  intro k hk
  have := h k (mem_objectKeys.mp hk)
  simp [this]

/-- The handler when no key reaches the SET list. -/
theorem putClient_of_no_keys {σ : Type} (db : Db σ) (email : String) (updates : JsObject)
    (s : σ) (h : updateKeys updates = []) :
    putClient db email updates s = { response := noFieldsResponse, state := s, calls := [] } := by
  unfold putClient
  simp [buildFields_eq, h, numberedFrom]

theorem putClient_of_keys {σ : Type} (db : Db σ) (email : String) (updates : JsObject)
    (s : σ) (h : updateKeys updates ≠ []) :
    putClient db email updates s =
      match db.execute (clientUpdateCall email updates) s with
      | (Except.ok _, s') =>
          { response := clientUpdatedResponse, state := s', calls := [clientUpdateCall email updates] }
      | (Except.error e, s') =>
          { response := errorResponse e, state := s', calls := [clientUpdateCall email updates] } := by
  unfold putClient
  have hlen : ¬ (numberedFrom 1 (updateKeys updates)).length = 0 := by
    rw [numberedFrom_length]
    intro h0
    exact h (List.length_eq_zero.mp h0)
  simp only [buildFields_eq, hlen, if_false, clientUpdateCall]

theorem putClient_calls_of_keys {σ : Type} (db : Db σ) (email : String) (updates : JsObject)
    (s : σ) (h : updateKeys updates ≠ []) :
    (putClient db email updates s).calls = [clientUpdateCall email updates] := by
  rw [putClient_of_keys db email updates s h]
  split <;> rfl

/-! ## Lemmas on the CLIENT table model -/

theorem assignAll_apply_cases (sets : List (SetClause × JsVal)) (c : String) :
    (∃ v, ∀ r : Row, assignAll r sets c = v) ∨ (∀ r : Row, assignAll r sets c = r c) := by
  induction sets with
  | nil => right; intro r; rfl
  | cons p rest ih =>
    have hcons : ∀ r : Row, assignAll r (p :: rest) c = assignAll (assign r p.1.column p.2) rest c :=
      fun r => rfl
    rcases ih with ⟨v, hv⟩ | hid
    · left
      exact ⟨v, fun r => by rw [hcons, hv]⟩
    · by_cases hc : c = p.1.column
      · left
        refine ⟨p.2, fun r => ?_⟩
        rw [hcons, hid]
        simp [assign, hc]
      · right
        intro r
        rw [hcons, hid]
        simp [assign, hc]

theorem assignAll_idem (sets : List (SetClause × JsVal)) (r : Row) :
    assignAll (assignAll r sets) sets = assignAll r sets := by
  funext c
  rcases assignAll_apply_cases sets c with ⟨v, hv⟩ | hid
  · rw [hv, hv]
  · rw [hid]

theorem applyClientUpdate_idem (fields : List SetClause) (binds : List JsVal) (t : List Row) :
    applyClientUpdate fields binds (applyClientUpdate fields binds t) =
      applyClientUpdate fields binds t := by
  unfold applyClientUpdate
  simp only [List.map_map]
  apply List.map_congr_left
  intro r _
  simp only [Function.comp]
  by_cases h : sqlEqual (r "CLIENTEMAIL") (binds.getD fields.length JsVal.null) = true
  · simp only [h, if_true, assignAll_idem]
    split <;> rfl
  · rw [if_neg h, if_neg h]

theorem clientUpdateCall_key (email : String) (updates : JsObject) :
    ((updateKeys updates).map (getProp updates) ++ [JsVal.str email]).getD
      (numberedFrom 1 (updateKeys updates)).length JsVal.null = JsVal.str email := by
  rw [numberedFrom_length]
  simp [List.getD_eq_getElem?_getD]

theorem putClient_clientDb {email : String} {updates : JsObject} (t : List Row)
    (h : updateKeys updates ≠ []) :
    putClient clientDb email updates t =
      { response := clientUpdatedResponse
        state := applyClientUpdate (numberedFrom 1 (updateKeys updates))
          ((updateKeys updates).map (getProp updates) ++ [JsVal.str email]) t
        calls := [clientUpdateCall email updates] } := by
  rw [putClient_of_keys clientDb email updates t h]
  rfl

/-! ## The client update: validation, statement shape, columns -/

/-- C1: for a body whose keys are none at all or only `clientEmail`, the handler of
PUT /api/clients/:email answers HTTP 400 with error 'No fields to update', makes no
call to `db.executeQuery` and leaves the database as it was. -/
theorem putClient_no_fields_to_update {σ : Type} (db : Db σ) (email : String)
    (updates : JsObject) (s : σ) (h : ∀ k ∈ updates.map Prod.fst, k = "clientEmail") :
    (putClient db email updates s).response =
        { status := 400, body := [("error", JsVal.str "No fields to update")] } ∧
      (putClient db email updates s).calls = [] ∧
      (putClient db email updates s).state = s := by
  rw [putClient_of_no_keys db email updates s (updateKeys_eq_nil_of_only_identity updates h)]
  exact ⟨rfl, rfl, rfl⟩

/-- Witness for C1: the body `{clientEmail: "jane@x.com"}` sent for `jane@x.com`. -/
theorem putClient_no_fields_to_update_witness :
    (∀ k ∈ ([("clientEmail", JsVal.str "jane@x.com")] : JsObject).map Prod.fst,
        k = "clientEmail") ∧
      (putClient clientDb "jane@x.com" [("clientEmail", JsVal.str "jane@x.com")]
          [sampleClient]).response =
        { status := 400, body := [("error", JsVal.str "No fields to update")] } ∧
      (putClient clientDb "jane@x.com" [("clientEmail", JsVal.str "jane@x.com")]
          [sampleClient]).calls = [] :=
  ⟨by decide,
   (putClient_no_fields_to_update clientDb "jane@x.com"
      [("clientEmail", JsVal.str "jane@x.com")] [sampleClient] (by decide)).1,
   (putClient_no_fields_to_update clientDb "jane@x.com"
      [("clientEmail", JsVal.str "jane@x.com")] [sampleClient] (by decide)).2.1⟩

theorem toUpperCase_eq_jsToUpperCase (special : Char → List Char) (k : String)
    (h : isAsciiKey k = true) : toUpperCase k = jsToUpperCase special k := by
  unfold toUpperCase jsToUpperCase
  congr 1
  unfold isAsciiKey at h
  generalize k.data = cs at h
  induction cs with
  | nil => rfl
  | cons c rest ih =>
    simp only [List.all_cons, Bool.and_eq_true, decide_eq_true_eq] at h
    simp only [List.map_cons, List.flatMap_cons, h.1, if_true, List.singleton_append]
    rw [ih h.2]

/-- C2, as stated, fails: for the body `{"b": 1, "1": 2}` the keys in submission
order are `b`, `1`, but the statement emitted sets `1 = :1, B = :2` with binds
`[2, 1, email]`, not `B = :1, 1 = :2` with binds `[1, 2, email]`. -/
theorem putClient_submission_order_counterexample :
    (putClient clientDb "jane@x.com" [("b", JsVal.num 1), ("1", JsVal.num 2)] []).calls =
        [{ stmt := Stmt.updateClient
              [{ column := "1", placeholder := 1 }, { column := "B", placeholder := 2 }] 3
           binds := [JsVal.num 2, JsVal.num 1, JsVal.str "jane@x.com"] }] ∧
      (putClient clientDb "jane@x.com" [("b", JsVal.num 1), ("1", JsVal.num 2)] []).calls ≠
        [{ stmt := Stmt.updateClient
              [{ column := "B", placeholder := 1 }, { column := "1", placeholder := 2 }] 3
           binds := [JsVal.num 1, JsVal.num 2, JsVal.str "jane@x.com"] }] := by
  decide

/-- C2, amended: let f1..fN (N >= 1) be the body keys other than `clientEmail` in the
order `Object.keys` lists them, all of them made of ASCII characters. The handler
makes exactly one call; its SET list is `F_i = :i` for i = 1..N in that order, F_i
being what `toUpperCase` of JavaScript gives for f_i (whatever the Unicode mapping of
the characters outside ASCII), its WHERE clause compares CLIENTEMAIL with `:(N+1)`,
and its bind list is the values of f1..fN followed by the path email, so N+1 binds
with the email last. When no key is an array index, the order of `Object.keys` is the
submission order. -/
theorem putClient_statement {σ : Type} (db : Db σ) (email : String) (updates : JsObject)
    (s : σ) (special : Char → List Char) (h : updateKeys updates ≠ [])
    (hascii : ∀ k ∈ updateKeys updates, isAsciiKey k = true) :
    (putClient db email updates s).calls =
        [{ stmt := Stmt.updateClient (numberedFrom 1 (updateKeys updates))
              ((updateKeys updates).length + 1)
           binds := (updateKeys updates).map (getProp updates) ++ [JsVal.str email] }] ∧
      (∀ i k, (updateKeys updates).get? i = some k →
        (numberedFrom 1 (updateKeys updates)).get? i =
          some { column := jsToUpperCase special k, placeholder := i + 1 }) ∧
      (numberedFrom 1 (updateKeys updates)).length = (updateKeys updates).length ∧
      (Stmt.updateClient (numberedFrom 1 (updateKeys updates))
          ((updateKeys updates).length + 1)).text =
        "\n            UPDATE CLIENT \n            SET "
          ++ ", ".intercalate ((numberedFrom 1 (updateKeys updates)).map SetClause.text)
          ++ "\n            WHERE CLIENTEMAIL = :" ++ toString ((updateKeys updates).length + 1)
          ++ "\n        " ∧
      ((updateKeys updates).map (getProp updates) ++ [JsVal.str email]).length =
        (updateKeys updates).length + 1 ∧
      ((updateKeys updates).map (getProp updates) ++ [JsVal.str email]).getLast? =
        some (JsVal.str email) ∧
      ((∀ k ∈ updates.map Prod.fst, isArrayIndex k = false) →
        updateKeys updates = (updates.map Prod.fst).filter (fun k => k ≠ "clientEmail")) := by
  refine ⟨putClient_calls_of_keys db email updates s h, ?_, numberedFrom_length _ _, rfl,
    by simp, by simp, ?_⟩
  · intro i k hk
    have hmem : k ∈ updateKeys updates := List.get?_mem hk
    rw [numberedFrom_get? 1 i _ k hk, Nat.add_comm,
      toUpperCase_eq_jsToUpperCase special k (hascii k hmem)]
  · intro hno
    unfold updateKeys
    rw [objectKeys_eq_of_no_index updates hno]

/-- Witness for C2 (amended): the body `{firstName, clientEmail, phone}` sent for
`jane@x.com`. -/
theorem putClient_statement_witness :
    updateKeys [("firstName", JsVal.str "Jane"), ("clientEmail", JsVal.str "other@x.com"),
        ("phone", JsVal.null)] ≠ [] ∧
      (∀ k ∈ updateKeys [("firstName", JsVal.str "Jane"),
          ("clientEmail", JsVal.str "other@x.com"), ("phone", JsVal.null)],
        isAsciiKey k = true) ∧
      (putClient clientDb "jane@x.com"
          [("firstName", JsVal.str "Jane"), ("clientEmail", JsVal.str "other@x.com"),
            ("phone", JsVal.null)] [sampleClient]).calls =
        [{ stmt := Stmt.updateClient
              (numberedFrom 1 (updateKeys [("firstName", JsVal.str "Jane"),
                ("clientEmail", JsVal.str "other@x.com"), ("phone", JsVal.null)]))
              ((updateKeys [("firstName", JsVal.str "Jane"),
                ("clientEmail", JsVal.str "other@x.com"), ("phone", JsVal.null)]).length + 1)
           binds := (updateKeys [("firstName", JsVal.str "Jane"),
                ("clientEmail", JsVal.str "other@x.com"), ("phone", JsVal.null)]).map
                  (getProp [("firstName", JsVal.str "Jane"),
                    ("clientEmail", JsVal.str "other@x.com"), ("phone", JsVal.null)])
                ++ [JsVal.str "jane@x.com"] }] :=
  ⟨by decide, by decide,
   (putClient_statement clientDb "jane@x.com"
      [("firstName", JsVal.str "Jane"), ("clientEmail", JsVal.str "other@x.com"),
        ("phone", JsVal.null)] [sampleClient] (fun c => [c]) (by decide) (by decide)).1⟩

/-- C3, at the failing input: the body `{"CLIENTEMAIL": "new@x.com"}` sent for
`jane@x.com` passes the `key !== 'clientEmail'` test, so the statement emitted is
`SET CLIENTEMAIL = :1 WHERE CLIENTEMAIL = :2` with binds `["new@x.com", "jane@x.com"]`,
and the stored client's email becomes `new@x.com`. -/
theorem putClient_uppercase_key_sets_identity :
    (putClient clientDb "jane@x.com" [("CLIENTEMAIL", JsVal.str "new@x.com")]
        [sampleClient]).calls =
        [{ stmt := Stmt.updateClient [{ column := "CLIENTEMAIL", placeholder := 1 }] 2
           binds := [JsVal.str "new@x.com", JsVal.str "jane@x.com"] }] ∧
      (Stmt.updateClient [{ column := "CLIENTEMAIL", placeholder := 1 }] 2).text =
        "\n            UPDATE CLIENT \n            SET CLIENTEMAIL = :1"
          ++ "\n            WHERE CLIENTEMAIL = :2\n        " ∧
      (putClient clientDb "jane@x.com" [("CLIENTEMAIL", JsVal.str "new@x.com")]
        [sampleClient]).response.status = 200 ∧
      (putClient clientDb "jane@x.com" [("CLIENTEMAIL", JsVal.str "new@x.com")]
        [sampleClient]).state.map (fun r => r "CLIENTEMAIL") = [JsVal.str "new@x.com"] := by
  decide

/-- C4, as stated, fails: the body `{"isAdmin": true}` makes the handler emit a SET
clause for the column ISADMIN, which is not a mutable column of the Client entity. -/
theorem putClient_unlisted_column_counterexample :
    (putClient clientDb "jane@x.com" [("isAdmin", JsVal.bool true)] [sampleClient]).calls.map
        setColumns = [["ISADMIN"]] ∧
      ¬ ∀ call ∈ (putClient clientDb "jane@x.com" [("isAdmin", JsVal.bool true)]
          [sampleClient]).calls, ∀ c ∈ setColumns call, c ∈ clientMutableColumns := by
  decide

/-- C4, amended: for every body whose keys other than `clientEmail` are made of ASCII
characters, the columns assigned in the SET list emitted by PUT /api/clients/:email
are what `toUpperCase` of JavaScript gives for those keys (whatever the Unicode
mapping of the characters outside ASCII), one per key and in the order of
`Object.keys`; no key is dropped for being outside the Client entity's columns. -/
theorem putClient_columns_are_uppercased_keys {σ : Type} (db : Db σ) (email : String)
    (updates : JsObject) (s : σ) (special : Char → List Char)
    (hascii : ∀ k ∈ updateKeys updates, isAsciiKey k = true) :
    ∀ call ∈ (putClient db email updates s).calls,
      setColumns call = (updateKeys updates).map (jsToUpperCase special) := by
  intro call hcall
  have hmap : (updateKeys updates).map toUpperCase =
      (updateKeys updates).map (jsToUpperCase special) :=
    List.map_congr_left (fun k hk => toUpperCase_eq_jsToUpperCase special k (hascii k hk))
  by_cases h : updateKeys updates = []
  · rw [putClient_of_no_keys db email updates s h] at hcall
    simp at hcall
  · rw [putClient_calls_of_keys db email updates s h, List.mem_singleton] at hcall
    rw [hcall, ← hmap]
    exact numberedFrom_columns 1 (updateKeys updates)

/-- Witness for C4 (amended): the body `{firstName, isAdmin}`, whose call sets
FIRSTNAME and ISADMIN. -/
theorem putClient_columns_are_uppercased_keys_witness :
    (∀ k ∈ updateKeys [("firstName", JsVal.str "Jane"), ("isAdmin", JsVal.bool true)],
        isAsciiKey k = true) ∧
    ({ stmt := Stmt.updateClient
          [{ column := "FIRSTNAME", placeholder := 1 }, { column := "ISADMIN", placeholder := 2 }] 3
       binds := [JsVal.str "Jane", JsVal.bool true, JsVal.str "jane@x.com"] } : SqlCall) ∈
        (putClient clientDb "jane@x.com"
          [("firstName", JsVal.str "Jane"), ("isAdmin", JsVal.bool true)] [sampleClient]).calls ∧
      setColumns
          { stmt := Stmt.updateClient
              [{ column := "FIRSTNAME", placeholder := 1 },
               { column := "ISADMIN", placeholder := 2 }] 3
            binds := [JsVal.str "Jane", JsVal.bool true, JsVal.str "jane@x.com"] } =
        (updateKeys [("firstName", JsVal.str "Jane"), ("isAdmin", JsVal.bool true)]).map
          (jsToUpperCase (fun c => [c])) :=
  ⟨by decide, by decide,
   putClient_columns_are_uppercased_keys clientDb "jane@x.com"
      [("firstName", JsVal.str "Jane"), ("isAdmin", JsVal.bool true)] [sampleClient]
      (fun c => [c]) (by decide) _ (by decide)⟩

/-- C5, at the failing input: the create operation stores `managedByStaffEmail` in
MANAGEDBY_STAFFEMAIL and `marketingLeadEmail` in MARKETINGLEAD_EMAIL, while the update
builder emits the columns MANAGEDBYSTAFFEMAIL and MARKETINGLEADEMAIL for them; for the
other eight fields the two column names agree. -/
theorem update_column_differs_from_create_column :
    createColumnOf "managedByStaffEmail" = some "MANAGEDBY_STAFFEMAIL" ∧
      (putClient clientDb "jane@x.com" [("managedByStaffEmail", JsVal.str "bob@studio.com")]
        [sampleClient]).calls.map setColumns = [["MANAGEDBYSTAFFEMAIL"]] ∧
      createColumnOf "marketingLeadEmail" = some "MARKETINGLEAD_EMAIL" ∧
      (putClient clientDb "jane@x.com" [("marketingLeadEmail", JsVal.str "lead@x.com")]
        [sampleClient]).calls.map setColumns = [["MARKETINGLEADEMAIL"]] ∧
      ∀ f ∈ ["firstName", "lastName", "phone", "street", "city", "state", "zip", "leadSource"],
        createColumnOf f = some (toUpperCase f) := by
  decide

/-! ## The client update on the table model: missing rows, idempotence -/

/-- C6, as stated, fails: updating `firstName` for `ghost@x.com`, which identifies no
row of the table, is answered 200 with success true, not 404, and no row changes. -/
theorem putClient_missing_row_counterexample :
    (putClient clientDb "ghost@x.com" [("firstName", JsVal.str "Ann")]
        [sampleClient]).response =
        { status := 200
          body := [("success", JsVal.bool true),
                   ("message", JsVal.str "Client updated successfully")] } ∧
      (putClient clientDb "ghost@x.com" [("firstName", JsVal.str "Ann")]
        [sampleClient]).response.status ≠ 404 ∧
      (putClient clientDb "ghost@x.com" [("firstName", JsVal.str "Ann")]
        [sampleClient]).state.map (fun r => (r "CLIENTEMAIL", r "FIRSTNAME")) =
        [(JsVal.str "jane@x.com", JsVal.str "Jane")] := by
  decide

/-- C6, amended: PUT /api/clients/:email with at least one field to update, for an
email that identifies no client row, changes no row and is answered as success
(HTTP 200, success true); the handler does not look at the number of rows affected. -/
theorem putClient_missing_row_is_success (email : String) (updates : JsObject) (t : List Row)
    (hfields : updateKeys updates ≠ [])
    (hmissing : ∀ r ∈ t, r "CLIENTEMAIL" ≠ JsVal.str email) :
    (putClient clientDb email updates t).response =
        { status := 200
          body := [("success", JsVal.bool true),
                   ("message", JsVal.str "Client updated successfully")] } ∧
      (putClient clientDb email updates t).state = t := by
  rw [putClient_clientDb t hfields]
  refine ⟨rfl, ?_⟩
  show applyClientUpdate _ _ t = t
  unfold applyClientUpdate
  rw [clientUpdateCall_key]
  conv_rhs => rw [← List.map_id t]
  apply List.map_congr_left
  intro r hr
  have hne := hmissing r hr
  have : sqlEqual (r "CLIENTEMAIL") (JsVal.str email) = false := by
    simp [sqlEqual, hne]
  simp [this]

/-- Witness for C6 (amended): `ghost@x.com` against a table holding only Jane. -/
theorem putClient_missing_row_is_success_witness :
    updateKeys [("firstName", JsVal.str "Ann")] ≠ [] ∧
      (∀ r ∈ [sampleClient], r "CLIENTEMAIL" ≠ JsVal.str "ghost@x.com") ∧
      (putClient clientDb "ghost@x.com" [("firstName", JsVal.str "Ann")]
        [sampleClient]).state = [sampleClient] :=
  ⟨by decide, by decide,
   (putClient_missing_row_is_success "ghost@x.com" [("firstName", JsVal.str "Ann")]
      [sampleClient] (by decide) (by decide)).2⟩

/-- C7: over the table model, applying the same PUT /api/clients/:email a second
time (same email, same body) leaves the table exactly as the first application left
it and is answered like the first; when the body has a field to update, both answers
are success (HTTP 200, success true). -/
theorem putClient_idempotent (email : String) (updates : JsObject) (t : List Row) :
    (putClient clientDb email updates (putClient clientDb email updates t).state).state =
        (putClient clientDb email updates t).state ∧
      (putClient clientDb email updates (putClient clientDb email updates t).state).response =
        (putClient clientDb email updates t).response ∧
      (updateKeys updates ≠ [] →
        (putClient clientDb email updates t).response =
            { status := 200
              body := [("success", JsVal.bool true),
                       ("message", JsVal.str "Client updated successfully")] } ∧
          (putClient clientDb email updates (putClient clientDb email updates t).state).response =
            { status := 200
              body := [("success", JsVal.bool true),
                       ("message", JsVal.str "Client updated successfully")] }) := by
  by_cases h : updateKeys updates = []
  · have e : ∀ s, putClient clientDb email updates s =
        { response := noFieldsResponse, state := s, calls := [] } :=
      fun s => putClient_of_no_keys clientDb email updates s h
    rw [e t, e t]
    exact ⟨rfl, rfl, fun hne => absurd h hne⟩
  · have e : ∀ s, putClient clientDb email updates s =
        { response := clientUpdatedResponse
          state := applyClientUpdate (numberedFrom 1 (updateKeys updates))
            ((updateKeys updates).map (getProp updates) ++ [JsVal.str email]) s
          calls := [clientUpdateCall email updates] } :=
      fun s => putClient_clientDb s h
    rw [e t, e _]
    exact ⟨applyClientUpdate_idem _ _ t, rfl, fun _ => ⟨rfl, rfl⟩⟩

/-- Witness for C7: setting Jane's first name and phone twice. -/
theorem putClient_idempotent_witness :
    updateKeys [("firstName", JsVal.str "Janet"), ("phone", JsVal.str "555-0100")] ≠ [] ∧
      (putClient clientDb "jane@x.com"
          [("firstName", JsVal.str "Janet"), ("phone", JsVal.str "555-0100")]
          (putClient clientDb "jane@x.com"
            [("firstName", JsVal.str "Janet"), ("phone", JsVal.str "555-0100")]
            [sampleClient]).state).state =
        (putClient clientDb "jane@x.com"
          [("firstName", JsVal.str "Janet"), ("phone", JsVal.str "555-0100")]
          [sampleClient]).state ∧
      (putClient clientDb "jane@x.com"
          [("firstName", JsVal.str "Janet"), ("phone", JsVal.str "555-0100")]
          [sampleClient]).response =
        { status := 200
          body := [("success", JsVal.bool true),
                   ("message", JsVal.str "Client updated successfully")] } :=
  ⟨by decide,
   (putClient_idempotent "jane@x.com"
      [("firstName", JsVal.str "Janet"), ("phone", JsVal.str "555-0100")] [sampleClient]).1,
   ((putClient_idempotent "jane@x.com"
      [("firstName", JsVal.str "Janet"), ("phone", JsVal.str "555-0100")] [sampleClient]).2.2
        (by decide)).1⟩

/-! ## Invoice payment and derived status -/

theorem putInvoicePayment_invoiceDb (id : String) (n : Int) (p : ℚ) (body : JsObject)
    (t : List InvoiceRow) (hid : sqlNumber (JsVal.str id) = Except.ok (some (n : ℚ)))
    (hbody : getProp body "paymentReceived" = JsVal.num p) :
    putInvoicePayment invoiceDb id body t =
      { response := paymentRecordedResponse
        state := t.map (fun r =>
          if r.INVOICENUMBER = n then applyPayment (some p) (some p) r else r)
        calls := [{ stmt := Stmt.updateInvoicePayment
                    binds := [JsVal.num p, JsVal.num p, JsVal.str id] }] } := by
  have hp : sqlNumber (JsVal.num p) = Except.ok (some p) := rfl
  simp only [putInvoicePayment, invoiceDb, applyPaymentUpdate, hbody, hid, hp]
  simp only [Option.some.injEq, Int.cast_inj]

theorem applyPayment_fields (p T R : ℚ) (r : InvoiceRow) (hT : r.TOTALDUE = some T)
    (hR : r.PAYMENTRECEIVED = some R) :
    (applyPayment (some p) (some p) r).PAYMENTRECEIVED = some (R + p) ∧
      (applyPayment (some p) (some p) r).BALANCEDUE = some (T - (R + p)) ∧
      (applyPayment (some p) (some p) r).TOTALDUE = some T ∧
      (applyPayment (some p) (some p) r).BALANCEDUEDATE = r.BALANCEDUEDATE := by
  simp [applyPayment, hT, hR, sqlAdd, sqlSub]

theorem putInvoicePayment_state_get? (id : String) (n : Int) (p : ℚ) (body : JsObject)
    (t : List InvoiceRow) (i : Nat) (r : InvoiceRow)
    (hid : sqlNumber (JsVal.str id) = Except.ok (some (n : ℚ)))
    (hbody : getProp body "paymentReceived" = JsVal.num p)
    (hi : t.get? i = some r) (hn : r.INVOICENUMBER = n) :
    (putInvoicePayment invoiceDb id body t).state.get? i =
      some (applyPayment (some p) (some p) r) := by
  rw [putInvoicePayment_invoiceDb id n p body t hid hbody]
  simp [List.get?_eq_getElem?] at hi ⊢
  simp [hi, hn]

theorem PAYMENT_STATUS_of_zero_balance (r : InvoiceRow) (now : Int)
    (h : r.BALANCEDUE = some 0) : PAYMENT_STATUS r now = "Paid" := by
  simp [PAYMENT_STATUS, caseWhen, sqlEq, h]

/-- C8: after PUT /api/invoices/:id/payment with payment `p`, every row of invoice `id`
that had total due `T` and payment received `R` (whatever its balance was) has payment
received `R + p` and balance due `T - (R + p)`, hence balance due = total due -
payment received; the call is answered 200. -/
theorem putInvoicePayment_maintains_invariant (id : String) (n : Int) (p : ℚ)
    (body : JsObject) (t : List InvoiceRow)
    (hid : sqlNumber (JsVal.str id) = Except.ok (some (n : ℚ)))
    (hbody : getProp body "paymentReceived" = JsVal.num p) :
    (putInvoicePayment invoiceDb id body t).response =
        { status := 200
          body := [("success", JsVal.bool true),
                   ("message", JsVal.str "Payment recorded successfully")] } ∧
      ∀ (i : Nat) (r : InvoiceRow) (T R : ℚ), t.get? i = some r → r.INVOICENUMBER = n →
        r.TOTALDUE = some T → r.PAYMENTRECEIVED = some R →
        ∃ r', (putInvoicePayment invoiceDb id body t).state.get? i = some r' ∧
          r'.PAYMENTRECEIVED = some (R + p) ∧
          r'.BALANCEDUE = some (T - (R + p)) ∧
          r'.TOTALDUE = some T ∧
          r'.BALANCEDUE = sqlSub r'.TOTALDUE r'.PAYMENTRECEIVED := by
  rw [putInvoicePayment_invoiceDb id n p body t hid hbody]
  refine ⟨rfl, ?_⟩
  intro i r T R hi hn hT hR
  obtain ⟨h1, h2, h3, _⟩ := applyPayment_fields p T R r hT hR
  refine ⟨applyPayment (some p) (some p) r, ?_, h1, h2, h3, ?_⟩
  · rw [← putInvoicePayment_invoiceDb id n p body t hid hbody]
    exact putInvoicePayment_state_get? id n p body t i r hid hbody hi hn
  · rw [h1, h2, h3]
    rfl

/-- Witness for C8: a payment of 120.50 on invoice 1001, whose stored balance (300)
is replaced by 300 - (0 + 120.50). -/
theorem putInvoicePayment_maintains_invariant_witness :
    sqlNumber (JsVal.str "1001") = Except.ok (some ((1001 : Int) : ℚ)) ∧
      getProp [("paymentReceived", JsVal.num (241 / 2))] "paymentReceived" =
        JsVal.num (241 / 2) ∧
      ∃ r', (putInvoicePayment invoiceDb "1001" [("paymentReceived", JsVal.num (241 / 2))]
          [sampleInvoice]).state.get? 0 = some r' ∧
        r'.PAYMENTRECEIVED = some (0 + 241 / 2) ∧
        r'.BALANCEDUE = some (300 - (0 + 241 / 2)) ∧
        r'.TOTALDUE = some 300 ∧
        r'.BALANCEDUE = sqlSub r'.TOTALDUE r'.PAYMENTRECEIVED :=
  ⟨rfl, rfl,
   (putInvoicePayment_maintains_invariant "1001" 1001 (241 / 2)
      [("paymentReceived", JsVal.num (241 / 2))] [sampleInvoice] rfl rfl).2
      0 sampleInvoice 300 0 rfl rfl rfl rfl⟩

/-- C10: the PAYMENT_STATUS computed by GET /api/invoices is the invoice rule: 'Paid'
if BALANCEDUE = 0; else 'Overdue' if BALANCEDUEDATE is set and earlier than now; else
'Pending', also when the due date is null. -/
theorem PAYMENT_STATUS_eq_invoiceRule (i : InvoiceRow) (now : Int) :
    PAYMENT_STATUS i now = invoiceRule i.BALANCEDUE i.BALANCEDUEDATE now := by
  unfold PAYMENT_STATUS invoiceRule
  cases hb : i.BALANCEDUE with
  | none =>
    cases hd : i.BALANCEDUEDATE with
    | none => simp [caseWhen, sqlEq, sqlLt]
    | some d => by_cases h : d < now <;> simp [caseWhen, sqlEq, sqlLt, h]
  | some b =>
    by_cases h0 : b = 0
    · simp [caseWhen, sqlEq, h0]
    · cases hd : i.BALANCEDUEDATE with
      | none => simp [caseWhen, sqlEq, sqlLt, h0]
      | some d => by_cases h : d < now <;> simp [caseWhen, sqlEq, sqlLt, h0, h]

/-- C9: for an invoice whose balance due `B` equals total due - payment received,
recording a payment of `B` leaves the balance due exactly 0 and makes PAYMENT_STATUS
'Paid'; in particular an invoice with total due 300.00 and payment received 0 is
'Pending' while no due date has passed and, after a payment of 300.00, has balance
0.00 and status 'Paid'. -/
theorem full_payment_marks_paid (id : String) (n : Int) (t : List InvoiceRow) (i : Nat)
    (r : InvoiceRow) (T R B : ℚ) (now : Int)
    (hid : sqlNumber (JsVal.str id) = Except.ok (some (n : ℚ)))
    (hi : t.get? i = some r) (hn : r.INVOICENUMBER = n)
    (hT : r.TOTALDUE = some T) (hR : r.PAYMENTRECEIVED = some R)
    (hB : r.BALANCEDUE = some B) (hinv : B = T - R) :
    (∃ r', (putInvoicePayment invoiceDb id [("paymentReceived", JsVal.num B)] t).state.get? i =
          some r' ∧
        r'.BALANCEDUE = some 0 ∧ PAYMENT_STATUS r' now = "Paid") ∧
      (T = 300 → R = 0 → (∀ d, r.BALANCEDUEDATE = some d → now ≤ d) →
        PAYMENT_STATUS r now = "Pending" ∧
        ∃ r', (putInvoicePayment invoiceDb id [("paymentReceived", JsVal.num 300)] t).state.get? i =
            some r' ∧
          r'.BALANCEDUE = some 0 ∧ PAYMENT_STATUS r' now = "Paid") := by
  have key : ∀ p : ℚ, p = T - R →
      ∃ r', (putInvoicePayment invoiceDb id [("paymentReceived", JsVal.num p)] t).state.get? i =
          some r' ∧
        r'.BALANCEDUE = some 0 ∧ PAYMENT_STATUS r' now = "Paid" := by
    intro p hp
    have hz : (applyPayment (some p) (some p) r).BALANCEDUE = some 0 := by
      rw [(applyPayment_fields p T R r hT hR).2.1, hp]
      congr 1
      ring
    exact ⟨_, putInvoicePayment_state_get? id n p _ t i r hid rfl hi hn, hz,
      PAYMENT_STATUS_of_zero_balance _ now hz⟩
  refine ⟨key B hinv, ?_⟩
  intro hT300 hR0 hdue
  refine ⟨?_, key 300 (by rw [hT300, hR0]; norm_num)⟩
  have hB300 : r.BALANCEDUE = some 300 := by
    rw [hB, hinv, hT300, hR0]
    norm_num
  unfold PAYMENT_STATUS
  cases hd : r.BALANCEDUEDATE with
  | none => simp [caseWhen, sqlEq, sqlLt, hB300]
  | some d =>
    have := hdue d hd
    simp [caseWhen, sqlEq, sqlLt, hB300, Int.not_lt.mpr this]

/-- Witness for C9: invoice 1001 for `jane@x.com`, total due 300.00, nothing received,
no due date, paid in full. -/
theorem full_payment_marks_paid_witness :
    sqlNumber (JsVal.str "1001") = Except.ok (some ((1001 : Int) : ℚ)) ∧
      sampleInvoice.BALANCEDUE = some 300 ∧ (300 : ℚ) = 300 - 0 ∧
      PAYMENT_STATUS sampleInvoice 1700000000 = "Pending" ∧
      ∃ r', (putInvoicePayment invoiceDb "1001" [("paymentReceived", JsVal.num 300)]
          [sampleInvoice]).state.get? 0 = some r' ∧
        r'.BALANCEDUE = some 0 ∧ PAYMENT_STATUS r' 1700000000 = "Paid" :=
  ⟨rfl, rfl, by norm_num,
   ((full_payment_marks_paid "1001" 1001 [sampleInvoice] 0 sampleInvoice 300 0 300 1700000000
      rfl rfl rfl rfl rfl rfl (by norm_num)).2 rfl rfl (by intro d hd; cases hd)).1,
   (full_payment_marks_paid "1001" 1001 [sampleInvoice] 0 sampleInvoice 300 0 300 1700000000
      rfl rfl rfl rfl rfl rfl (by norm_num)).1⟩

/-! ## Derived status in the browser and in the product list -/

/-- C11, as stated, fails: invoice 1001 (balance 300.00, no due date) is shown as
'Draft' by the invoice table, which is none of paid, overdue, pending; the invoice
rule gives 'Pending' for it. -/
theorem invoiceTableStatus_draft_counterexample :
    invoiceTableStatus sampleInvoice 1700000000 = "Draft" ∧
      invoiceRule sampleInvoice.BALANCEDUE sampleInvoice.BALANCEDUEDATE 1700000000 = "Pending" ∧
      invoiceTableStatus sampleInvoice 1700000000 ∉ ["Paid", "Overdue", "Pending"] := by
  decide

/-- C11, amended: the status shown by the invoice table is the invoice rule (Paid if
BALANCEDUE is 0, else Overdue if a due date is set and before now, else Pending)
except for an invoice with a non-zero balance and no due date, which is shown as
Draft; exactly one of the four labels applies. -/
theorem invoiceTableStatus_rule (i : InvoiceRow) (today : Int) :
    invoiceTableStatus i today =
        (if i.BALANCEDUE ≠ some 0 ∧ i.BALANCEDUEDATE = none then "Draft"
         else invoiceRule i.BALANCEDUE i.BALANCEDUEDATE today) ∧
      invoiceTableStatus i today ∈ ["Paid", "Overdue", "Pending", "Draft"] := by
  unfold invoiceTableStatus invoiceRule
  by_cases hb : i.BALANCEDUE = some 0
  · simp [hb]
  · cases hd : i.BALANCEDUEDATE with
    | none => simp [hb]
    | some d => by_cases h : d < today <;> simp [hb, h]

/-- C12, as stated, fails: the overpaid invoice 1002 (balance -50.00, due date passed)
is labelled Overdue by the server and by the invoice table although its balance is not
above 0, and it is not counted in the overdue amount. -/
theorem overdue_negative_balance_counterexample :
    PAYMENT_STATUS overpaidInvoice 2000 = "Overdue" ∧
      invoiceTableStatus overpaidInvoice 2000 = "Overdue" ∧
      overpaidInvoice.BALANCEDUE = some (-50) ∧ ¬ ((0 : ℚ) < -50) ∧
      overpaidInvoice.BALANCEDUEDATE = some 1000 ∧ (1000 : Int) < 2000 ∧
      countsAsOverdue overpaidInvoice 2000 = false ∧
      overdueAmount [overpaidInvoice] 2000 = 0 := by
  decide

/-- C12, amended: for every invoice the derived status is Overdue if and only if the
balance due is not 0 and a due date is set and before now, both for the server's
PAYMENT_STATUS and for the invoice table (for a balance that is not negative this is
balance due > 0); the invoices counted in the overdue amount are exactly the invoices
labelled Overdue whose balance is above 0, and the amount is the sum of their balances. -/
theorem overdue_iff (i : InvoiceRow) (invoicesData : List InvoiceRow) (now : Int) :
    (PAYMENT_STATUS i now = "Overdue" ↔
        i.BALANCEDUE ≠ some 0 ∧ ∃ d, i.BALANCEDUEDATE = some d ∧ d < now) ∧
      (invoiceTableStatus i now = "Overdue" ↔
        i.BALANCEDUE ≠ some 0 ∧ ∃ d, i.BALANCEDUEDATE = some d ∧ d < now) ∧
      (countsAsOverdue i now = true ↔
        invoiceTableStatus i now = "Overdue" ∧ ∃ b, i.BALANCEDUE = some b ∧ 0 < b) ∧
      overdueAmount invoicesData now =
        ((invoicesData.filter (fun inv => countsAsOverdue inv now)).map
          (fun inv => inv.BALANCEDUE.getD 0)).sum := by
  refine ⟨?_, ?_, ?_, ?_⟩
  · unfold PAYMENT_STATUS
    cases hb : i.BALANCEDUE with
    | none =>
      cases hd : i.BALANCEDUEDATE with
      | none => simp [caseWhen, sqlEq, sqlLt]
      | some d => by_cases h : d < now <;> simp [caseWhen, sqlEq, sqlLt, h]
    | some b =>
      by_cases h0 : b = 0
      · simp [caseWhen, sqlEq, h0]
      · cases hd : i.BALANCEDUEDATE with
        | none => simp [caseWhen, sqlEq, sqlLt, h0]
        | some d => by_cases h : d < now <;> simp [caseWhen, sqlEq, sqlLt, h0, h]
  · unfold invoiceTableStatus
    by_cases hb : i.BALANCEDUE = some 0
    · simp [hb]
    · cases hd : i.BALANCEDUEDATE with
      | none => simp [hb]
      | some d => by_cases h : d < now <;> simp [hb, h]
  · unfold countsAsOverdue invoiceTableStatus jsPositive
    cases hd : i.BALANCEDUEDATE with
    | none =>
      by_cases hb : i.BALANCEDUE = some 0 <;> simp [hb]
    | some d =>
      cases hb : i.BALANCEDUE with
      | none => simp
      | some b =>
        by_cases h0 : b = 0
        · simp [h0]
        · by_cases h : d < now <;> simp [h0, h]
  · unfold overdueAmount
    suffices hgen : ∀ (l : List InvoiceRow) (acc : ℚ),
        l.foldl (overdueStep now) acc =
          acc + ((l.filter (fun inv => countsAsOverdue inv now)).map
            (fun inv => inv.BALANCEDUE.getD 0)).sum by
      simpa using hgen invoicesData 0
    intro l
    induction l with
    | nil => intro acc; simp
    | cons inv rest ih =>
      intro acc
      rw [List.foldl_cons, ih]
      by_cases hc : countsAsOverdue inv now = true
      · simp [overdueStep, hc, List.filter_cons, add_assoc]
      · simp [overdueStep, hc, List.filter_cons]

/-- C15, at the failing input: in a browser running in UTC at noon of 31 August 2024,
`sixMonthsAgo` is noon of 2 March 2024, because `setMonth` carries the day 31 past
the end of February, while six months before now is noon of 29 February 2024; a client
whose last session date is 1 March 2024 (at 00:00) is shown Inactive although that date is
not earlier than six months before now. At 09:30 of 15 September 2024 both instants
are 09:30 of 15 March 2024. For every zone and every now the table shows New without a
last session date, Inactive exactly when the date is strictly earlier than
`sixMonthsAgo` and Active otherwise, one of the three labels in every case (a date equal to `sixMonthsAgo` is
Active), and `sixMonthsAgo` is six months before now whenever the month six months back has the
day of the month of now. -/
theorem clientStatusText_month_end (tz : TimeZone) (now : Int) :
    (civilFromDays (Day 1725105600000) = (2024, 8, 31) ∧
        TimeWithinDay 1725105600000 = 43200000 ∧
        sixMonthsAgo utcZone 1725105600000 = 1709380800000 ∧
        civilFromDays (Day 1709380800000) = (2024, 3, 2) ∧
        TimeWithinDay 1709380800000 = 43200000 ∧
        sixMonthsBefore utcZone 1725105600000 = 1709208000000 ∧
        civilFromDays (Day 1709208000000) = (2024, 2, 29) ∧
        civilFromDays (Day 1709251200000) = (2024, 3, 1) ∧
        TimeWithinDay 1709251200000 = 0 ∧
        clientStatusText utcZone (some 1709251200000) 1725105600000 = "Inactive" ∧
        clientStatusRule utcZone (some 1709251200000) 1725105600000 = "Active") ∧
      (civilFromDays (Day 1726392600000) = (2024, 9, 15) ∧
        sixMonthsAgo utcZone 1726392600000 = 1710495000000 ∧
        sixMonthsBefore utcZone 1726392600000 = 1710495000000 ∧
        civilFromDays (Day 1710495000000) = (2024, 3, 15)) ∧
      clientStatusText tz none now = "New" ∧
      (∀ d, (clientStatusText tz (some d) now = "Inactive" ↔ d < sixMonthsAgo tz now) ∧
        (clientStatusText tz (some d) now = "Active" ↔ sixMonthsAgo tz now ≤ d)) ∧
      clientStatusText tz (some (sixMonthsAgo tz now)) now = "Active" ∧
      (∀ last, clientStatusText tz last now ∈ ["New", "Inactive", "Active"]) ∧
      (DateFromTime (LocalTime tz now) ≤
          daysInMonth (YearFromTime (LocalTime tz now)) (MonthFromTime (LocalTime tz now) - 6) →
        sixMonthsAgo tz now = sixMonthsBefore tz now) := by
  refine ⟨by decide, by decide, rfl, ?_, ?_, ?_, ?_⟩
  · intro d
    unfold clientStatusText
    by_cases h : d < sixMonthsAgo tz now
    · simp [h]
    · simp [h, Int.not_lt.mp h]
  · simp [clientStatusText]
  · intro last
    unfold clientStatusText
    cases last with
    | none => simp
    | some d => by_cases h : d < sixMonthsAgo tz now <;> simp [h]
  · intro h
    unfold sixMonthsAgo sixMonthsBefore setMonth getMonth
    simp only [min_eq_left h]

/-- C16, as stated, fails: a session on 2024-06-01 from 14:00 to 16:00, looked at at
10:00 of that day, has its start after now, so the rule gives upcoming; the function,
which is given the date and the end time only, answers 'inprogress'. -/
theorem getSessionStatus_start_time_counterexample :
    getSessionStatus sampleParse 1717236000000 "2024-06-01" (some "16:00") = "inprogress" ∧
      sessionRule 1717250400000 1717257600000 1717236000000 = "upcoming" ∧
      getSessionStatus sampleParse 1717236000000 "2024-06-01" (some "16:00") ≠
        sessionRule 1717250400000 1717257600000 1717236000000 := by
  decide

/-- C16, amended: getSessionStatus classifies a session, whose start is the instant of
its date alone (the start time is not consulted) and whose end is its date and end
time, as completed if end < now, inprogress if now is between start and end, and
upcoming if start > now. -/
theorem getSessionStatus_rule (parse : String → JsDate) (now : Int) (sessionDate t : String)
    (start finish : Int) (ht : t ≠ "") (hstart : parse sessionDate = some start)
    (hend : parse (sessionDate ++ "T" ++ t) = some finish) :
    getSessionStatus parse now sessionDate (some t) = sessionRule start finish now := by
  unfold getSessionStatus sessionRule
  simp only [ht, ne_eq, not_false_eq_true, if_true, hstart, hend, dateLt, dateLe]
  by_cases h1 : finish < now
  · simp [h1]
  · by_cases h2 : start ≤ now
    · simp [h1, h2, Int.not_lt.mp h1]
    · simp [h1, h2, Int.not_le.mp h2]

/-- Witness for C16 (amended): the session of 2024-06-01 ending 16:00, seen at 10:00. -/
theorem getSessionStatus_rule_witness :
    getSessionStatus sampleParse 1717236000000 "2024-06-01" (some "16:00") =
      sessionRule 1717200000000 1717257600000 1717236000000 :=
  getSessionStatus_rule sampleParse 1717236000000 "2024-06-01" "16:00"
    1717200000000 1717257600000 (by decide) (by decide) (by decide)

/-- C17, as stated, fails: a product with stock level -1 is labelled 'Low Stock'
although 0 < s fails, and it is neither listed by the low-stock table nor counted by
the low-stock statistic. -/
theorem productStatusText_negative_counterexample :
    productStatusText (some (-1)) = "Low Stock" ∧ ¬ ((0 : ℚ) < -1) ∧
      lowStockListed (some (-1)) = false ∧ lowStockCounted (some (-1)) = false := by
  decide

/-- C17, amended: in the product views, for every stock level s that is not negative
the label is 'Out of Stock' if and only if s = 0 and 'Low Stock' if and only if
0 < s <= 10; among products with such stock levels, those flagged low stock are exactly
those listed by the low-stock table and counted by the low-stock statistic. -/
theorem productStatusText_rule (s : ℚ) (products : List (Option ℚ)) (hs : 0 ≤ s)
    (hproducts : ∀ p ∈ products, 0 ≤ stockLevelOf p) :
    (productStatusText (some s) = "Out of Stock" ↔ s = 0) ∧
      (productStatusText (some s) = "Low Stock" ↔ 0 < s ∧ s ≤ 10) ∧
      products.filter (fun p => decide (productStatusText p = "Low Stock")) =
        products.filter lowStockListed ∧
      products.filter (fun p => decide (productStatusText p = "Low Stock")) =
        products.filter lowStockCounted := by
  have key : ∀ p : Option ℚ, 0 ≤ stockLevelOf p →
      (decide (productStatusText p = "Low Stock") = lowStockListed p ∧
        decide (productStatusText p = "Low Stock") = lowStockCounted p) := by
    intro p hp
    cases p with
    | none => simp [productStatusText, stockLevelOf, lowStockListed, lowStockCounted, jsPositive,
        jsAtMostTen]
    | some q =>
      have hq : 0 ≤ q := by
        by_cases h0 : q = 0
        · simp [h0]
        · simpa [stockLevelOf, h0] using hp
      by_cases h0 : q = 0
      · simp [productStatusText, stockLevelOf, lowStockListed, lowStockCounted, jsPositive,
          jsAtMostTen, h0]
      · have hpos : 0 < q := lt_of_le_of_ne hq (Ne.symm h0)
        by_cases h10 : q ≤ 10
        · simp [productStatusText, stockLevelOf, lowStockListed, lowStockCounted, jsPositive,
            jsAtMostTen, h0, hpos, h10]
        · simp [productStatusText, stockLevelOf, lowStockListed, lowStockCounted, jsPositive,
            jsAtMostTen, h0, hpos, h10]
  refine ⟨?_, ?_, ?_, ?_⟩
  · by_cases h0 : s = 0
    · simp [productStatusText, stockLevelOf, h0]
    · by_cases h10 : s ≤ 10 <;> simp [productStatusText, stockLevelOf, h0, h10]
  · by_cases h0 : s = 0
    · simp [productStatusText, stockLevelOf, h0]
    · have hpos : 0 < s := lt_of_le_of_ne hs (Ne.symm h0)
      by_cases h10 : s ≤ 10 <;> simp [productStatusText, stockLevelOf, h0, h10, hpos]
  · apply List.filter_congr
    intro p hp
    exact (key p (hproducts p hp)).1
  · apply List.filter_congr
    intro p hp
    exact (key p (hproducts p hp)).2

/-- Witness for C17 (amended): stock level 7 among the stock levels 0, 7, 25 and null. -/
theorem productStatusText_rule_witness :
    (productStatusText (some 7) = "Low Stock" ↔ (0 : ℚ) < 7 ∧ (7 : ℚ) ≤ 10) ∧
      [some 0, some 7, some 25, none].filter
          (fun p => decide (productStatusText p = "Low Stock")) =
        [some 0, some 7, some 25, none].filter lowStockListed :=
  ⟨(productStatusText_rule 7 [some 0, some 7, some 25, none] (by norm_num)
      (by decide)).2.1,
   (productStatusText_rule 7 [some 0, some 7, some 25, none] (by norm_num)
      (by decide)).2.2.1⟩

/-- C18: the STOCK_STATUS computed by GET /api/products for stock level s is 'Low' if
s <= 5, 'Medium' if 5 < s <= 20 and 'High' otherwise (also for a NULL stock level), so
exactly one of the three labels applies to every product. -/
theorem STOCK_STATUS_rule (s : ℚ) :
    (STOCK_STATUS (some s) = "Low" ↔ s ≤ 5) ∧
      (STOCK_STATUS (some s) = "Medium" ↔ 5 < s ∧ s ≤ 20) ∧
      (STOCK_STATUS (some s) = "High" ↔ 20 < s) ∧
      STOCK_STATUS none = "High" ∧
      (∀ stock, STOCK_STATUS stock ∈ ["Low", "Medium", "High"]) := by
  have h520 : (5 : ℚ) ≤ 20 := by norm_num
  refine ⟨?_, ?_, ?_, ?_, ?_⟩
  · by_cases h5 : s ≤ 5
    · simp [STOCK_STATUS, caseWhen, sqlLe, h5]
    · by_cases h20 : s ≤ 20 <;> simp [STOCK_STATUS, caseWhen, sqlLe, h5, h20]
  · by_cases h5 : s ≤ 5
    · simp [STOCK_STATUS, caseWhen, sqlLe, h5]
    · by_cases h20 : s ≤ 20 <;> simp [STOCK_STATUS, caseWhen, sqlLe, h5, h20, not_le.mp h5]
  · by_cases h5 : s ≤ 5
    · simp [STOCK_STATUS, caseWhen, sqlLe, h5, le_trans h5 h520]
    · by_cases h20 : s ≤ 20
      · simp [STOCK_STATUS, caseWhen, sqlLe, h5, h20]
      · simp [STOCK_STATUS, caseWhen, sqlLe, h5, h20, not_le.mp h20]
  · simp [STOCK_STATUS, caseWhen, sqlLe]
  · intro stock
    cases stock with
    | none => simp [STOCK_STATUS, caseWhen, sqlLe]
    | some q =>
      by_cases h5 : q ≤ 5
      · simp [STOCK_STATUS, caseWhen, sqlLe, h5]
      · by_cases h20 : q ≤ 20 <;> simp [STOCK_STATUS, caseWhen, sqlLe, h5, h20]

/-! ## db.executeQuery: the connection is released on every path -/

/-- C20: in every call of db.executeQuery in which pool.getConnection succeeds,
connection.close is called exactly once, as the last step before the call settles,
whether connection.execute resolves (the call returns result.rows, or [] when there
are none) or throws (the call rejects with that same error); what close itself returns
or throws plays no part in the outcome. -/
theorem executeQuery_releases_connection {σ : Type} (drv : Driver σ) (sql : String)
    (binds : List JsVal) (s s1 : σ) (connection : Nat)
    (hconn : drv.getConnection s = (Except.ok connection, s1)) :
    (executeQuery drv sql binds s).events =
        [DriverEvent.getConnection, DriverEvent.execute connection sql binds true,
         DriverEvent.close connection] ∧
      (executeQuery drv sql binds s).events.count (DriverEvent.close connection) = 1 ∧
      (executeQuery drv sql binds s).events.getLast? = some (DriverEvent.close connection) ∧
      (executeQuery drv sql binds s).outcome =
        (match (drv.execute connection sql binds true s1).1 with
         | Except.ok rows => Except.ok (rows.getD [])
         | Except.error err => Except.error err) ∧
      (executeQuery drv sql binds s).state =
        (drv.close connection (drv.execute connection sql binds true s1).2).2 := by
  unfold executeQuery
  rw [hconn]
  rcases hexec : drv.execute connection sql binds true s1 with ⟨result, s2⟩
  cases result with
  | ok rows => simp [hexec, List.count_cons]
  | error err => simp [hexec, List.count_cons]

/-- Witness for C20: a driver whose `close` throws; the failing statement still rejects
with its own error, after the connection was closed once. -/
theorem executeQuery_releases_connection_witness :
    sampleDriver.getConnection 0 = (Except.ok 7, 0) ∧
      (executeQuery sampleDriver "SELECT FAIL" [] 0).events.count (DriverEvent.close 7) = 1 ∧
      (executeQuery sampleDriver "SELECT FAIL" [] 0).outcome =
        (match (sampleDriver.execute 7 "SELECT FAIL" [] true 0).1 with
         | Except.ok rows => Except.ok (rows.getD [])
         | Except.error err => Except.error err) :=
  ⟨rfl,
   (executeQuery_releases_connection sampleDriver "SELECT FAIL" [] 0 0 7 rfl).2.1,
   (executeQuery_releases_connection sampleDriver "SELECT FAIL" [] 0 0 7 rfl).2.2.2.1⟩

/-! ## Session creation and the client's last session date -/

theorem sqlEqual_str (a : JsVal) (s : String) :
    sqlEqual a (JsVal.str s) = true ↔ a = JsVal.str s := by
  constructor
  · intro h
    simp [sqlEqual] at h
    exact h.2
  · intro h
    subst h
    simp [sqlEqual, isNull]

theorem insertSessionRow_clients (binds : List JsVal) (st st1 : Studio)
    (h : insertSessionRow binds st = Except.ok st1) :
    st1.clients = st.clients ∧ hasClient st (binds.getD 9 JsVal.null) = true := by
  unfold insertSessionRow at h
  split at h
  · cases h
  · split at h
    · cases h
    · split at h
      · cases h
      · split at h
        · rename_i hclient
          cases h
          exact ⟨rfl, hclient⟩
        · cases h

/-- C19: after a POST /api/sessions that is answered 201, with session date d for
client c, a client row of c exists, every client row of c has its last session date
equal to the date of d with its other columns as before, and every other client row
is as it was. -/
theorem postSession_sets_last_session_date (eng : Engine) (body : JsObject) (st : Studio)
    (d c : String) (hd : getProp body "sessionDate" = JsVal.str d)
    (hc : getProp body "clientEmail" = JsVal.str c)
    (hok : (postSession (studioDb eng) body st).response.status = 201) :
    ∃ date, sqlDate eng (JsVal.str d) = Except.ok date ∧
      (∃ r ∈ st.clients, r "CLIENTEMAIL" = JsVal.str c) ∧
      (postSession (studioDb eng) body st).state.clients.length = st.clients.length ∧
      ∀ i r, st.clients.get? i = some r →
        (r "CLIENTEMAIL" = JsVal.str c →
          ∃ r', (postSession (studioDb eng) body st).state.clients.get? i = some r' ∧
            r' "LAST_SESSION_DATE" = dateValue date ∧
            ∀ column, column ≠ "LAST_SESSION_DATE" → r' column = r column) ∧
        (r "CLIENTEMAIL" ≠ JsVal.str c →
          (postSession (studioDb eng) body st).state.clients.get? i = some r) := by
  have hbind9 : (createSessionParams.map (getProp body)).getD 9 JsVal.null = JsVal.str c := by
    simp [createSessionParams, hc]
  unfold postSession at hok ⊢
  simp only [studioDb] at hok ⊢
  cases hins : insertSessionRow (createSessionParams.map (getProp body)) st with
  | error e => simp [hins, errorResponse] at hok
  | ok st1 =>
    obtain ⟨hclients, hhas⟩ := insertSessionRow_clients _ st st1 hins
    rw [hbind9] at hhas
    simp only [hins, hd, hc, applyLastSessionUpdate] at hok ⊢
    cases hdate : sqlDate eng (JsVal.str d) with
    | error e => simp [hdate, errorResponse] at hok
    | ok date =>
      refine ⟨date, rfl, ?_, ?_, ?_⟩
      · simp only [hasClient, List.any_eq_true] at hhas
        obtain ⟨r, hr, hreq⟩ := hhas
        exact ⟨r, hr, (sqlEqual_str _ _).mp hreq⟩
      · simp [hclients]
      · intro i r hi
        simp only [List.get?_eq_getElem?] at hi ⊢
        simp only [hclients, List.getElem?_map, hi, Option.map_some']
        constructor
        · intro hrc
          refine ⟨_, rfl, ?_, ?_⟩
          · simp [(sqlEqual_str _ _).mpr hrc, assign]
          · intro column hcol
            simp [(sqlEqual_str _ _).mpr hrc, assign, hcol]
        · intro hrc
          have : sqlEqual (r "CLIENTEMAIL") (JsVal.str c) = false := by
            cases hs : sqlEqual (r "CLIENTEMAIL") (JsVal.str c) with
            | false => rfl
            | true => exact absurd ((sqlEqual_str _ _).mp hs) hrc
          simp [this]

/-- Witness for C19: session S1 on 2024-06-01 for Jane, the only stored client. -/
theorem postSession_sets_last_session_date_witness :
    (postSession (studioDb sampleEngine) sampleSessionBody sampleStudio).response.status = 201 ∧
      ∃ date, sqlDate sampleEngine (JsVal.str "2024-06-01") = Except.ok date ∧
        (∃ r ∈ sampleStudio.clients, r "CLIENTEMAIL" = JsVal.str "jane@x.com") ∧
        (postSession (studioDb sampleEngine) sampleSessionBody sampleStudio).state.clients.length =
          sampleStudio.clients.length ∧
        ∀ i r, sampleStudio.clients.get? i = some r →
          (r "CLIENTEMAIL" = JsVal.str "jane@x.com" →
            ∃ r', (postSession (studioDb sampleEngine) sampleSessionBody
                sampleStudio).state.clients.get? i = some r' ∧
              r' "LAST_SESSION_DATE" = dateValue date ∧
              ∀ column, column ≠ "LAST_SESSION_DATE" → r' column = r column) ∧
          (r "CLIENTEMAIL" ≠ JsVal.str "jane@x.com" →
            (postSession (studioDb sampleEngine) sampleSessionBody
              sampleStudio).state.clients.get? i = some r) :=
  ⟨by decide,
   postSession_sets_last_session_date sampleEngine sampleSessionBody sampleStudio
     "2024-06-01" "jane@x.com" (by decide) (by decide) (by decide)⟩

/-! ## Invoice creation followed by the details query -/

theorem insertInvoiceRow_ok (eng : Engine) (binds : List JsVal) (st st1 : Studio)
    (h : insertInvoiceRow eng binds st = Except.ok st1) :
    ∃ row, invoiceOfBinds eng binds = Except.ok row ∧
      (∀ i ∈ st.invoices, i.INVOICENUMBER ≠ row.INVOICENUMBER) ∧
      hasClient st (JsVal.str row.CLIENTEMAIL) = true ∧
      st1 = { st with invoices := st.invoices ++ [row] } := by
  unfold insertInvoiceRow at h
  cases hrow : invoiceOfBinds eng binds with
  | error e => simp [hrow] at h
  | ok row =>
    simp only [hrow] at h
    split at h
    · cases h
    · rename_i hdup
      split at h
      · rename_i hclient
        cases h
        refine ⟨row, rfl, ?_, hclient, rfl⟩
        intro i hi heq
        apply hdup
        simp only [List.any_eq_true, decide_eq_true_eq]
        exact ⟨i, hi, heq⟩
      · cases h

theorem insertLineItemRow_ok (binds : List JsVal) (st st1 : Studio)
    (h : insertLineItemRow binds st = Except.ok st1) :
    ∃ line, lineItemOfBinds binds = Except.ok line ∧
      hasProduct st line.PRODUCTID = true ∧
      st1 = { st with lineItems := st.lineItems ++ [line] } := by
  unfold insertLineItemRow at h
  cases hline : lineItemOfBinds binds with
  | error e => simp [hline] at h
  | ok line =>
    simp only [hline] at h
    split at h
    · cases h
    · split at h
      · rename_i hrefs
        cases h
        simp only [Bool.and_eq_true] at hrefs
        exact ⟨line, rfl, hrefs.2, rfl⟩
      · cases h

theorem lineItemOfBinds_ok (number productId quantity : JsVal) (line : LineItemRow)
    (h : lineItemOfBinds [number, productId, quantity] = Except.ok line) :
    sqlKey number = Except.ok line.INVOICENUMBER ∧ line.PRODUCTID = productId ∧
      sqlNumber quantity = Except.ok line.QUANTITY := by
  unfold lineItemOfBinds at h
  simp only at h
  split at h
  · rename_i n q hn hq
    cases h
    exact ⟨hn, rfl, hq⟩
  · cases h

theorem insertLineItems_cons {σ : Type} (db : Db σ) (number : JsVal) (item : JsObject)
    (rest : List JsObject) (s : σ) :
    insertLineItems db number (item :: rest) s =
      match db.execute { stmt := Stmt.insertLineItem
                         binds := [number, getProp item "productId", getProp item "quantity"] } s with
      | (Except.ok _, s1) =>
          ((insertLineItems db number rest s1).1,
           (insertLineItems db number rest s1).2.1,
           { stmt := Stmt.insertLineItem
             binds := [number, getProp item "productId", getProp item "quantity"] } ::
             (insertLineItems db number rest s1).2.2)
      | (Except.error e, s1) =>
          (some e, s1, [{ stmt := Stmt.insertLineItem
                          binds := [number, getProp item "productId", getProp item "quantity"] }]) :=
  rfl

theorem studioDb_insertLineItem (eng : Engine) (binds : List JsVal) (st : Studio) :
    (studioDb eng).execute { stmt := Stmt.insertLineItem, binds := binds } st =
      match insertLineItemRow binds st with
      | Except.ok st1 => (Except.ok [], st1)
      | Except.error e => (Except.error e, st) :=
  rfl

theorem studioDb_insertInvoice (eng : Engine) (binds : List JsVal) (st : Studio) :
    (studioDb eng).execute { stmt := Stmt.insertInvoice, binds := binds } st =
      match insertInvoiceRow eng binds st with
      | Except.ok st1 => (Except.ok [], st1)
      | Except.error e => (Except.error e, st) :=
  rfl

theorem studioDb_begin (eng : Engine) (binds : List JsVal) (st : Studio) :
    (studioDb eng).execute { stmt := Stmt.begin, binds := binds } st =
      if eng.acceptsBegin then (Except.ok [], st)
      else (Except.error "ORA-06550: PLS-00103: Encountered the symbol end-of-file", st) :=
  rfl

theorem studioDb_commit (eng : Engine) (binds : List JsVal) (st : Studio) :
    (studioDb eng).execute { stmt := Stmt.commit, binds := binds } st = (Except.ok [], st) :=
  rfl

theorem studioDb_rollback (eng : Engine) (binds : List JsVal) (st : Studio) :
    (studioDb eng).execute { stmt := Stmt.rollback, binds := binds } st = (Except.ok [], st) :=
  rfl

theorem studioDb_selectInvoice (eng : Engine) (id : JsVal) (st : Studio) :
    (studioDb eng).execute { stmt := Stmt.selectInvoice, binds := [id] } st =
      match sqlKey id with
      | Except.ok n => (Except.ok (selectInvoiceRows eng n st), st)
      | Except.error e => (Except.error e, st) :=
  rfl

theorem studioDb_selectLineItems (eng : Engine) (id : JsVal) (st : Studio) :
    (studioDb eng).execute { stmt := Stmt.selectLineItems, binds := [id] } st =
      match sqlKey id with
      | Except.ok n => (Except.ok (selectLineItemRows n st), st)
      | Except.error e => (Except.error e, st) :=
  rfl

/-- The lines stored by the loop over `lineItems` when no INSERT throws. -/
theorem insertLineItems_ok (eng : Engine) (number : JsVal) (items : List JsObject) :
    ∀ st : Studio, (insertLineItems (studioDb eng) number items st).1 = none →
      ∃ lines : List LineItemRow,
        (insertLineItems (studioDb eng) number items st).2.1 =
            { st with lineItems := st.lineItems ++ lines } ∧
          List.Forall₂ (fun item line =>
            sqlKey number = Except.ok line.INVOICENUMBER ∧
              line.PRODUCTID = getProp item "productId" ∧
              sqlNumber (getProp item "quantity") = Except.ok line.QUANTITY ∧
              hasProduct st line.PRODUCTID = true) items lines := by
  induction items with
  | nil =>
    intro st _
    exact ⟨[], by simp [insertLineItems], List.Forall₂.nil⟩
  | cons item rest ih =>
    intro st h
    rw [insertLineItems_cons, studioDb_insertLineItem] at h ⊢
    cases hins : insertLineItemRow
        [number, getProp item "productId", getProp item "quantity"] st with
    | error e => simp [hins] at h
    | ok st1 =>
      simp only [hins] at h ⊢
      obtain ⟨line, hline, hprod, hst1⟩ := insertLineItemRow_ok _ st st1 hins
      obtain ⟨hn, hp, hq⟩ := lineItemOfBinds_ok _ _ _ line hline
      obtain ⟨lines, hstate, hall⟩ := ih st1 h
      refine ⟨line :: lines, ?_, ?_⟩
      · rw [hstate, hst1]
        simp
      · refine List.Forall₂.cons ⟨hn, hp, hq, hprod⟩ ?_
        refine hall.imp ?_
        intro a b hab
        refine ⟨hab.1, hab.2.1, hab.2.2.1, ?_⟩
        have := hab.2.2.2
        rw [hst1] at this
        exact this

theorem invoiceOfBinds_ok (eng : Engine) (body : JsObject) (row : InvoiceRow)
    (h : invoiceOfBinds eng (invoiceParams body) = Except.ok row) :
    sqlKey (getProp body "invoiceNumber") = Except.ok row.INVOICENUMBER ∧
      sqlNumber (getProp body "subtotal") = Except.ok row.SUBTOTAL ∧
      sqlNumber (getProp body "tax") = Except.ok row.TAX ∧
      sqlNumber (getProp body "totalDue") = Except.ok row.TOTALDUE := by
  unfold invoiceOfBinds invoiceParams at h
  simp only at h
  split at h
  · rename_i n d desc sub tx tot bal paid due email hn _ _ hsub htx htot _ _ _ _
    cases h
    exact ⟨hn, hsub, htx, htot⟩
  · cases h

theorem rollbackAndFail_response (eng : Engine) (message : String) (st : Studio)
    (calls : List SqlCall) :
    (rollbackAndFail (studioDb eng) message st calls).response = some (errorResponse message) := by
  unfold rollbackAndFail
  rw [studioDb_rollback]

/-- What a create that is answered 201 has stored. -/
theorem postInvoice_created (eng : Engine) (req : InvoiceRequest) (st : Studio) (r : Response)
    (h : (postInvoice (studioDb eng) req st).response = some r) (hr : r.status = 201) :
    ∃ (row : InvoiceRow) (lines : List LineItemRow),
      invoiceOfBinds eng (invoiceParams req.body) = Except.ok row ∧
        (∀ i ∈ st.invoices, i.INVOICENUMBER ≠ row.INVOICENUMBER) ∧
        hasClient st (JsVal.str row.CLIENTEMAIL) = true ∧
        (postInvoice (studioDb eng) req st).state =
          { st with invoices := st.invoices ++ [row], lineItems := st.lineItems ++ lines } ∧
        List.Forall₂ (fun item line =>
          sqlKey (getProp req.body "invoiceNumber") = Except.ok line.INVOICENUMBER ∧
            line.PRODUCTID = getProp item "productId" ∧
            sqlNumber (getProp item "quantity") = Except.ok line.QUANTITY ∧
            hasProduct st line.PRODUCTID = true) (req.lineItems.getD []) lines := by
  have hfail : ∀ (e : String) (s : Studio) (cs : List SqlCall),
      (rollbackAndFail (studioDb eng) e s cs).response = some r → False := by
    intro e s cs hresp
    rw [rollbackAndFail_response] at hresp
    cases hresp
    simp [errorResponse] at hr
  unfold postInvoice at h ⊢
  simp only [studioDb_begin, studioDb_insertInvoice, studioDb_commit] at h ⊢
  by_cases hbegin : eng.acceptsBegin = true
  · simp only [hbegin, if_true] at h ⊢
    cases hins : insertInvoiceRow eng (invoiceParams req.body) st with
    | error e =>
      simp only [hins] at h
      exact (hfail _ _ _ h).elim
    | ok st1 =>
      simp only [hins] at h ⊢
      obtain ⟨row, hrow, hnew, hclient, hst1⟩ := insertInvoiceRow_ok eng _ st st1 hins
      cases hlines : (insertLineItems (studioDb eng) (getProp req.body "invoiceNumber")
          (req.lineItems.getD []) st1).1 with
      | some e =>
        simp only [hlines] at h
        exact (hfail _ _ _ h).elim
      | none =>
        simp only [hlines] at h ⊢
        obtain ⟨lines, hstate, hall⟩ := insertLineItems_ok eng _ _ st1 hlines
        refine ⟨row, lines, hrow, hnew, hclient, ?_, ?_⟩
        · rw [hstate, hst1]
        · refine hall.imp ?_
          intro a b hab
          refine ⟨hab.1, hab.2.1, hab.2.2.1, ?_⟩
          have := hab.2.2.2
          rw [hst1] at this
          exact this
  · simp only [hbegin] at h
    exact (hfail _ _ _ h).elim

theorem sqlEqual_iff (a b : JsVal) : sqlEqual a b = true ↔ a = b ∧ isNull a = false := by
  constructor
  · intro h
    simp [sqlEqual] at h
    exact ⟨h.2, h.1.1⟩
  · rintro ⟨rfl, hn⟩
    simp [sqlEqual, hn]

/-- With pairwise distinct product ids, the products matching an id that occurs are
exactly the one product `find?` returns. -/
theorem filter_products_unique (ps : List ProductRow) (productId : JsVal)
    (hdistinct : ps.Pairwise (fun p q => sqlEqual p.PRODUCTID q.PRODUCTID = false))
    (hany : ps.any (fun p => sqlEqual p.PRODUCTID productId) = true) :
    ∃ p, ps.find? (fun p => sqlEqual p.PRODUCTID productId) = some p ∧
      ps.filter (fun p => sqlEqual p.PRODUCTID productId) = [p] := by
  induction ps with
  | nil => simp at hany
  | cons a rest ih =>
    rw [List.pairwise_cons] at hdistinct
    by_cases ha : sqlEqual a.PRODUCTID productId = true
    · refine ⟨a, by simp [List.find?_cons, ha], ?_⟩
      have hrest : rest.filter (fun p => sqlEqual p.PRODUCTID productId) = [] := by
        rw [List.filter_eq_nil_iff]
        intro q hq hmatch
        have h1 := (sqlEqual_iff _ _).mp ha
        have h2 := (sqlEqual_iff _ _).mp hmatch
        have h3 : sqlEqual a.PRODUCTID q.PRODUCTID = true :=
          (sqlEqual_iff _ _).mpr ⟨h1.1.trans h2.1.symm, h1.2⟩
        rw [hdistinct.1 q hq] at h3
        cases h3
      simp [List.filter_cons, ha, hrest]
    · have hany' : rest.any (fun p => sqlEqual p.PRODUCTID productId) = true := by
        simpa [List.any_cons, ha] using hany
      obtain ⟨p, hfind, hfilter⟩ := ih hdistinct.2 hany'
      exact ⟨p, by simp [List.find?_cons, ha, hfind], by simp [List.filter_cons, ha, hfilter]⟩

/-- The amount of a joined line: QUANTITY * SALEPRICE, 0 when that is NULL. -/
theorem toAddend_line_total (lp : LineItemRow × ProductRow) :
    toAddend (getProp (lineItemJson lp) "LINE_TOTAL") =
      some ((sqlMul lp.1.QUANTITY lp.2.SALEPRICE).getD 0) := by
  have h : getProp (lineItemJson lp) "LINE_TOTAL" =
      numJson (sqlMul lp.1.QUANTITY lp.2.SALEPRICE) := rfl
  rw [h]
  cases sqlMul lp.1.QUANTITY lp.2.SALEPRICE <;> rfl

theorem foldl_addLineTotal (l : List (LineItemRow × ProductRow)) (acc : ℚ) :
    (l.map lineItemJson).foldl addLineTotal (some acc) =
      some (acc + (l.map (fun lp => (sqlMul lp.1.QUANTITY lp.2.SALEPRICE).getD 0)).sum) := by
  induction l generalizing acc with
  | nil => simp
  | cons lp rest ih =>
    simp only [List.map_cons, List.foldl_cons, List.sum_cons]
    have hstep : addLineTotal (some acc) (lineItemJson lp) =
        some (acc + (sqlMul lp.1.QUANTITY lp.2.SALEPRICE).getD 0) := by
      unfold addLineTotal
      rw [toAddend_line_total]
    rw [hstep, ih, add_assoc]

/-- The total the details handler computes over the rows of the line-item query. -/
theorem lineItemsTotal_eq (id : Int) (st : Studio) :
    (selectLineItemRows id st).foldl addLineTotal (some 0) =
      some (((joinedLines id st).map
        (fun lp => (sqlMul lp.1.QUANTITY lp.2.SALEPRICE).getD 0)).sum) := by
  unfold selectLineItemRows
  rw [foldl_addLineTotal, zero_add]
  congr 1
  exact ((List.perm_insertionSort _ _).map _).sum_eq

/-- The joined lines of a freshly created invoice, one per stored line, when product
ids are distinct and every line's product exists. -/
theorem joinedLines_amounts (id : Int) (st : Studio) (old lines : List LineItemRow)
    (hitems : st.lineItems = old ++ lines)
    (hold : ∀ l ∈ old, l.INVOICENUMBER ≠ id)
    (hlines : ∀ l ∈ lines, l.INVOICENUMBER = id ∧ hasProduct st l.PRODUCTID = true)
    (hdistinct : st.products.Pairwise (fun p q => sqlEqual p.PRODUCTID q.PRODUCTID = false)) :
    ((joinedLines id st).map (fun lp => (sqlMul lp.1.QUANTITY lp.2.SALEPRICE).getD 0)).sum =
      (lines.map (fun l => (sqlMul l.QUANTITY (salePriceOf st l.PRODUCTID)).getD 0)).sum := by
  have hfilter : st.lineItems.filter (fun l => decide (l.INVOICENUMBER = id)) = lines := by
    rw [hitems, List.filter_append]
    have h1 : old.filter (fun l => decide (l.INVOICENUMBER = id)) = [] := by
      rw [List.filter_eq_nil_iff]
      intro l hl
      simpa using hold l hl
    have h2 : lines.filter (fun l => decide (l.INVOICENUMBER = id)) = lines := by
      rw [List.filter_eq_self]
      intro l hl
      simpa using (hlines l hl).1
    rw [h1, h2, List.nil_append]
  unfold joinedLines
  rw [hfilter]
  have hgen : ∀ ls : List LineItemRow, (∀ l ∈ ls, hasProduct st l.PRODUCTID = true) →
      ((ls.flatMap (fun l =>
          (st.products.filter (fun p => sqlEqual p.PRODUCTID l.PRODUCTID)).map
            (fun p => (l, p)))).map
        (fun lp => (sqlMul lp.1.QUANTITY lp.2.SALEPRICE).getD 0)).sum =
        (ls.map (fun l => (sqlMul l.QUANTITY (salePriceOf st l.PRODUCTID)).getD 0)).sum := by
    intro ls
    induction ls with
    | nil => intro _; simp
    | cons l rest ih =>
      intro hall
      obtain ⟨p, hfind, hfilt⟩ := filter_products_unique st.products l.PRODUCTID hdistinct
        (hall l (List.mem_cons_self _ _))
      have ih' := ih (fun x hx => hall x (List.mem_cons_of_mem _ hx))
      simp only [List.flatMap_cons, List.map_append, List.sum_append, List.map_cons,
        List.sum_cons, hfilt, List.map_nil, List.sum_nil, add_zero, ih']
      simp [salePriceOf, hfind]
  exact hgen lines (fun l hl => (hlines l hl).2)

/-- The first row of the invoice query for a freshly created invoice. -/
theorem selectInvoiceRows_new (eng : Engine) (st : Studio) (invoices : List InvoiceRow)
    (row : InvoiceRow) (hinv : st.invoices = invoices ++ [row])
    (hnew : ∀ i ∈ invoices, i.INVOICENUMBER ≠ row.INVOICENUMBER)
    (hclient : hasClient st (JsVal.str row.CLIENTEMAIL) = true) :
    ∃ c, (selectInvoiceRows eng row.INVOICENUMBER st).head? = some (invoiceJson eng row c) := by
  unfold selectInvoiceRows
  have h1 : invoices.filter (fun i => decide (i.INVOICENUMBER = row.INVOICENUMBER)) = [] := by
    rw [List.filter_eq_nil_iff]
    intro i hi
    simpa using hnew i hi
  rw [hinv, List.filter_append, h1]
  simp only [List.nil_append, List.filter_cons, decide_True, if_true, List.filter_nil,
    List.flatMap_cons, List.flatMap_nil, List.append_nil]
  unfold hasClient at hclient
  rw [List.any_eq_true] at hclient
  obtain ⟨c0, hc0, hmatch⟩ := hclient
  cases hf : st.clients.filter
      (fun c => sqlEqual (c "CLIENTEMAIL") (JsVal.str row.CLIENTEMAIL)) with
  | nil =>
    have : c0 ∈ st.clients.filter
        (fun c => sqlEqual (c "CLIENTEMAIL") (JsVal.str row.CLIENTEMAIL)) :=
      List.mem_filter.mpr ⟨hc0, hmatch⟩
    rw [hf] at this
    cases this
  | cons c rest => exact ⟨c, by simp⟩

theorem stored_lines_facts (st : Studio) (number : JsVal) (n : Int)
    (hn : sqlKey number = Except.ok n) (items : List JsObject) (lines : List LineItemRow)
    (hall : List.Forall₂ (fun item line =>
      sqlKey number = Except.ok line.INVOICENUMBER ∧
        line.PRODUCTID = getProp item "productId" ∧
        sqlNumber (getProp item "quantity") = Except.ok line.QUANTITY ∧
        hasProduct st line.PRODUCTID = true) items lines) :
    (∀ l ∈ lines, l.INVOICENUMBER = n ∧ hasProduct st l.PRODUCTID = true) ∧
      (lines.map (fun l => (sqlMul l.QUANTITY (salePriceOf st l.PRODUCTID)).getD 0)).sum =
        (items.map (lineAmount st)).sum := by
  induction hall with
  | nil => simp
  | @cons item line items1 lines1 hhead _ ih =>
    obtain ⟨hkey, hpid, hq, hprod⟩ := hhead
    have hnum : line.INVOICENUMBER = n := by
      rw [hn] at hkey
      exact (Except.ok.inj hkey).symm
    constructor
    · intro l hl
      rcases List.mem_cons.mp hl with rfl | hl'
      · exact ⟨hnum, hprod⟩
      · exact ih.1 l hl'
    · simp only [List.map_cons, List.sum_cons, ih.2]
      congr 1
      simp only [lineAmount, hq, hpid]

/-! ## Routing: two documented endpoints are captured by an earlier route -/

/-- C21, at the failing input: with the routes tried in registration order, GET
/api/products/low-stock is dispatched to the single-product handler with id
"low-stock", and GET /api/sessions/range to the single-session handler with id
"range"; these two are the only documented endpoints that do not reach their own
handler. -/
theorem dispatch_static_route_captured :
    dispatch Method.GET "/api/products/low-stock" = (Handler.getProduct, [("id", "low-stock")]) ∧
      dispatch Method.GET "/api/sessions/range" = (Handler.getSession, [("id", "range")]) ∧
      (documentedEndpoints.filter
          (fun e => decide ((dispatch e.1 e.2.1).1 ≠ e.2.2))).map (fun e => e.2.1) =
        ["/api/sessions/range", "/api/products/low-stock"] := by
  decide

/-! ## Staff assignment: the session bind -/

/-- C25, for every input: the request POST /api/sessions/S1/assign-staff reaches the
assignment handler with the single path parameter `id`, and for every path id and
body the one statement the handler runs is the assignment INSERT whose binds are
undefined (not the path id), the body's staffEmail and the body's role. -/
theorem assignStaff_session_bind_undefined {σ : Type} (db : Db σ) (id : String)
    (body : JsObject) (s : σ) :
    dispatch Method.POST "/api/sessions/S1/assign-staff" = (Handler.assignStaff, [("id", "S1")]) ∧
      (assignStaff db (paramsObject [("id", id)]) body s).calls =
        [{ stmt := Stmt.insertAssignment
           binds := [JsVal.undefined, getProp body "staffEmail", getProp body "role"] }] := by
  refine ⟨by decide, ?_⟩
  have hparam : getProp (paramsObject [("id", id)]) "sessionId" = JsVal.undefined := by
    simp [getProp, paramsObject, List.lookup]
  unfold assignStaff
  rw [hparam]
  rcases hexec : db.execute
    { stmt := Stmt.insertAssignment
      binds := [JsVal.undefined, getProp body "staffEmail", getProp body "role"] } s with ⟨r, s1⟩
  cases r <;> simp [hexec]

/-! ## Session status on valid inputs -/

/-- C27: when the session date parses to a valid instant and the end time is absent,
empty, or gives a valid end instant, `getSessionStatus` returns one of "completed",
"inprogress" and "upcoming", and not "unknown", whatever the current instant. -/
theorem getSessionStatus_never_unknown (parse : String → JsDate) (now : Int)
    (sessionDate : String) (sessionEndTime : Option String) (start : Int)
    (hstart : parse sessionDate = some start)
    (hend : ∀ t, sessionEndTime = some t → t ≠ "" →
      ∃ e : Int, parse (sessionDate ++ "T" ++ t) = some e) :
    getSessionStatus parse now sessionDate sessionEndTime ∈
        ["completed", "inprogress", "upcoming"] ∧
      getSessionStatus parse now sessionDate sessionEndTime ≠ "unknown" := by
  have hmem : getSessionStatus parse now sessionDate sessionEndTime ∈
      ["completed", "inprogress", "upcoming"] := by
    unfold getSessionStatus
    rw [hstart]
    cases sessionEndTime with
    | none =>
      by_cases h : start ≤ now
      · simp [dateLe, dateLt, h]
      · have h1 : now < start := not_le.mp h
        simp [dateLe, dateLt, h, h1]
    | some t =>
      by_cases ht : t = ""
      · by_cases h : start ≤ now
        · simp [ht, dateLe, dateLt, h]
        · have h1 : now < start := not_le.mp h
          simp [ht, dateLe, dateLt, h, h1]
      · obtain ⟨e, he⟩ := hend t rfl ht
        by_cases h2 : e < now
        · simp [ht, he, dateLe, dateLt, h2]
        · have h3 : now ≤ e := not_lt.mp h2
          by_cases h : start ≤ now
          · simp [ht, he, dateLe, dateLt, h2, h3, h]
          · have h1 : now < start := not_le.mp h
            simp [ht, he, dateLe, dateLt, h2, h3, h, h1]
  refine ⟨hmem, ?_⟩
  intro hu
  rw [hu] at hmem
  revert hmem
  decide

/-- Witness for C27: a session of 2024-06-01 ending at 16:00, looked at shortly before
14:00 of that day. -/
theorem getSessionStatus_never_unknown_witness :
    sampleParse "2024-06-01" = some 1717200000000 ∧
      (∀ t, some "16:00" = some t → t ≠ "" →
        ∃ e : Int, sampleParse ("2024-06-01" ++ "T" ++ t) = some e) ∧
      getSessionStatus sampleParse 1717250000000 "2024-06-01" (some "16:00") ∈
        ["completed", "inprogress", "upcoming"] ∧
      getSessionStatus sampleParse 1717250000000 "2024-06-01" (some "16:00") ≠ "unknown" :=
  have hend : ∀ t, some "16:00" = some t → t ≠ "" →
      ∃ e : Int, sampleParse ("2024-06-01" ++ "T" ++ t) = some e := by
    intro t ht _
    cases ht
    exact ⟨1717257600000, by decide⟩
  ⟨by decide, hend,
   getSessionStatus_never_unknown sampleParse 1717250000000 "2024-06-01" (some "16:00")
     1717200000000 (by decide) hend⟩

/-! ## GET of a single record: 404, 200 and 500 -/

theorem getClient_rule {σ : Type} (db : Db σ) (key : String) (s : σ) :
    ((getClient db key s).response.status = 404 ↔
        ∃ s1, db.execute { stmt := Stmt.selectClient, binds := [JsVal.str key] } s =
          (Except.ok [], s1)) ∧
      ((getClient db key s).response.status = 404 →
        (getClient db key s).response = notFoundResponse "Client not found") ∧
      (∀ row rest s1, db.execute { stmt := Stmt.selectClient, binds := [JsVal.str key] } s =
          (Except.ok (row :: rest), s1) →
        (getClient db key s).response = { status := 200, body := row }) := by
  rcases hexec : db.execute { stmt := Stmt.selectClient, binds := [JsVal.str key] } s with ⟨r, s1⟩
  cases r with
  | error e => simp [getClient, hexec, errorResponse]
  | ok rows =>
    cases rows with
    | nil => simp [getClient, hexec, notFoundResponse]
    | cons row rest => simp [getClient, hexec]

theorem getProduct_rule {σ : Type} (db : Db σ) (key : String) (s : σ) :
    ((getProduct db key s).response.status = 404 ↔
        ∃ s1, db.execute { stmt := Stmt.selectProduct, binds := [JsVal.str key] } s =
          (Except.ok [], s1)) ∧
      ((getProduct db key s).response.status = 404 →
        (getProduct db key s).response = notFoundResponse "Product not found") ∧
      (∀ row rest s1, db.execute { stmt := Stmt.selectProduct, binds := [JsVal.str key] } s =
          (Except.ok (row :: rest), s1) →
        (getProduct db key s).response = { status := 200, body := row }) := by
  rcases hexec : db.execute { stmt := Stmt.selectProduct, binds := [JsVal.str key] } s with ⟨r, s1⟩
  cases r with
  | error e => simp [getProduct, hexec, errorResponse]
  | ok rows =>
    cases rows with
    | nil => simp [getProduct, hexec, notFoundResponse]
    | cons row rest => simp [getProduct, hexec]

theorem getSession_rule {σ : Type} (db : Db σ) (key : String) (s : σ) :
    ((getSession db key s).response =
          SessionResponse.plain (notFoundResponse "Session not found") ↔
        ∃ s1 staff s2,
          db.execute { stmt := Stmt.selectSession, binds := [JsVal.str key] } s =
            (Except.ok [], s1) ∧
          db.execute { stmt := Stmt.selectSessionStaff, binds := [JsVal.str key] } s1 =
            (Except.ok staff, s2)) ∧
      (∀ row rest s1 staff s2,
        db.execute { stmt := Stmt.selectSession, binds := [JsVal.str key] } s =
            (Except.ok (row :: rest), s1) →
        db.execute { stmt := Stmt.selectSessionStaff, binds := [JsVal.str key] } s1 =
            (Except.ok staff, s2) →
        (getSession db key s).response = SessionResponse.found row staff) ∧
      (∀ rows s1 e s2,
        db.execute { stmt := Stmt.selectSession, binds := [JsVal.str key] } s =
            (Except.ok rows, s1) →
        db.execute { stmt := Stmt.selectSessionStaff, binds := [JsVal.str key] } s1 =
            (Except.error e, s2) →
        (getSession db key s).response = SessionResponse.plain (errorResponse e)) := by
  rcases hexec : db.execute { stmt := Stmt.selectSession, binds := [JsVal.str key] } s with ⟨r, s1⟩
  cases r with
  | error e => simp [getSession, hexec, errorResponse, notFoundResponse]
  | ok rows =>
    rcases hstaff : db.execute { stmt := Stmt.selectSessionStaff, binds := [JsVal.str key] } s1
      with ⟨r2, s2⟩
    cases r2 with
    | error e =>
      refine ⟨?_, ?_, ?_⟩
      · simp [getSession, hexec, hstaff, errorResponse, notFoundResponse]
      · intro row rest a staff b hrow hst
        cases hrow
        simp [hstaff] at hst
      · intro rows1 a e1 b hrow hst
        cases hrow
        simp [hstaff] at hst
        simp [getSession, hexec, hstaff, hst.1]
    | ok staff =>
      refine ⟨?_, ?_, ?_⟩
      · cases rows with
        | nil => simp [getSession, hexec, hstaff]
        | cons row rest => simp [getSession, hexec, hstaff]
      · intro row rest a staff1 b hrow hst
        cases hrow
        simp [hstaff] at hst
        simp [getSession, hexec, hstaff, hst.1]
      · intro rows1 a e1 b hrow hst
        cases hrow
        simp [hstaff] at hst

theorem getInvoiceDetails_rule {σ : Type} (db : Db σ) (key : String) (s : σ) :
    ((∃ r, (getInvoiceDetails db key s).response = DetailsResponse.plain r ∧ r.status = 404) ↔
        ∃ s1 lines s2,
          db.execute { stmt := Stmt.selectInvoice, binds := [JsVal.str key] } s =
            (Except.ok [], s1) ∧
          db.execute { stmt := Stmt.selectLineItems, binds := [JsVal.str key] } s1 =
            (Except.ok lines, s2)) ∧
      ((∃ r, (getInvoiceDetails db key s).response = DetailsResponse.plain r ∧ r.status = 404) →
        (getInvoiceDetails db key s).response =
          DetailsResponse.plain (notFoundResponse "Invoice not found")) ∧
      (∀ row rest s1 lines s2,
        db.execute { stmt := Stmt.selectInvoice, binds := [JsVal.str key] } s =
            (Except.ok (row :: rest), s1) →
        db.execute { stmt := Stmt.selectLineItems, binds := [JsVal.str key] } s1 =
            (Except.ok lines, s2) →
        (getInvoiceDetails db key s).response =
          DetailsResponse.found row lines (lines.foldl addLineTotal (some 0))) ∧
      (∀ rows s1 e s2,
        db.execute { stmt := Stmt.selectInvoice, binds := [JsVal.str key] } s =
            (Except.ok rows, s1) →
        db.execute { stmt := Stmt.selectLineItems, binds := [JsVal.str key] } s1 =
            (Except.error e, s2) →
        (getInvoiceDetails db key s).response = DetailsResponse.plain (errorResponse e)) := by
  rcases hexec : db.execute { stmt := Stmt.selectInvoice, binds := [JsVal.str key] } s with ⟨r, s1⟩
  cases r with
  | error e => simp [getInvoiceDetails, hexec, errorResponse, notFoundResponse]
  | ok rows =>
    rcases hlines : db.execute { stmt := Stmt.selectLineItems, binds := [JsVal.str key] } s1
      with ⟨r2, s2⟩
    cases r2 with
    | error e =>
      refine ⟨?_, ?_, ?_, ?_⟩
      · simp [getInvoiceDetails, hexec, hlines, errorResponse, notFoundResponse]
      · simp [getInvoiceDetails, hexec, hlines, errorResponse, notFoundResponse]
      · intro row rest a lines b hrow hst
        cases hrow
        simp [hlines] at hst
      · intro rows1 a e1 b hrow hst
        cases hrow
        simp [hlines] at hst
        simp [getInvoiceDetails, hexec, hlines, hst.1]
    | ok lines =>
      refine ⟨?_, ?_, ?_, ?_⟩
      · cases rows with
        | nil => simp [getInvoiceDetails, hexec, hlines]
        | cons row rest => simp [getInvoiceDetails, hexec, hlines]
      · cases rows with
        | nil => simp [getInvoiceDetails, hexec, hlines, notFoundResponse]
        | cons row rest => simp [getInvoiceDetails, hexec, hlines]
      · intro row rest a lines1 b hrow hst
        cases hrow
        simp [hlines] at hst
        simp [getInvoiceDetails, hexec, hlines, hst.1]
      · intro rows1 a e1 b hrow hst
        cases hrow
        simp [hlines] at hst

theorem lookup_throws_rule {σ : Type} (db : Db σ) (key : String) (s : σ) :
    (∀ e s1, db.execute { stmt := Stmt.selectClient, binds := [JsVal.str key] } s =
          (Except.error e, s1) →
        (getClient db key s).response = errorResponse e) ∧
      (∀ e s1, db.execute { stmt := Stmt.selectProduct, binds := [JsVal.str key] } s =
          (Except.error e, s1) →
        (getProduct db key s).response = errorResponse e) ∧
      (∀ e s1, db.execute { stmt := Stmt.selectSession, binds := [JsVal.str key] } s =
          (Except.error e, s1) →
        (getSession db key s).response = SessionResponse.plain (errorResponse e)) ∧
      (∀ e s1, db.execute { stmt := Stmt.selectInvoice, binds := [JsVal.str key] } s =
          (Except.error e, s1) →
        (getInvoiceDetails db key s).response = DetailsResponse.plain (errorResponse e)) := by
  refine ⟨?_, ?_, ?_, ?_⟩
  · intro e s1 h
    simp [getClient, h]
  · intro e s1 h
    simp [getProduct, h]
  · intro e s1 h
    simp [getSession, h]
  · intro e s1 h
    simp [getInvoiceDetails, h]

/-- C22, counterexample: on a database whose session lookup returns no row and whose
staff query throws, GET /api/sessions/S9 is answered 500 with the database message,
not 404. -/
theorem getSession_no_row_answered_500 :
    staffQueryFailsDb.execute { stmt := Stmt.selectSession, binds := [JsVal.str "S9"] } () =
        (Except.ok [], ()) ∧
      (getSession staffQueryFailsDb "S9" ()).response =
        SessionResponse.plain
          { status := 500
            body := [("error", JsVal.str "ORA-03113: end-of-file on communication channel")] } :=
  ⟨rfl, by decide⟩

/-- C22, amended: for every database, key and state. Clients and products: the answer
is 404 exactly when the lookup returns no row, then with the body error "Client not
found" or "Product not found", and 200 with the first row when the lookup returns
rows. Sessions and invoice details run a second query (staff, line items) before the
check: the answer is 404 with error "Session not found" or "Invoice not found" exactly
when the lookup returns no row and the second query also returns; when the lookup
returns rows and the second query returns, the answer is the first row together with
the second query's rows (and for invoices their total); when the second query throws
the answer is 500 whatever the lookup returned. In each of the four handlers a lookup
that throws is answered 500 with the message of the error. -/
theorem single_record_get_rule {σ : Type} (db : Db σ) (key : String) (s : σ) :
    (((getClient db key s).response.status = 404 ↔
        ∃ s1, db.execute { stmt := Stmt.selectClient, binds := [JsVal.str key] } s =
          (Except.ok [], s1)) ∧
      ((getClient db key s).response.status = 404 →
        (getClient db key s).response = notFoundResponse "Client not found") ∧
      (∀ row rest s1, db.execute { stmt := Stmt.selectClient, binds := [JsVal.str key] } s =
          (Except.ok (row :: rest), s1) →
        (getClient db key s).response = { status := 200, body := row })) ∧
    (((getProduct db key s).response.status = 404 ↔
        ∃ s1, db.execute { stmt := Stmt.selectProduct, binds := [JsVal.str key] } s =
          (Except.ok [], s1)) ∧
      ((getProduct db key s).response.status = 404 →
        (getProduct db key s).response = notFoundResponse "Product not found") ∧
      (∀ row rest s1, db.execute { stmt := Stmt.selectProduct, binds := [JsVal.str key] } s =
          (Except.ok (row :: rest), s1) →
        (getProduct db key s).response = { status := 200, body := row })) ∧
    (((getSession db key s).response =
          SessionResponse.plain (notFoundResponse "Session not found") ↔
        ∃ s1 staff s2,
          db.execute { stmt := Stmt.selectSession, binds := [JsVal.str key] } s =
            (Except.ok [], s1) ∧
          db.execute { stmt := Stmt.selectSessionStaff, binds := [JsVal.str key] } s1 =
            (Except.ok staff, s2)) ∧
      (∀ row rest s1 staff s2,
        db.execute { stmt := Stmt.selectSession, binds := [JsVal.str key] } s =
            (Except.ok (row :: rest), s1) →
        db.execute { stmt := Stmt.selectSessionStaff, binds := [JsVal.str key] } s1 =
            (Except.ok staff, s2) →
        (getSession db key s).response = SessionResponse.found row staff) ∧
      (∀ rows s1 e s2,
        db.execute { stmt := Stmt.selectSession, binds := [JsVal.str key] } s =
            (Except.ok rows, s1) →
        db.execute { stmt := Stmt.selectSessionStaff, binds := [JsVal.str key] } s1 =
            (Except.error e, s2) →
        (getSession db key s).response = SessionResponse.plain (errorResponse e))) ∧
    (((∃ r, (getInvoiceDetails db key s).response = DetailsResponse.plain r ∧ r.status = 404) ↔
        ∃ s1 lines s2,
          db.execute { stmt := Stmt.selectInvoice, binds := [JsVal.str key] } s =
            (Except.ok [], s1) ∧
          db.execute { stmt := Stmt.selectLineItems, binds := [JsVal.str key] } s1 =
            (Except.ok lines, s2)) ∧
      ((∃ r, (getInvoiceDetails db key s).response = DetailsResponse.plain r ∧ r.status = 404) →
        (getInvoiceDetails db key s).response =
          DetailsResponse.plain (notFoundResponse "Invoice not found")) ∧
      (∀ row rest s1 lines s2,
        db.execute { stmt := Stmt.selectInvoice, binds := [JsVal.str key] } s =
            (Except.ok (row :: rest), s1) →
        db.execute { stmt := Stmt.selectLineItems, binds := [JsVal.str key] } s1 =
            (Except.ok lines, s2) →
        (getInvoiceDetails db key s).response =
          DetailsResponse.found row lines (lines.foldl addLineTotal (some 0))) ∧
      (∀ rows s1 e s2,
        db.execute { stmt := Stmt.selectInvoice, binds := [JsVal.str key] } s =
            (Except.ok rows, s1) →
        db.execute { stmt := Stmt.selectLineItems, binds := [JsVal.str key] } s1 =
            (Except.error e, s2) →
        (getInvoiceDetails db key s).response = DetailsResponse.plain (errorResponse e))) ∧
    ((∀ e s1, db.execute { stmt := Stmt.selectClient, binds := [JsVal.str key] } s =
          (Except.error e, s1) →
        (getClient db key s).response = errorResponse e) ∧
      (∀ e s1, db.execute { stmt := Stmt.selectProduct, binds := [JsVal.str key] } s =
          (Except.error e, s1) →
        (getProduct db key s).response = errorResponse e) ∧
      (∀ e s1, db.execute { stmt := Stmt.selectSession, binds := [JsVal.str key] } s =
          (Except.error e, s1) →
        (getSession db key s).response = SessionResponse.plain (errorResponse e)) ∧
      (∀ e s1, db.execute { stmt := Stmt.selectInvoice, binds := [JsVal.str key] } s =
          (Except.error e, s1) →
        (getInvoiceDetails db key s).response = DetailsResponse.plain (errorResponse e))) :=
  ⟨getClient_rule db key s, getProduct_rule db key s, getSession_rule db key s,
   getInvoiceDetails_rule db key s, lookup_throws_rule db key s⟩

/-! ## The last session date is overwritten, not maximised -/

theorem postSession_created_clients (eng : Engine) (body : JsObject) (st : Studio)
    (d c : String) (hd : getProp body "sessionDate" = JsVal.str d)
    (hc : getProp body "clientEmail" = JsVal.str c)
    (hok : (postSession (studioDb eng) body st).response.status = 201) :
    ∃ date, sqlDate eng (JsVal.str d) = Except.ok date ∧
      (postSession (studioDb eng) body st).state.clients =
        st.clients.map (fun r =>
          if sqlEqual (r "CLIENTEMAIL") (JsVal.str c) then
            assign r "LAST_SESSION_DATE" (dateValue date)
          else r) := by
  unfold postSession at hok ⊢
  simp only [studioDb] at hok ⊢
  cases hins : insertSessionRow (createSessionParams.map (getProp body)) st with
  | error e => simp [hins, errorResponse] at hok
  | ok st1 =>
    obtain ⟨hclients, _⟩ := insertSessionRow_clients _ st st1 hins
    simp only [hins, hd, hc, applyLastSessionUpdate] at hok ⊢
    cases hdate : sqlDate eng (JsVal.str d) with
    | error e => simp [hdate, errorResponse] at hok
    | ok date => exact ⟨date, rfl, by simp [hclients]⟩

/-- C30, counterexample: Jane has last session date 2024-06-01; after a POST
/api/sessions for her with date 2024-01-15, answered 201, her last session date is
2024-01-15, which is earlier. -/
theorem postSession_moves_last_session_date_earlier :
    returningStudio.clients.map (fun r => r "LAST_SESSION_DATE") = [JsVal.num 1717200000] ∧
      (postSession (studioDb twoDateEngine) earlierSessionBody returningStudio).response.status
        = 201 ∧
      (postSession (studioDb twoDateEngine) earlierSessionBody returningStudio).state.clients.map
        (fun r => r "LAST_SESSION_DATE") = [JsVal.num 1705276800] ∧
      (1705276800 : Int) < 1717200000 := by
  decide

/-- C30, amended: after a POST /api/sessions answered 201 with session date d for
client c, every client row of c has its last session date equal to the date of d,
whatever it was before; for a row whose previous date is the instant l and a date of
d that is the instant t, the new date is the later of l and t exactly when l is not
after t. -/
theorem postSession_overwrites_last_session_date (eng : Engine) (body : JsObject)
    (st : Studio) (d c : String) (hd : getProp body "sessionDate" = JsVal.str d)
    (hc : getProp body "clientEmail" = JsVal.str c)
    (hok : (postSession (studioDb eng) body st).response.status = 201) :
    ∃ date, sqlDate eng (JsVal.str d) = Except.ok date ∧
      ∀ i r, st.clients.get? i = some r → r "CLIENTEMAIL" = JsVal.str c →
        ∃ r', (postSession (studioDb eng) body st).state.clients.get? i = some r' ∧
          r' "LAST_SESSION_DATE" = dateValue date ∧
          ∀ l t : Int, r "LAST_SESSION_DATE" = JsVal.num (l : ℚ) → date = some t →
            ( r' "LAST_SESSION_DATE" = JsVal.num ((max l t : Int) : ℚ) ↔ l ≤ t) := by
  obtain ⟨date, hdate, hclients⟩ := postSession_created_clients eng body st d c hd hc hok
  refine ⟨date, hdate, ?_⟩
  intro i r hi hrc
  simp only [List.get?_eq_getElem?] at hi ⊢
  rw [hclients]
  simp only [List.getElem?_map, hi, Option.map_some']
  refine ⟨_, rfl, ?_, ?_⟩
  · simp [(sqlEqual_str _ _).mpr hrc, assign]
  · intro l t _ ht
    subst ht
    simp only [(sqlEqual_str _ _).mpr hrc, assign, if_true, dateValue]
    constructor
    · intro h
      have h1 : ((t : Int) : ℚ) = ((max l t : Int) : ℚ) := by
        simpa using h
      have h2 : t = max l t := by exact_mod_cast h1
      exact h2 ▸ le_max_left l t
    · intro h
      rw [max_eq_right h]

/-- Witness for C30: the session of 2024-01-15 for Jane, whose last session date was
2024-06-01. -/
theorem postSession_overwrites_last_session_date_witness :
    (postSession (studioDb twoDateEngine) earlierSessionBody returningStudio).response.status
        = 201 ∧
      ∃ date, sqlDate twoDateEngine (JsVal.str "2024-01-15") = Except.ok date ∧
        ∀ i r, returningStudio.clients.get? i = some r →
          r "CLIENTEMAIL" = JsVal.str "jane@x.com" →
          ∃ r', (postSession (studioDb twoDateEngine) earlierSessionBody
                returningStudio).state.clients.get? i = some r' ∧
            r' "LAST_SESSION_DATE" = dateValue date ∧
            ∀ l t : Int, r "LAST_SESSION_DATE" = JsVal.num (l : ℚ) → date = some t →
              ( r' "LAST_SESSION_DATE" = JsVal.num ((max l t : Int) : ℚ) ↔ l ≤ t) :=
  ⟨by decide,
   postSession_overwrites_last_session_date twoDateEngine earlierSessionBody returningStudio
     "2024-01-15" "jane@x.com" (by decide) (by decide) (by decide)⟩

/-! ## The proposed invoice number and its round trip through the displayed text -/

theorem digitChar_value (d : Nat) (h : d < 10) :
    (Nat.digitChar d).isDigit = true ∧ (Nat.digitChar d).toNat - 48 = d := by
  interval_cases d <;> decide

theorem toDigitsCore_isDigit (fuel : Nat) :
    ∀ (n : Nat) (ds : List Char), (∀ c ∈ ds, c.isDigit = true) →
      ∀ c ∈ Nat.toDigitsCore 10 fuel n ds, c.isDigit = true := by
  induction fuel with
  | zero => intro n ds hds c hc; exact hds c (by simpa [Nat.toDigitsCore] using hc)
  | succ fuel ih =>
    intro n ds hds c hc
    have hd := (digitChar_value (n % 10) (Nat.mod_lt _ (by decide))).1
    have hall : ∀ c ∈ Nat.digitChar (n % 10) :: ds, c.isDigit = true := by
      intro c hc
      rcases List.mem_cons.mp hc with h | h
      · rw [h]; exact hd
      · exact hds c h
    rw [Nat.toDigitsCore] at hc
    by_cases hz : n / 10 = 0
    · simp only [hz, if_true] at hc
      exact hall c hc
    · simp only [hz, if_false] at hc
      exact ih _ _ hall c hc

theorem toDigitsCore_value (fuel : Nat) :
    ∀ (n : Nat) (ds : List Char), n < fuel →
      (Nat.toDigitsCore 10 fuel n ds).foldl (fun a c => 10 * a + (c.toNat - 48)) 0 =
        ds.foldl (fun a c => 10 * a + (c.toNat - 48)) n := by
  induction fuel with
  | zero => intro n ds h; omega
  | succ fuel ih =>
    intro n ds h
    have hd := (digitChar_value (n % 10) (Nat.mod_lt _ (by decide))).2
    rw [Nat.toDigitsCore]
    by_cases hz : n / 10 = 0
    · have hn : n % 10 = n := by omega
      rw [hn] at hd
      simp only [hz, if_true, List.foldl_cons, hd, hn, Nat.mul_zero, Nat.zero_add]
    · simp only [hz, if_false]
      rw [ih (n / 10) _ (by omega)]
      simp only [List.foldl_cons, hd]
      congr 1
      omega

theorem toDigitsCore_ne_nil (fuel : Nat) :
    ∀ (n : Nat) (ds : List Char), n < fuel → Nat.toDigitsCore 10 fuel n ds ≠ [] := by
  induction fuel with
  | zero => intro n ds h; omega
  | succ fuel ih =>
    intro n ds h
    rw [Nat.toDigitsCore]
    by_cases hz : n / 10 = 0
    · simp [hz]
    · simp only [hz, if_false]
      exact ih _ _ (by omega)

theorem splitChars_of_not_mem (sep : Char) (l : List Char) (h : sep ∉ l) :
    splitChars sep l = [l] := by
  induction l with
  | nil => rfl
  | cons c rest ih =>
    have hc : c ≠ sep := fun e => h (by simp [e])
    have hrest : sep ∉ rest := fun e => h (List.mem_cons_of_mem _ e)
    simp [splitChars, hc, ih hrest]

theorem isDigit_not_special (c : Char) (hc : c.isDigit = true) :
    c.isWhitespace = false ∧ c ≠ '-' ∧ c ≠ '+' := by
  refine ⟨?_, ?_, ?_⟩
  · cases hw : c.isWhitespace with
    | false => rfl
    | true =>
      simp only [Char.isWhitespace, Bool.or_eq_true, decide_eq_true_eq] at hw
      rcases hw with ((h | h) | h) | h <;> (rw [h] at hc; exact absurd hc (by decide))
  · intro h; rw [h] at hc; exact absurd hc (by decide)
  · intro h; rw [h] at hc; exact absurd hc (by decide)

theorem parseInt_digits (cs : List Char) (hne : cs ≠ []) (hall : ∀ c ∈ cs, c.isDigit = true) :
    parseInt (String.mk cs) =
      some (toDouble ((cs.foldl (fun a c => 10 * a + (c.toNat - 48)) 0 : Nat) : Int)) := by
  cases cs with
  | nil => exact absurd rfl hne
  | cons c rest =>
    obtain ⟨hw, hminus, hplus⟩ := isDigit_not_special c (hall c (by simp))
    have hdrop : (c :: rest).dropWhile Char.isWhitespace = c :: rest := by
      simp [List.dropWhile, hw]
    have htake : (c :: rest).takeWhile Char.isDigit = c :: rest :=
      List.takeWhile_eq_self_iff.mpr hall
    unfold parseInt
    simp only [hdrop]
    have hneg : (match c :: rest with
        | '-' :: _ => true
        | _ => false) = false := by
      split
      · rename_i h; cases h; exact absurd rfl hminus
      · rfl
    have hrest : (match c :: rest with
        | '-' :: r => r
        | '+' :: r => r
        | other => other) = c :: rest := by
      split
      · rename_i h; cases h; exact absurd rfl hminus
      · rename_i h; cases h; exact absurd rfl hplus
      · rfl
    simp only [hneg, hrest, htake]
    simp

theorem foldl_zero_digits (z : Nat) (a : Nat) (h : a = 0) :
    (List.replicate z '0').foldl (fun a c => 10 * a + (c.toNat - 48)) a = 0 := by
  subst h
  induction z with
  | zero => rfl
  | succ z ih =>
    simp only [List.replicate_succ, List.foldl_cons]
    exact ih

theorem toDouble_of_le (n : Int) (h1 : -9007199254740992 ≤ n) (h2 : n ≤ 9007199254740992) :
    toDouble n = n := by
  unfold toDouble
  have h : n.natAbs ≤ 9007199254740992 := by omega
  simp [h]

theorem display_round_trip (k : Nat) (hk : k ≤ 9007199254740992) :
    (invoiceNumberDisplay (k : Int)).bind parsedInvoiceNumber = some (k : Int) := by
  have hdigit : ∀ c ∈ Nat.toDigits 10 k, c.isDigit = true :=
    toDigitsCore_isDigit (k + 1) k [] (by simp)
  have hvalue : (Nat.toDigits 10 k).foldl (fun a c => 10 * a + (c.toNat - 48)) 0 = k := by
    have h := toDigitsCore_value (k + 1) k [] (Nat.lt_succ_self k)
    simpa [Nat.toDigits] using h
  have hne : Nat.toDigits 10 k ≠ [] := toDigitsCore_ne_nil (k + 1) k [] (Nat.lt_succ_self k)
  have hall : ∀ c ∈ List.replicate (4 - (Nat.toDigits 10 k).length) '0' ++ Nat.toDigits 10 k,
      c.isDigit = true := by
    intro c hc
    rcases List.mem_append.mp hc with h | h
    · rw [(List.mem_replicate.mp h).2]; decide
    · exact hdigit c h
  have hminus : '-' ∉ List.replicate (4 - (Nat.toDigits 10 k).length) '0' ++ Nat.toDigits 10 k :=
    fun h => (isDigit_not_special _ (hall _ h)).2.1 rfl
  have htext : numberText (k : Int) = some (toString (k : Int)) := by
    unfold numberText
    have h : (k : Int).natAbs < 1000000000000000000000 := by omega
    rw [if_pos h]
  have hdisplay : invoiceNumberDisplay (k : Int) =
      some ("INV-" ++ padStartZero 4 (toString (k : Int))) := by
    unfold invoiceNumberDisplay
    rw [htext]
    rfl
  have hdata : ("INV-" ++ padStartZero 4 (toString (k : Int))).data =
      'I' :: 'N' :: 'V' :: '-' ::
        (List.replicate (4 - (Nat.toDigits 10 k).length) '0' ++ Nat.toDigits 10 k) := rfl
  rw [hdisplay, Option.some_bind]
  unfold parsedInvoiceNumber
  rw [hdata]
  have hsplit : splitChars '-' ('I' :: 'N' :: 'V' :: '-' ::
        (List.replicate (4 - (Nat.toDigits 10 k).length) '0' ++ Nat.toDigits 10 k)) =
      [['I', 'N', 'V'],
        List.replicate (4 - (Nat.toDigits 10 k).length) '0' ++ Nat.toDigits 10 k] := by
    simp [splitChars, splitChars_of_not_mem _ _ hminus]
  rw [hsplit]
  simp only []
  rw [parseInt_digits _ (by simp [hne]) hall, List.foldl_append,
    foldl_zero_digits _ 0 rfl, hvalue, toDouble_of_le _ (by omega) (by omega)]

theorem foldl_max_bounds (rest : List Int) :
    ∀ first : Int, (∀ x ∈ first :: rest, x ≤ rest.foldl max first) ∧
      rest.foldl max first ∈ first :: rest := by
  induction rest with
  | nil => intro first; simp
  | cons y rest ih =>
    intro first
    obtain ⟨hle, hmem⟩ := ih (max first y)
    refine ⟨?_, ?_⟩
    · intro x hx
      simp only [List.foldl_cons]
      rcases List.mem_cons.mp hx with h | h
      · rw [h]; exact le_trans (le_max_left first y) (hle _ (by simp))
      · rcases List.mem_cons.mp h with h1 | h1
        · rw [h1]; exact le_trans (le_max_right first y) (hle _ (by simp))
        · exact hle x (List.mem_cons_of_mem _ h1)
    · simp only [List.foldl_cons]
      rcases List.mem_cons.mp hmem with h | h
      · rw [h]
        rcases max_choice first y with h1 | h1 <;> simp [h1]
      · exact List.mem_cons_of_mem _ (List.mem_cons_of_mem _ h)

/-- C29, counterexample: with the one loaded invoice numbered 2^53 =
9007199254740992, the sum of the largest number and 1 is not a JavaScript number and
is rounded back to 9007199254740992, so the proposed number is the number of the
loaded invoice, not one more and not different from it. -/
theorem generateInvoiceNumber_repeats_at_2_53 :
    hugeInvoice.INVOICENUMBER = 9007199254740992 ∧
      toDouble (9007199254740992 + 1) = 9007199254740992 ∧
      nextInvoiceNumber [hugeInvoice] = 9007199254740992 ∧
      nextInvoiceNumber [hugeInvoice] ≠ hugeInvoice.INVOICENUMBER + 1 ∧
      ¬ (∀ inv ∈ [hugeInvoice], inv.INVOICENUMBER < nextInvoiceNumber [hugeInvoice] ∧
        nextInvoiceNumber [hugeInvoice] ≠ inv.INVOICENUMBER) := by
  decide

/-- C29, amended: with no invoice loaded the proposed number is 1001; with invoices
loaded whose numbers are integers below 2^53 in absolute value, it is one more than
the number of one of them, it is greater than the number of each of them and so
differs from each; and for a proposed number n from 1 to 2^53, the number read back
from the displayed text "INV-" followed by n padded to four digits is n. -/
theorem generateInvoiceNumber_fresh (invoicesData : List InvoiceRow) (n : Int)
    (hsafe : ∀ inv ∈ invoicesData,
      -9007199254740992 < inv.INVOICENUMBER ∧ inv.INVOICENUMBER < 9007199254740992)
    (hn : 1 ≤ n) (hn2 : n ≤ 9007199254740992) :
    nextInvoiceNumber [] = 1001 ∧
      (invoicesData ≠ [] →
        (∃ inv ∈ invoicesData, nextInvoiceNumber invoicesData = inv.INVOICENUMBER + 1) ∧
        ∀ inv ∈ invoicesData, inv.INVOICENUMBER < nextInvoiceNumber invoicesData ∧
          nextInvoiceNumber invoicesData ≠ inv.INVOICENUMBER) ∧
      (invoiceNumberDisplay n).bind parsedInvoiceNumber = some n := by
  refine ⟨rfl, ?_, ?_⟩
  · intro hne
    cases invoicesData with
    | nil => exact absurd rfl hne
    | cons first rest =>
      obtain ⟨hle, hmem⟩ := foldl_max_bounds (rest.map (fun inv => inv.INVOICENUMBER))
        first.INVOICENUMBER
      have hmem1 : (rest.map (fun inv => inv.INVOICENUMBER)).foldl max first.INVOICENUMBER ∈
          (first :: rest).map (fun inv => inv.INVOICENUMBER) := by
        simpa using hmem
      obtain ⟨top, htop, heq⟩ := List.mem_map.mp hmem1
      have hbound := hsafe top htop
      rw [heq] at hbound
      have hdef : nextInvoiceNumber (first :: rest) = toDouble
          ((rest.map (fun inv => inv.INVOICENUMBER)).foldl max first.INVOICENUMBER + 1) := rfl
      have hnext : nextInvoiceNumber (first :: rest) =
          (rest.map (fun inv => inv.INVOICENUMBER)).foldl max first.INVOICENUMBER + 1 := by
        rw [hdef]
        exact toDouble_of_le _ (by omega) (by omega)
      rw [hnext]
      refine ⟨⟨top, htop, by rw [heq]⟩, ?_⟩
      intro inv hinv
      have h1 : inv.INVOICENUMBER ≤
          (rest.map (fun inv => inv.INVOICENUMBER)).foldl max first.INVOICENUMBER := by
        apply hle
        have : inv.INVOICENUMBER ∈ (first :: rest).map (fun inv => inv.INVOICENUMBER) :=
          List.mem_map.mpr ⟨inv, hinv, rfl⟩
        simpa using this
      constructor <;> omega
  · obtain ⟨k, hk⟩ := Int.eq_ofNat_of_zero_le (le_trans (by decide) hn)
    rw [hk]
    exact display_round_trip k (by omega)

/-- Witness for C29: the sample invoice alone is loaded, and the proposed number 1002
is displayed and read back. -/
theorem generateInvoiceNumber_fresh_witness :
    (∀ inv ∈ [sampleInvoice],
        -9007199254740992 < inv.INVOICENUMBER ∧ inv.INVOICENUMBER < 9007199254740992) ∧
      (1 : Int) ≤ 1002 ∧ (1002 : Int) ≤ 9007199254740992 ∧ nextInvoiceNumber [] = 1001 ∧
      ([sampleInvoice] ≠ [] →
        (∃ inv ∈ [sampleInvoice], nextInvoiceNumber [sampleInvoice] = inv.INVOICENUMBER + 1) ∧
        ∀ inv ∈ [sampleInvoice], inv.INVOICENUMBER < nextInvoiceNumber [sampleInvoice] ∧
          nextInvoiceNumber [sampleInvoice] ≠ inv.INVOICENUMBER) ∧
      (invoiceNumberDisplay 1002).bind parsedInvoiceNumber = some 1002 :=
  ⟨by decide, by decide, by decide,
   generateInvoiceNumber_fresh [sampleInvoice] 1002 (by decide) (by decide) (by decide)⟩

/-! ## The balance of the invoice form is clamped at zero -/

theorem toFixed2_cents (k : Int) : toFixed2 ((k : ℚ) / 100) = (k : ℚ) / 100 := by
  unfold toFixed2
  have h : Rat.floor ((k : ℚ) / 100 * 100 + 1 / 2) = k := by
    show Int.floor ((k : ℚ) / 100 * 100 + 1 / 2) = k
    rw [Int.floor_eq_iff]
    constructor
    · linarith
    · linarith
  rw [h]

theorem updateBalance_balance (form : InvoiceForm) (t p : Int)
    (ht : orZero form.totalDue = (t : ℚ) / 100) (hp : orZero form.amountPaid = (p : ℚ) / 100) :
    (updateBalance form).balanceDue = some (((max 0 (t - p) : Int) : ℚ) / 100) := by
  unfold updateBalance
  simp only [ht, hp]
  have h : max (0 : ℚ) ((t : ℚ) / 100 - (p : ℚ) / 100) = ((max 0 (t - p) : Int) : ℚ) / 100 := by
    rcases le_total (t - p) 0 with h0 | h0
    · have h1 : ((t : ℚ) / 100 - (p : ℚ) / 100) ≤ 0 := by
        have : ((t - p : Int) : ℚ) ≤ 0 := by exact_mod_cast h0
        push_cast at this
        linarith
      rw [max_eq_left h1, max_eq_left h0]
      simp
    · have h1 : 0 ≤ ((t : ℚ) / 100 - (p : ℚ) / 100) := by
        have : (0 : ℚ) ≤ ((t - p : Int) : ℚ) := by exact_mod_cast h0
        push_cast at this
        linarith
      rw [max_eq_right h1, max_eq_right h0]
      push_cast
      ring
  rw [h, toFixed2_cents]

/-- C24, counterexample: with total due 100.00 and amount paid 150.00, `updateBalance`
sets the balance to 0, and the payload `saveInvoice` then sends has balanceDue 0 with
totalDue 100 and paymentReceived 150, while total due minus payment received is
-50. -/
theorem updateBalance_overpaid_balance_zero :
    (updateBalance overpaidForm).balanceDue = some 0 ∧
      (saveInvoicePayload (updateBalance overpaidForm)).map
          (fun payload => [getProp payload.fields "totalDue",
            getProp payload.fields "paymentReceived", getProp payload.fields "balanceDue"]) =
        some [JsVal.num 100, JsVal.num 150, JsVal.num 0] ∧
      (100 : ℚ) - 150 = -50 := by
  have h := updateBalance_balance overpaidForm 10000 15000
    (by norm_num [overpaidForm, orZero]) (by norm_num [overpaidForm, orZero])
  have h0 : (updateBalance overpaidForm).balanceDue = some 0 := by
    rw [h]
    norm_num
  refine ⟨h0, ?_, by norm_num⟩
  have hrest : updateBalance overpaidForm = { overpaidForm with balanceDue := some 0 } := by
    have : updateBalance overpaidForm =
        { overpaidForm with balanceDue := (updateBalance overpaidForm).balanceDue } := rfl
    rw [this, h0]
  rw [hrest]
  decide

/-- C24, amended: for a total due of t hundredths and an amount paid of p hundredths
(an input that does not parse counting as 0), `updateBalance` sets the balance to the
larger of 0 and total due minus amount paid; that is total due minus amount paid
exactly when the amount paid does not exceed the total due; and a payload built
afterwards sends this balance as balanceDue. -/
theorem updateBalance_clamps (form : InvoiceForm) (t p : Int)
    (ht : orZero form.totalDue = (t : ℚ) / 100) (hp : orZero form.amountPaid = (p : ℚ) / 100) :
    (updateBalance form).balanceDue = some (max 0 ((t : ℚ) / 100 - (p : ℚ) / 100)) ∧
      ((updateBalance form).balanceDue = some ((t : ℚ) / 100 - (p : ℚ) / 100) ↔ p ≤ t) ∧
      ∀ payload, saveInvoicePayload (updateBalance form) = some payload →
        getProp payload.fields "balanceDue" =
          JsVal.num (max 0 ((t : ℚ) / 100 - (p : ℚ) / 100)) := by
  have hb := updateBalance_balance form t p ht hp
  have hmax : ((max 0 (t - p) : Int) : ℚ) / 100 = max 0 ((t : ℚ) / 100 - (p : ℚ) / 100) := by
    rcases le_total (t - p) 0 with h0 | h0
    · have h1 : ((t : ℚ) / 100 - (p : ℚ) / 100) ≤ 0 := by
        have : ((t - p : Int) : ℚ) ≤ 0 := by exact_mod_cast h0
        push_cast at this
        linarith
      rw [max_eq_left h1, max_eq_left h0]
      simp
    · have h1 : 0 ≤ ((t : ℚ) / 100 - (p : ℚ) / 100) := by
        have : (0 : ℚ) ≤ ((t - p : Int) : ℚ) := by exact_mod_cast h0
        push_cast at this
        linarith
      rw [max_eq_right h1, max_eq_right h0]
      push_cast
      ring
  rw [hmax] at hb
  refine ⟨hb, ?_, ?_⟩
  · rw [hb, Option.some.injEq]
    constructor
    · intro h
      have h1 : (0 : ℚ) ≤ (t : ℚ) / 100 - (p : ℚ) / 100 := by
        rw [← h]; exact le_max_left _ _
      have h2 : (p : ℚ) ≤ (t : ℚ) := by linarith
      exact_mod_cast h2
    · intro h
      have h2 : (p : ℚ) ≤ (t : ℚ) := by exact_mod_cast h
      exact max_eq_right (by linarith)
  · intro payload hpayload
    unfold saveInvoicePayload at hpayload
    split at hpayload
    · simp only [] at hpayload
      split at hpayload
      · cases hpayload
      · cases hpayload
        simp [getProp, List.lookup, hb, orZero]
    · cases hpayload

/-- Witness for C24: the sample form, total due 43.20 and nothing paid. -/
theorem updateBalance_clamps_witness :
    orZero sampleForm.totalDue = ((4320 : Int) : ℚ) / 100 ∧
      orZero sampleForm.amountPaid = ((0 : Int) : ℚ) / 100 ∧
      (updateBalance sampleForm).balanceDue =
        some (max 0 (((4320 : Int) : ℚ) / 100 - ((0 : Int) : ℚ) / 100)) ∧
      ((updateBalance sampleForm).balanceDue =
        some (((4320 : Int) : ℚ) / 100 - ((0 : Int) : ℚ) / 100) ↔ (0 : Int) ≤ 4320) ∧
      ∀ payload, saveInvoicePayload (updateBalance sampleForm) = some payload →
        getProp payload.fields "balanceDue" =
          JsVal.num (max 0 (((4320 : Int) : ℚ) / 100 - ((0 : Int) : ℚ) / 100)) :=
  have h1 : orZero sampleForm.totalDue = ((4320 : Int) : ℚ) / 100 := by
    norm_num [sampleForm, orZero]
  have h2 : orZero sampleForm.amountPaid = ((0 : Int) : ℚ) / 100 := by
    norm_num [sampleForm, orZero]
  ⟨h1, h2, updateBalance_clamps sampleForm 4320 0 h1 h2⟩

/-! ## Pagination -/

theorem pageSlice_eq {α : Type} (l : List α) (p : Nat) :
    pageSlice l ((p : Int) + 1) = (l.drop (10 * p)).take 10 := by
  unfold pageSlice jsSlice itemsPerPage
  have h1 : ¬ (((p : Int) + 1 - 1) * ((10 : Nat) : Int) < 0) := by push_cast; omega
  have h2 : ¬ (((p : Int) + 1 - 1) * ((10 : Nat) : Int) + ((10 : Nat) : Int) < 0) := by
    push_cast; omega
  simp only [h1, h2, if_false]
  rcases le_total (10 * p) l.length with h | h
  · have hfrom : min (((p : Int) + 1 - 1) * ((10 : Nat) : Int)) (l.length : Int) =
        ((10 * p : Nat) : Int) := by
      push_cast; omega
    rw [hfrom]
    rcases le_total (10 * p + 10) l.length with h3 | h3
    · have hto : min (((p : Int) + 1 - 1) * ((10 : Nat) : Int) + ((10 : Nat) : Int))
          (l.length : Int) = ((10 * p + 10 : Nat) : Int) := by
        push_cast; omega
      rw [hto]
      have hd : (((10 * p + 10 : Nat) : Int) - ((10 * p : Nat) : Int)).toNat = 10 := by
        push_cast; omega
      rw [hd, Int.toNat_ofNat]
    · have hto : min (((p : Int) + 1 - 1) * ((10 : Nat) : Int) + ((10 : Nat) : Int))
          (l.length : Int) = (l.length : Int) := by
        push_cast; omega
      rw [hto]
      have hd : ((l.length : Int) - ((10 * p : Nat) : Int)).toNat = l.length - 10 * p := by
        push_cast; omega
      rw [hd, Int.toNat_ofNat]
      have hlen : (l.drop (10 * p)).length = l.length - 10 * p := List.length_drop _ _
      rw [List.take_of_length_le (by omega), List.take_of_length_le (by omega)]
  · have hfrom : min (((p : Int) + 1 - 1) * ((10 : Nat) : Int)) (l.length : Int) =
        ((l.length : Nat) : Int) := by
      push_cast; omega
    have hto : min (((p : Int) + 1 - 1) * ((10 : Nat) : Int) + ((10 : Nat) : Int))
        (l.length : Int) = (l.length : Int) := by
      push_cast; omega
    rw [hfrom, hto]
    simp [List.drop_of_length_le h]

theorem flatMap_pages {α : Type} (l : List α) (pages : Nat) :
    (List.range pages).flatMap (fun i => pageSlice l ((i : Int) + 1)) = l.take (10 * pages) := by
  induction pages with
  | zero => simp
  | succ pages ih =>
    rw [List.range_succ, List.flatMap_append, ih]
    simp only [List.flatMap_cons, List.flatMap_nil, List.append_nil]
    rw [pageSlice_eq, Nat.mul_succ, List.take_add]

/-- C28: for every filtered list, with the number of pages the length divided by 10
and rounded up, the slices of pages 1 to that number, put one after the other in page
order, are the filtered list; each of these slices holds between 1 and 10 items and
its item at offset j is the item of the list at position 10 (p - 1) + j, so two
different pages, or two different offsets, never show the same position; and
`changePage` moves to the new page exactly when it lies between 1 and the number of
pages and otherwise leaves the current page as it is. -/
theorem pagination_partitions {α : Type} (filtered : List α) :
    (List.range (totalPages filtered.length)).flatMap
        (fun i => pageSlice filtered ((i : Int) + 1)) = filtered ∧
      (∀ p : Nat, 1 ≤ p → p ≤ totalPages filtered.length →
        1 ≤ (pageSlice filtered (p : Int)).length ∧
        (pageSlice filtered (p : Int)).length ≤ 10 ∧
        ∀ j, j < (pageSlice filtered (p : Int)).length →
          (pageSlice filtered (p : Int)).get? j = filtered.get? (10 * (p - 1) + j)) ∧
      (∀ p q j k : Nat, 1 ≤ p → 1 ≤ q →
        j < (pageSlice filtered (p : Int)).length →
        k < (pageSlice filtered (q : Int)).length →
        10 * (p - 1) + j = 10 * (q - 1) + k → p = q ∧ j = k) ∧
      ∀ currentPage direction : Int,
        (1 ≤ currentPage + direction ∧
            currentPage + direction ≤ (totalPages filtered.length : Int) →
          changePage filtered.length currentPage direction = currentPage + direction) ∧
        (¬ (1 ≤ currentPage + direction ∧
            currentPage + direction ≤ (totalPages filtered.length : Int)) →
          changePage filtered.length currentPage direction = currentPage) := by
  have hpage : ∀ p : Nat, 1 ≤ p →
      pageSlice filtered (p : Int) = (filtered.drop (10 * (p - 1))).take 10 := by
    intro p hp
    have h := pageSlice_eq filtered (p - 1)
    have hcast : (((p - 1 : Nat) : Int) + 1) = (p : Int) := by omega
    rw [hcast] at h
    exact h
  have hlen : ∀ p : Nat, 1 ≤ p →
      (pageSlice filtered (p : Int)).length = min 10 (filtered.length - 10 * (p - 1)) := by
    intro p hp
    rw [hpage p hp, List.length_take, List.length_drop]
  refine ⟨?_, ?_, ?_, ?_⟩
  · rw [flatMap_pages]
    apply List.take_of_length_le
    unfold totalPages itemsPerPage
    omega
  · intro p hp1 hp2
    have hl := hlen p hp1
    unfold totalPages itemsPerPage at hp2
    refine ⟨by omega, by omega, ?_⟩
    intro j hj
    rw [hpage p hp1]
    simp only [List.get?_eq_getElem?]
    rw [List.getElem?_take_of_lt (by omega), List.getElem?_drop]
  · intro p q j k hp hq hj hk h
    have hl1 := hlen p hp
    have hl2 := hlen q hq
    omega
  · intro currentPage direction
    unfold changePage
    constructor
    · intro h
      simp only [h, and_self, if_true]
    · intro h
      simp only [h, if_false]

/-! ## The revenue report: periods in text order -/

/-- C26, at the failing input: for an invoice of May 2023 and one of February 2024,
both in range, grouping by quarter files them under "Q2 2023" and "Q1 2024" and the
labels returned are "Q1 2024" then "Q2 2023", the later period first; grouping the
same invoices by month returns "2023-05" then "2024-02". -/
theorem prepareRevenueData_quarters_in_text_order :
    sampleReportInvoices.map (fun invoice => decide (0 ≤ invoice.time ∧
        invoice.time ≤ 2000000000000)) = [true, true] ∧
      sampleReportInvoices.map (fun invoice => invoice.time) = [1683676800000, 1707523200000] ∧
      (1683676800000 : Int) < 1707523200000 ∧
      sampleReportInvoices.map (periodKey GroupBy.quarter) = ["Q2 2023", "Q1 2024"] ∧
      revenueLabels GroupBy.quarter 0 2000000000000 sampleReportInvoices =
        ["Q1 2024", "Q2 2023"] ∧
      revenueLabels GroupBy.month 0 2000000000000 sampleReportInvoices =
        ["2023-05", "2024-02"] := by
  decide

/-! ## The invoice form sends its lines under a name the server does not read -/

theorem postInvoice_no_line_calls {σ : Type} (db : Db σ) (req : InvoiceRequest) (s : σ)
    (h : req.lineItems = none) :
    ∀ c ∈ (postInvoice db req s).calls, c.stmt ≠ Stmt.insertLineItem := by
  have hroll : ∀ (e : String) (s1 : σ) (calls : List SqlCall),
      (∀ c ∈ calls, c.stmt ≠ Stmt.insertLineItem) →
      ∀ c ∈ (rollbackAndFail db e s1 calls).calls, c.stmt ≠ Stmt.insertLineItem := by
    intro e s1 calls hcalls c hc
    unfold rollbackAndFail at hc
    rcases hexec : db.execute { stmt := Stmt.rollback, binds := [] } s1 with ⟨r, s2⟩
    rw [hexec] at hc
    cases r <;>
      · simp only [List.mem_append, List.mem_singleton] at hc
        rcases hc with hc | hc
        · exact hcalls c hc
        · rw [hc]; simp
  unfold postInvoice
  simp only [h, Option.getD_none, insertLineItems]
  rcases hbegin : db.execute { stmt := Stmt.begin, binds := [] } s with ⟨r1, s1⟩
  cases r1 with
  | error e =>
    simp only []
    apply hroll
    intro c hc
    simp only [List.mem_singleton] at hc
    rw [hc]; simp
  | ok rows1 =>
    simp only []
    rcases hheader : db.execute { stmt := Stmt.insertInvoice, binds := invoiceParams req.body } s1
      with ⟨r2, s2⟩
    cases r2 with
    | error e =>
      simp only []
      apply hroll
      intro c hc
      simp only [List.mem_cons, List.mem_singleton, List.not_mem_nil, or_false] at hc
      rcases hc with hc | hc <;> (rw [hc]; simp)
    | ok rows2 =>
      simp only []
      rcases hcommit : db.execute { stmt := Stmt.commit, binds := [] } s2 with ⟨r3, s3⟩
      cases r3 with
      | error e =>
        simp only []
        apply hroll
        intro c hc
        simp only [List.append_nil, List.cons_append, List.nil_append, List.mem_cons,
          List.mem_singleton, List.not_mem_nil, or_false] at hc
        rcases hc with hc | hc | hc <;> (rw [hc]; simp)
      | ok rows3 =>
        simp only []
        intro c hc
        simp only [List.append_nil, List.cons_append, List.nil_append, List.mem_cons,
          List.mem_singleton, List.not_mem_nil, or_false] at hc
        rcases hc with hc | hc | hc <;> (rw [hc]; simp)

/-- C23, for every input: a payload `saveInvoice` builds has its collected rows under
the one array member `items` and none named `lineItems`, so the request the server
parses has no line items and `POST /api/invoices` runs no line-item INSERT, on every
database. At the sample form with one valid item row: one item is sent, the
statements run are BEGIN, the invoice INSERT and COMMIT, the answer is 201, no
line-item row is stored, and reading the details of invoice 1001 afterwards returns
no line. -/
theorem saveInvoice_lines_not_stored {σ : Type} (db : Db σ) (s : σ) (form : InvoiceForm) :
    (∀ payload, saveInvoicePayload form = some payload →
        payload.arrays.map Prod.fst = ["items"] ∧
        (payload.arrays.lookup "items").map List.length =
          some (form.rows.filterMap itemOfRow).length ∧
        1 ≤ (form.rows.filterMap itemOfRow).length ∧
        (requestOfPayload payload).lineItems = none ∧
        ∀ c ∈ (postInvoice db (requestOfPayload payload) s).calls,
          c.stmt ≠ Stmt.insertLineItem) ∧
      (saveInvoicePayload sampleForm).map
          (fun payload => (payload.arrays.lookup "items").map List.length) = some (some 1) ∧
      (saveInvoicePayload sampleForm).map
          (fun payload => (postInvoice (studioDb sampleEngine) (requestOfPayload payload)
            sampleStudio).calls.map SqlCall.stmt) =
        some [Stmt.begin, Stmt.insertInvoice, Stmt.commit] ∧
      (saveInvoicePayload sampleForm).map
          (fun payload => (postInvoice (studioDb sampleEngine) (requestOfPayload payload)
            sampleStudio).response.map (fun r => r.status)) = some (some 201) ∧
      (saveInvoicePayload sampleForm).map
          (fun payload => (postInvoice (studioDb sampleEngine) (requestOfPayload payload)
            sampleStudio).state.lineItems.length) = some 0 ∧
      (saveInvoicePayload sampleForm).map
          (fun payload =>
            match (getInvoiceDetails (studioDb sampleEngine) "1001"
              (postInvoice (studioDb sampleEngine) (requestOfPayload payload)
                sampleStudio).state).response with
            | DetailsResponse.found _ lineItems _ => some lineItems.length
            | DetailsResponse.plain _ => none) = some (some 0) := by
  refine ⟨?_, by decide, by decide, by decide, by decide, by decide⟩
  intro payload hpayload
  unfold saveInvoicePayload at hpayload
  split at hpayload
  · simp only [] at hpayload
    split at hpayload
    · cases hpayload
    · rename_i hlen
      cases hpayload
      refine ⟨rfl, by simp [List.lookup], by omega, ?_, ?_⟩
      · simp [requestOfPayload, List.lookup]
      · exact postInvoice_no_line_calls db _ s (by simp [requestOfPayload, List.lookup])
  · cases hpayload

/-! ## Invoice creation on an engine that rejects BEGIN -/

theorem postInvoice_begin_rejected (eng : Engine) (req : InvoiceRequest) (st : Studio)
    (hbegin : eng.acceptsBegin = false) :
    postInvoice (studioDb eng) req st =
      { response := some (errorResponse
          "ORA-06550: PLS-00103: Encountered the symbol end-of-file")
        state := st
        calls := [{ stmt := Stmt.begin, binds := [] }, { stmt := Stmt.rollback, binds := [] }] } := by
  unfold postInvoice
  simp [studioDb, hbegin, rollbackAndFail]

/-- C13: on an engine that rejects the bare statement BEGIN, as Oracle does, the
handler of POST /api/invoices runs BEGIN, which throws, and then ROLLBACK, and no
other statement. For every request and every stored content the content afterwards
is the content before and the answer is 500, so whichever insert of the request would
fail, no invoice row and no line-item row written by the request remains. -/
theorem postInvoice_writes_nothing (eng : Engine) (req : InvoiceRequest) (st : Studio)
    (hbegin : eng.acceptsBegin = false) :
    (postInvoice (studioDb eng) req st).state = st ∧
      (postInvoice (studioDb eng) req st).calls =
        [{ stmt := Stmt.begin, binds := [] }, { stmt := Stmt.rollback, binds := [] }] ∧
      (∀ call ∈ (postInvoice (studioDb eng) req st).calls,
        call.stmt ≠ Stmt.insertInvoice ∧ call.stmt ≠ Stmt.insertLineItem) ∧
      (postInvoice (studioDb eng) req st).response.map Response.status = some 500 := by
  rw [postInvoice_begin_rejected eng req st hbegin]
  refine ⟨rfl, rfl, ?_, rfl⟩
  intro call hcall
  simp only [List.mem_cons, List.mem_singleton, List.not_mem_nil, or_false] at hcall
  rcases hcall with h | h <;> (rw [h]; simp)

/-- Witness for C13: invoice 1001 with a line for the stored product P1 and a line for
the unknown product NOPE, sent to the sample studio on the engine that rejects
BEGIN. -/
theorem postInvoice_writes_nothing_witness :
    oracleEngine.acceptsBegin = false ∧
      (postInvoice (studioDb oracleEngine) failingInvoiceRequest sampleStudio).state =
        sampleStudio ∧
      (postInvoice (studioDb oracleEngine) failingInvoiceRequest sampleStudio).calls =
        [{ stmt := Stmt.begin, binds := [] }, { stmt := Stmt.rollback, binds := [] }] ∧
      (∀ call ∈ (postInvoice (studioDb oracleEngine) failingInvoiceRequest sampleStudio).calls,
        call.stmt ≠ Stmt.insertInvoice ∧ call.stmt ≠ Stmt.insertLineItem) ∧
      (postInvoice (studioDb oracleEngine) failingInvoiceRequest sampleStudio).response.map
        Response.status = some 500 :=
  ⟨rfl, postInvoice_writes_nothing oracleEngine failingInvoiceRequest sampleStudio rfl⟩

/-- C14, at the failing input: on the engine that rejects BEGIN, creating invoice 1001
for the stored client Jane with two P1 and one P2 is answered 500 after BEGIN and
ROLLBACK, no invoice and no line is stored, and GET /api/invoices/1001/details
afterwards is answered 404 "Invoice not found" instead of the submitted amounts. On
every engine that rejects BEGIN no request to POST /api/invoices is answered 201. -/
theorem postInvoice_then_details_not_found :
    (postInvoice (studioDb oracleEngine) sampleInvoiceRequest sampleStudio).response =
        some { status := 500
               body := [("error", JsVal.str
                 "ORA-06550: PLS-00103: Encountered the symbol end-of-file")] } ∧
      (postInvoice (studioDb oracleEngine) sampleInvoiceRequest sampleStudio).calls.map
          SqlCall.stmt = [Stmt.begin, Stmt.rollback] ∧
      (postInvoice (studioDb oracleEngine) sampleInvoiceRequest sampleStudio).state.invoices.length
        = 0 ∧
      (postInvoice (studioDb oracleEngine) sampleInvoiceRequest sampleStudio).state.lineItems.length
        = 0 ∧
      (match (getInvoiceDetails (studioDb oracleEngine) "1001"
          (postInvoice (studioDb oracleEngine) sampleInvoiceRequest sampleStudio).state).response with
        | DetailsResponse.found _ _ _ => none
        | DetailsResponse.plain response => some response) =
        some { status := 404, body := [("error", JsVal.str "Invoice not found")] } ∧
      ∀ (eng : Engine) (req : InvoiceRequest) (st : Studio), eng.acceptsBegin = false →
        (postInvoice (studioDb eng) req st).response.map Response.status ≠ some 201 := by
  refine ⟨by decide, by decide, by decide, by decide, by decide, ?_⟩
  intro eng req st hbegin
  rw [postInvoice_begin_rejected eng req st hbegin]
  simp [errorResponse]

end PhotographyStudio
